import Mathlib

/-!
# Verification of the grid generators and the frame loop of vulkan-hourglass

Shallow embedding of `src/Grid.cpp` (with the constants of
`src/ApplicationDefines.hpp`), of `src/ComputeUpdateTimer.cpp`, of
`src/RuntimeStatistics.cpp`, of the frame loop of `src/main.cpp` and of the
constructor, the device selection and the swapchain recreation of
`src/VulkanContext.cpp`, with proofs about the generated cell grids, the update
timer, the runtime statistics, the calls of the frame loop, the status of the
Vulkan context and the handles it holds.

Conventions of the embedding:

* `uint32_t` values are `Nat`s below `2^32`; every `uint32_t` operation of the
  source is taken modulo `2^32` (`u32add`, `u32sub`, `u32mul`).
* `int32_t` values are `Int`s; an operation whose result leaves the `int32_t`
  range is undefined in C++ and yields `none` (`i32`).
* `std::vector<uint32_t>` is `List Nat`; a write through `operator[]` outside
  the vector is undefined in C++ and yields `none` (`writeCell`).
* the compile time constants are the fields of `Config`, so that the same
  definitions can be run on small grids; `defaultConfig` holds the values of
  `ApplicationDefines.hpp`.
* the pseudo random draws are an explicit argument of the generators.
* the steady clock, the window system and the Vulkan driver are outside the
  program: clock readings and result codes are explicit arguments, and the
  calls that the program makes are returned as a list in program order.
* a run of `main` is followed over the inputs of its iterations and ends as a
  `RunResult`: a return with a status, or one of the ways in which the run
  does not reach its return.
-/

namespace VkHourglass

/-! ## Machine arithmetic -/

/-- Number of `uint32_t` values. -/
def U32 : Nat := 4294967296

/-- Largest `int32_t`, `std::numeric_limits<int32_t>::max()`. -/
def INT32_MAX : Int := 2147483647

/-- Smallest `int32_t`. -/
def INT32_MIN : Int := -2147483648

/-- Largest `uint32_t`, `std::numeric_limits<uint32_t>::max()`. -/
def UINT32_MAX : Nat := 4294967295

/-- Sum of two `uint32_t`. -/
def u32add (a b : Nat) : Nat := (a + b) % U32

/-- Difference of two `uint32_t` (wraps around below zero). -/
def u32sub (a b : Nat) : Nat := (a + U32 - b % U32) % U32

/-- Product of two `uint32_t`. -/
def u32mul (a b : Nat) : Nat := (a * b) % U32

/-- Result of an `int32_t` operation: defined only inside the `int32_t` range. -/
def i32 (v : Int) : Option Int :=
  if INT32_MIN ≤ v ∧ v ≤ INT32_MAX then some v else none

/-- Conversion `uint32_t → int32_t` (two's complement). -/
def toI32 (n : Nat) : Int :=
  if n % U32 < 2147483648 then ((n % U32 : Nat) : Int) else ((n % U32 : Nat) : Int) - 4294967296

/-- Conversion `int32_t → uint32_t`, `static_cast<uint32_t>`. -/
def toU32 (v : Int) : Nat := (v % 4294967296).toNat

/-! ## Single precision values

Only non-negative finite values in the normal range occur in `Grid.cpp`; they
are represented exactly as `m * 2^e`. -/

/-- A non-negative `float`, the value `m * 2^e`. -/
structure F32 where
  /-- Significand. -/
  m : Nat
  /-- Binary exponent. -/
  e : Int
  deriving DecidableEq

/-- Number of binary digits of `n`, counted with at most `fuel` halvings. -/
def bitLengthAux : Nat → Nat → Nat
  | 0, _ => 0
  | fuel + 1, n => if n = 0 then 0 else bitLengthAux fuel (n / 2) + 1

/-- Number of binary digits of `n` (`0` for `n = 0`). -/
def bitLength (n : Nat) : Nat := bitLengthAux n n

namespace F32

/-- Rounding of the exact value `m * 2^e` to 24 significant bits, to nearest,
ties to even. -/
def round (m : Nat) (e : Int) : F32 :=
  let bits := bitLength m
  if bits ≤ 24 then ⟨m, e⟩
  else
    let s := bits - 24
    let q := m / 2 ^ s
    let r := m % 2 ^ s
    let h := 2 ^ (s - 1)
    let q1 := if r > h ∨ (r = h ∧ q % 2 = 1) then q + 1 else q
    ⟨q1, e + (s : Int)⟩

/-- Conversion `uint32_t → float`. -/
def ofU32 (n : Nat) : F32 := round n 0

/-- Product of two `float`s. -/
def mul (a b : F32) : F32 := round (a.m * b.m) (a.e + b.e)

/-- Sum of two `float`s. -/
def add (a b : F32) : F32 :=
  let e := min a.e b.e
  round (a.m * 2 ^ (a.e - e).toNat + b.m * 2 ^ (b.e - e).toNat) e

/-- Truncation of a `float` to an unsigned integer, `static_cast<uint32_t>` and
`static_cast<size_t>`. -/
def toNat (a : F32) : Nat :=
  if 0 ≤ a.e then a.m * 2 ^ a.e.toNat else a.m / 2 ^ (-a.e).toNat

end F32

/-! ## Compile time constants (`ApplicationDefines.hpp`) -/

/-- The constants of `ApplicationDefines.hpp` read by `Grid.cpp`. -/
structure Config where
  GRID_WIDTH : Nat
  GRID_HEIGHT : Nat
  COMPUTE_LOCAL_GROUP_SIZE_X : Nat
  HOURGLASS_WIDTH : Nat
  HOURGLASS_HEIGHT : Nat
  HOURGLASS_BORDER_WIDTH : Nat
  HOURGLASS_CENTER_WIDTH : Nat
  HOURGLASS_FILL_PERCENTAGE : F32
  RADIUS : Nat
  MIN_RADIUS : Nat
  MAX_RADIUS : Nat
  CIRCLE_COUNT : Nat
  PARTICLE_COUNT : Nat

/-- The values of `ApplicationDefines.hpp`; `0.8f` is `13421773 * 2^-24`. -/
def defaultConfig : Config where
  GRID_WIDTH := 1024
  GRID_HEIGHT := 1024
  COMPUTE_LOCAL_GROUP_SIZE_X := 32
  HOURGLASS_WIDTH := 300
  HOURGLASS_HEIGHT := 1000
  HOURGLASS_BORDER_WIDTH := 4
  HOURGLASS_CENTER_WIDTH := 4
  HOURGLASS_FILL_PERCENTAGE := ⟨13421773, -24⟩
  RADIUS := 250
  MIN_RADIUS := 10
  MAX_RADIUS := 100
  CIRCLE_COUNT := 50
  PARTICLE_COUNT := 1000000

namespace Config

/-- Constant `NonModifiable::GRID_SIZE`, a `uint32_t` product. -/
def GRID_SIZE (cfg : Config) : Nat := u32mul cfg.GRID_WIDTH cfg.GRID_HEIGHT

/-- Constant `NonModifiable::ELEMENTS_PER_CELL`. -/
def ELEMENTS_PER_CELL : Nat := 4

/-- The `static_assert` block of `Grid.cpp` (lines 19-33), with the `uint32_t`
arithmetic of the asserted expressions. The division by
`COMPUTE_LOCAL_GROUP_SIZE_X` is a constant expression, so the divisor is not
zero in a program that compiles. -/
def staticAsserts (cfg : Config) : Prop :=
  (cfg.GRID_WIDTH ≥ 2 ∧ cfg.GRID_HEIGHT ≥ 2) ∧
  cfg.GRID_SIZE < UINT32_MAX / 4 ∧
  (cfg.GRID_WIDTH : Int) < INT32_MAX ∧
  (cfg.GRID_HEIGHT : Int) < INT32_MAX ∧
  cfg.GRID_WIDTH ≥ u32add cfg.HOURGLASS_WIDTH cfg.HOURGLASS_BORDER_WIDTH ∧
  cfg.GRID_HEIGHT ≥ u32add cfg.HOURGLASS_HEIGHT cfg.HOURGLASS_BORDER_WIDTH ∧
  cfg.HOURGLASS_CENTER_WIDTH ≥ 2 ∧
  cfg.GRID_WIDTH ≥ u32add cfg.HOURGLASS_CENTER_WIDTH cfg.HOURGLASS_BORDER_WIDTH ∧
  (cfg.GRID_WIDTH % 2 = 0 ∧ cfg.HOURGLASS_WIDTH % 2 = 0) ∧
  (cfg.GRID_HEIGHT % 2 = 0 ∧ cfg.HOURGLASS_HEIGHT % 2 = 0) ∧
  (cfg.COMPUTE_LOCAL_GROUP_SIZE_X ≠ 0 ∧
    (cfg.GRID_SIZE / ELEMENTS_PER_CELL) % cfg.COMPUTE_LOCAL_GROUP_SIZE_X = 0) ∧
  (cfg.RADIUS : Int) < INT32_MAX ∧
  (cfg.MIN_RADIUS : Int) < INT32_MAX ∧
  (cfg.MAX_RADIUS : Int) < INT32_MAX

instance (cfg : Config) : Decidable cfg.staticAsserts := by
  unfold staticAsserts; infer_instance

end Config

/-! ## Cells and grids -/

/-- Constant `AIR_VALUE`. -/
def AIR_VALUE : Nat := 0

/-- Constant `SAND_VALUE`. -/
def SAND_VALUE : Nat := 1

/-- Constant `WALL_VALUE`. -/
def WALL_VALUE : Nat := 2

/-- A `std::vector<uint32_t>` of cells. -/
abbrev Grid := List Nat

/-- Assignment `grid[idx] = v`; undefined outside the vector. -/
def writeCell (grid : Grid) (idx v : Nat) : Option Grid :=
  if idx < grid.length then some (grid.set idx v) else none

/-- Loop `for (size_t i = 0; i < n; ++i) body(i)` over a state that may fail:
the bodies `0, 1, ..., n-1` run in this order. -/
def forCount {σ : Type} (body : Nat → σ → Option σ) : Nat → σ → Option σ
  | 0, s => some s
  | n + 1, s => (forCount body n s).bind (body n)

/-! ## `fixGridEdgeCases` -/

/-- Function `fixGridEdgeCases` (`Grid.cpp` lines 38-47): `memset` of the first
`GRID_WIDTH` cells, then `grid[GRID_WIDTH] = 0` and, when `GRID_HEIGHT > 2`,
`grid[GRID_WIDTH * 2] = 0`. -/
def fixGridEdgeCases (cfg : Config) (grid : Grid) : Option Grid :=
  if cfg.GRID_WIDTH ≤ grid.length then
    (writeCell (List.replicate cfg.GRID_WIDTH 0 ++ grid.drop cfg.GRID_WIDTH)
        cfg.GRID_WIDTH 0).bind fun g1 =>
      if cfg.GRID_HEIGHT > 2 then writeCell g1 (u32mul cfg.GRID_WIDTH 2) 0 else some g1
  else none

/-! ## `generateCircle` and the circle generators -/

/-- Body of the inner loop of `generateCircle` (`Grid.cpp` lines 118-132) for
the point `(x, y)`. -/
def circlePoint (cfg : Config) (centerX centerY radius : Int) (x y : Int) (grid : Grid) :
    Option Grid :=
  if x < 0 ∨ x ≥ toI32 cfg.GRID_WIDTH ∨ y < 0 ∨ y ≥ toI32 cfg.GRID_HEIGHT then some grid
  else
    (i32 (x - centerX)).bind fun dx =>
    (i32 (y - centerY)).bind fun dy =>
    (i32 (dy * dy)).bind fun dy2 =>
    (i32 (dx * dx)).bind fun dx2 =>
    (i32 (dy2 + dx2)).bind fun lhs =>
    (i32 (radius * radius)).bind fun rhs =>
      if lhs < rhs then
        writeCell grid (u32add (u32mul (toU32 y) cfg.GRID_WIDTH) (toU32 x)) SAND_VALUE
      else some grid

/-- Loop `for (int v = lo; v <= hi; ++v) body(v)` on `int`: `fuel` bounds the
number of iterations; `++v` is undefined when it leaves the `int` range. -/
def forInt {σ : Type} (body : Int → σ → Option σ) (hi : Int) : Nat → Int → σ → Option σ
  | 0, _, _ => none
  | fuel + 1, v, s =>
    if v ≤ hi then
      (body v s).bind fun s1 => (i32 (v + 1)).bind fun v1 => forInt body hi fuel v1 s1
    else some s

/-- Fuel that lets every terminating loop over an `int` or `uint32_t` counter
run to its end. -/
def LOOP_FUEL : Nat := 4294967297

/-- Inner loop of `generateCircle` (`Grid.cpp` lines 116-133) for the row `y`:
the bounds `centerX - radius` and `centerX + radius` are computed when the row
is scanned. -/
def circleRow (cfg : Config) (centerX centerY radius : Int) (y : Int) (grid : Grid) :
    Option Grid :=
  (i32 (centerX - radius)).bind fun x0 =>
  (i32 (centerX + radius)).bind fun x1 =>
    forInt (fun x g1 => circlePoint cfg centerX centerY radius x y g1) x1 LOOP_FUEL x0 grid

/-- Function `generateCircle` (`Grid.cpp` lines 112-135). -/
def generateCircle (cfg : Config) (centerX centerY radius : Int) (grid : Grid) : Option Grid :=
  (i32 (centerY - radius)).bind fun y0 =>
  (i32 (centerY + radius)).bind fun y1 =>
    forInt (circleRow cfg centerX centerY radius) y1 LOOP_FUEL y0 grid

/-- Function `generateCenterCircle` (`Grid.cpp` lines 137-148). -/
def generateCenterCircle (cfg : Config) : Option Grid :=
  let grid : Grid := List.replicate cfg.GRID_SIZE AIR_VALUE
  let centerX := toI32 (cfg.GRID_WIDTH / 2)
  let centerY := toI32 (cfg.GRID_HEIGHT / 2)
  (generateCircle cfg centerX centerY (toI32 cfg.RADIUS) grid).bind (fixGridEdgeCases cfg)

/-- One iteration of the loop of `generateRandomCircles`: the three draws of
the iteration are `(centerX, centerY, radius)`. -/
structure CircleDraw where
  centerX : Int
  centerY : Int
  radius : Int
  deriving DecidableEq

/-- Function `generateRandomCircles` (`Grid.cpp` lines 150-171); `draws i` are
the values drawn in iteration `i` from `xDist(0, GRID_WIDTH)`,
`yDist(0, GRID_HEIGHT)` and `radiusDist(MIN_RADIUS, MAX_RADIUS)`. -/
def generateRandomCircles (cfg : Config) (draws : Nat → CircleDraw) : Option Grid :=
  let grid : Grid := List.replicate cfg.GRID_SIZE AIR_VALUE
  (forCount (fun i g => generateCircle cfg (draws i).centerX (draws i).centerY (draws i).radius g)
    cfg.CIRCLE_COUNT grid).bind (fixGridEdgeCases cfg)

/-- The draws of `generateRandomCircles` lie in the ranges of its three
`uniform_int_distribution`s. -/
def CircleDrawsInRange (cfg : Config) (draws : Nat → CircleDraw) : Prop :=
  ∀ i, i < cfg.CIRCLE_COUNT →
    (0 ≤ (draws i).centerX ∧ (draws i).centerX ≤ toI32 cfg.GRID_WIDTH) ∧
    (0 ≤ (draws i).centerY ∧ (draws i).centerY ≤ toI32 cfg.GRID_HEIGHT) ∧
    (toI32 cfg.MIN_RADIUS ≤ (draws i).radius ∧ (draws i).radius ≤ toI32 cfg.MAX_RADIUS)

/-! ## `generateRandomNoise` -/

/-- Index computed in one iteration of `generateRandomNoise` before the
reduction modulo the grid size:
`static_cast<size_t>(NonModifiable::GRID_SIZE * rndDist(rndEngine))`. -/
def noiseIndex (cfg : Config) (rnd : F32) : Nat :=
  (F32.mul (F32.ofU32 cfg.GRID_SIZE) rnd).toNat

/-- Function `generateRandomNoise` (`Grid.cpp` lines 173-189); `rnd i` is the
value drawn from `rndDist` in iteration `i`. The remainder `idx % grid.size()`
is undefined for an empty vector. -/
def generateRandomNoise (cfg : Config) (rnd : Nat → F32) : Option Grid :=
  let grid : Grid := List.replicate cfg.GRID_SIZE AIR_VALUE
  (forCount (fun i g =>
      if g.length = 0 then none
      else writeCell g (noiseIndex cfg (rnd i) % g.length) SAND_VALUE)
    cfg.PARTICLE_COUNT grid).bind (fixGridEdgeCases cfg)

/-! ## `generateHourglass` -/

namespace Config

/-- Local constant `startRow` of `generateHourglass`. -/
def startRow (cfg : Config) : Nat := u32sub cfg.GRID_HEIGHT cfg.HOURGLASS_HEIGHT / 2

/-- Local constant `endRow` of `generateHourglass`. -/
def endRow (cfg : Config) : Nat := u32add cfg.startRow cfg.HOURGLASS_HEIGHT

/-- Local constant `halfHourglassHeight` of `generateHourglass`. -/
def halfHourglassHeight (cfg : Config) : Nat := cfg.HOURGLASS_HEIGHT / 2

/-- Local constant `upperCenterRow` of `generateHourglass`. -/
def upperCenterRow (cfg : Config) : Nat := u32add cfg.startRow cfg.halfHourglassHeight

/-- Local constant `lowerCenterRow` of `generateHourglass`. -/
def lowerCenterRow (cfg : Config) : Nat := u32add cfg.upperCenterRow 1

/-- Local constant `startColumn` of `generateHourglass`. -/
def startColumn (cfg : Config) : Nat := u32sub cfg.GRID_WIDTH cfg.HOURGLASS_WIDTH / 2

/-- Local constant `halfHourglassWidth` of `generateHourglass`. -/
def halfHourglassWidth (cfg : Config) : Nat := cfg.HOURGLASS_WIDTH / 2

/-- Local constant `leftCenterColumn` of `generateHourglass`. -/
def leftCenterColumn (cfg : Config) : Nat := u32add cfg.startColumn cfg.halfHourglassWidth

/-- Local constant `rightCenterColumn` of `generateHourglass`. -/
def rightCenterColumn (cfg : Config) : Nat := u32add cfg.leftCenterColumn 1

/-- Right hand side of the comparison of `isFilled`:
`static_cast<uint32_t>(startRow + halfHourglassHeight * HOURGLASS_FILL_PERCENTAGE)`,
a `float` product and a `float` sum. -/
def fillRow (cfg : Config) : Nat :=
  (F32.add (F32.ofU32 cfg.startRow)
    (F32.mul (F32.ofU32 cfg.halfHourglassHeight) cfg.HOURGLASS_FILL_PERCENTAGE)).toNat

/-- Value of `leftBorderEnd` in a row drawn with `currentWidth`. -/
def leftBorderEnd (cfg : Config) (currentWidth : Nat) : Nat :=
  u32sub cfg.leftCenterColumn (currentWidth / 2)

/-- Value of `leftBorderBegin` in a row drawn with `currentWidth`. -/
def leftBorderBegin (cfg : Config) (currentWidth : Nat) : Nat :=
  u32sub (cfg.leftBorderEnd currentWidth) cfg.HOURGLASS_BORDER_WIDTH

/-- Value of `rightBorderBegin` in a row drawn with `currentWidth`. -/
def rightBorderBegin (cfg : Config) (currentWidth : Nat) : Nat :=
  u32add cfg.rightCenterColumn (currentWidth / 2)

/-- Value of `rightBorderEnd` in a row drawn with `currentWidth`. -/
def rightBorderEnd (cfg : Config) (currentWidth : Nat) : Nat :=
  u32add (cfg.rightBorderBegin currentWidth) cfg.HOURGLASS_BORDER_WIDTH

/-- Value of `isTop` for the upper row `yUp`. -/
def isTop (cfg : Config) (yUp : Nat) : Bool :=
  decide (yUp ≤ u32add cfg.startRow cfg.HOURGLASS_BORDER_WIDTH)

/-- Value of `isFilled` for the upper row `yUp`. -/
def isFilled (cfg : Config) (yUp : Nat) : Bool := decide (yUp ≤ cfg.fillRow)

/-- Value of `isBottom` for the lower row `yDown`. -/
def isBottom (cfg : Config) (yDown : Nat) : Bool :=
  decide (yDown ≥ u32sub cfg.endRow cfg.HOURGLASS_BORDER_WIDTH)

/-- Value of `isBorder` for the column `x` of the row pair `(yUp, yDown)`. -/
def isBorder (cfg : Config) (currentWidth yUp yDown x : Nat) : Bool :=
  cfg.isTop yUp || cfg.isBottom yDown ||
    decide (x < cfg.leftBorderEnd currentWidth) || decide (x > cfg.rightBorderBegin currentWidth)

end Config

/-- Body of the inner loop of `generateHourglass` (`Grid.cpp` lines 86-98) for
the column `x`. In `grid[idxUp] = grid[idxDown] = WALL_VALUE` the right
assignment is done first. -/
def hourglassPoint (cfg : Config) (currentWidth yUp yDown x : Nat) (grid : Grid) : Option Grid :=
  let idxUp := u32add x (u32mul cfg.GRID_WIDTH yUp)
  let idxDown := u32add x (u32mul cfg.GRID_WIDTH yDown)
  if cfg.isBorder currentWidth yUp yDown x then
    (writeCell grid idxDown WALL_VALUE).bind fun g1 => writeCell g1 idxUp WALL_VALUE
  else
    (writeCell grid idxUp (if cfg.isFilled yUp then SAND_VALUE else AIR_VALUE)).bind fun g1 =>
      writeCell g1 idxDown AIR_VALUE

/-- Inner loop of `generateHourglass` (`Grid.cpp` lines 84-99),
`for (uint32_t x = leftBorderBegin; x <= rightBorderEnd; ++x)`, from the
column `x` on; `fuel` bounds the number of iterations. -/
def hourglassRow (cfg : Config) (currentWidth yUp yDown : Nat) : Nat → Nat → Grid → Option Grid
  | 0, _, _ => none
  | fuel + 1, x, grid =>
    if x ≤ cfg.rightBorderEnd currentWidth then
      (hourglassPoint cfg currentWidth yUp yDown x grid).bind fun g1 =>
        hourglassRow cfg currentWidth yUp yDown fuel (u32add x 1) g1
    else some grid

/-- Outer loop of `generateHourglass` (`Grid.cpp` lines 69-102). The arguments
`yUp` and `yDown` are the values of the loop variables before the loop
condition `yUp-- > startRow && yDown < endRow` is evaluated; `fuel` bounds the
number of iterations. -/
def hourglassLoop (cfg : Config) : Nat → Nat → Nat → Nat → Grid → Option Grid
  | 0, _, _, _, _ => none
  | fuel + 1, yUp, yDown, currentWidth, grid =>
    if yUp > cfg.startRow ∧ yDown < cfg.endRow then
      let yUp1 := u32sub yUp 1
      (hourglassRow cfg currentWidth yUp1 yDown LOOP_FUEL
          (cfg.leftBorderBegin currentWidth) grid).bind fun g1 =>
        hourglassLoop cfg fuel yUp1 (u32add yDown 1)
          (min (u32add currentWidth 1) cfg.HOURGLASS_WIDTH) g1
    else some grid

/-- Function `generateHourglass` (`Grid.cpp` lines 49-110). -/
def generateHourglass (cfg : Config) : Option Grid :=
  let grid : Grid := List.replicate cfg.GRID_SIZE AIR_VALUE
  (hourglassLoop cfg LOOP_FUEL (u32add cfg.upperCenterRow 1) cfg.lowerCenterRow
      cfg.HOURGLASS_CENTER_WIDTH grid).bind fun g1 =>
    if cfg.HOURGLASS_BORDER_WIDTH = 0 then fixGridEdgeCases cfg g1 else some g1

/-- Relation between a grid `g` and the grid `g1` left by a sequence of writes:
exactly the indices in `P` were written, the value left at a written index `j`
satisfies `V j`, and every other cell is unchanged. -/
def Drawn (P : Nat → Prop) (V : Nat → Nat → Prop) (g g1 : Grid) : Prop :=
  g1.length = g.length ∧
  ∀ j, j < g.length → (P j → ∃ v, g1[j]? = some v ∧ V j v) ∧ (¬ P j → g1[j]? = g[j]?)

/-- Every cell of a grid holds Air, Sand or Wall. -/
def CellsValid (g : Grid) : Prop := ∀ v, v ∈ g → v = AIR_VALUE ∨ v = SAND_VALUE ∨ v = WALL_VALUE


/-- The cells cleared by `fixGridEdgeCases`: the first row, the first cell of
the second row and, when `GRID_HEIGHT > 2`, the first cell of the third row. -/
def EdgeCell (cfg : Config) (j : Nat) : Prop :=
  j < cfg.GRID_WIDTH ∨ j = cfg.GRID_WIDTH ∨ (cfg.GRID_HEIGHT > 2 ∧ j = 2 * cfg.GRID_WIDTH)

instance (cfg : Config) (j : Nat) : Decidable (EdgeCell cfg j) := by
  unfold EdgeCell; infer_instance

/-- The result of `fixGridEdgeCases` on a grid: every cell of `EdgeCell` is Air. -/
def EdgeFixed (cfg : Config) (g : Grid) : Prop :=
  (∀ j, j < cfg.GRID_WIDTH → g[j]? = some AIR_VALUE) ∧
  g[cfg.GRID_WIDTH]? = some AIR_VALUE ∧
  (cfg.GRID_HEIGHT > 2 → g[2 * cfg.GRID_WIDTH]? = some AIR_VALUE)


/-- Inclusion test of `generateCircle` for the cell `(x, y)`:
`dy * dy + dx * dx < radius * radius`. -/
def InCircle (centerX centerY radius : Int) (x y : Nat) : Prop :=
  ((y : Int) - centerY) * ((y : Int) - centerY) + ((x : Int) - centerX) * ((x : Int) - centerX)
    < radius * radius

instance (centerX centerY radius : Int) (x y : Nat) : Decidable (InCircle centerX centerY radius x y) := by
  unfold InCircle; infer_instance

/-- A condition under which no `int32_t` operation of `generateCircle` leaves
the `int32_t` range: the radius is not negative, the bounding box of the
circle and twice the square of the radius are representable, and the loop
counters can step past the box. -/
def CircleFits (centerX centerY radius : Int) : Prop :=
  0 ≤ radius ∧ INT32_MIN ≤ centerX - radius ∧ centerX + radius < INT32_MAX ∧
  INT32_MIN ≤ centerY - radius ∧ centerY + radius < INT32_MAX ∧
  2 * (radius * radius) ≤ INT32_MAX

instance (centerX centerY radius : Int) : Decidable (CircleFits centerX centerY radius) := by
  unfold CircleFits; infer_instance

/-- The grid has at least two rows and two columns and its size is a
`uint32_t`, so that `NonModifiable::GRID_SIZE` is the number of cells. -/
def Config.GridFits (cfg : Config) : Prop :=
  2 ≤ cfg.GRID_WIDTH ∧ 2 ≤ cfg.GRID_HEIGHT ∧ cfg.GRID_WIDTH * cfg.GRID_HEIGHT < U32

instance (cfg : Config) : Decidable cfg.GridFits := by
  unfold Config.GridFits; infer_instance


/-- A condition under which no `int32_t` operation of `generateCenterCircle`
leaves the `int32_t` range. -/
def Config.CenterCircleFits (cfg : Config) : Prop :=
  cfg.RADIUS < 2147483648 ∧
  CircleFits (cfg.GRID_WIDTH / 2 : Nat) (cfg.GRID_HEIGHT / 2 : Nat) cfg.RADIUS

instance (cfg : Config) : Decidable cfg.CenterCircleFits := by
  unfold Config.CenterCircleFits; infer_instance

/-- A condition under which no `int32_t` operation of `generateRandomCircles`
leaves the `int32_t` range, whatever is drawn: the largest bounding box and
twice the square of the largest radius are representable. -/
def Config.RandomCirclesFit (cfg : Config) : Prop :=
  cfg.MIN_RADIUS < 2147483648 ∧ cfg.MAX_RADIUS < 2147483648 ∧
  (cfg.GRID_WIDTH : Int) + cfg.MAX_RADIUS < INT32_MAX ∧
  (cfg.GRID_HEIGHT : Int) + cfg.MAX_RADIUS < INT32_MAX ∧
  2 * ((cfg.MAX_RADIUS : Int) * cfg.MAX_RADIUS) ≤ INT32_MAX

instance (cfg : Config) : Decidable cfg.RandomCirclesFit := by
  unfold Config.RandomCirclesFit; infer_instance

/-- The cell `(x, y)` lies strictly inside one of the circles drawn by
`generateRandomCircles`. -/
def InSomeCircle (cfg : Config) (draws : Nat → CircleDraw) (x y : Nat) : Prop :=
  ∃ i, i < cfg.CIRCLE_COUNT ∧ InCircle (draws i).centerX (draws i).centerY (draws i).radius x y

/-- The index `j` is sampled in one of the iterations of `generateRandomNoise`. -/
def NoiseSampled (cfg : Config) (rnd : Nat → F32) (j : Nat) : Prop :=
  ∃ i, i < cfg.PARTICLE_COUNT ∧
    noiseIndex cfg (rnd i) % (cfg.GRID_WIDTH * cfg.GRID_HEIGHT) = j

/-- A small configuration, a grid of 8 by 8 cells with a centre circle of
radius 2, on which the generators can be evaluated. -/
def smallConfig : Config where
  GRID_WIDTH := 8
  GRID_HEIGHT := 8
  COMPUTE_LOCAL_GROUP_SIZE_X := 16
  HOURGLASS_WIDTH := 2
  HOURGLASS_HEIGHT := 6
  HOURGLASS_BORDER_WIDTH := 1
  HOURGLASS_CENTER_WIDTH := 2
  HOURGLASS_FILL_PERCENTAGE := ⟨13421773, -24⟩
  RADIUS := 2
  MIN_RADIUS := 1
  MAX_RADIUS := 3
  CIRCLE_COUNT := 2
  PARTICLE_COUNT := 3


/-- The product `GRID_WIDTH * GRID_HEIGHT` and the sums compared in the
`static_assert` block are `uint32_t` values, so that the assertions hold
for the numbers themselves and not only for their remainders modulo `2^32`. -/
def Config.NoWrap (cfg : Config) : Prop :=
  cfg.GRID_WIDTH * cfg.GRID_HEIGHT < U32 ∧
  cfg.HOURGLASS_WIDTH + cfg.HOURGLASS_BORDER_WIDTH < U32 ∧
  cfg.HOURGLASS_HEIGHT + cfg.HOURGLASS_BORDER_WIDTH < U32 ∧
  cfg.HOURGLASS_CENTER_WIDTH + cfg.HOURGLASS_BORDER_WIDTH < U32

instance (cfg : Config) : Decidable cfg.NoWrap := by
  unfold Config.NoWrap; infer_instance

/-- Value of `currentWidth` in iteration `i` of the outer loop of
`generateHourglass` (the first iteration is iteration 0). -/
def Config.widthAt (cfg : Config) : Nat → Nat
  | 0 => cfg.HOURGLASS_CENTER_WIDTH
  | i + 1 => min (u32add (cfg.widthAt i) 1) cfg.HOURGLASS_WIDTH

/-- Number of iterations of the outer loop of `generateHourglass`: the loop
stops when `yDown` reaches `endRow`. -/
def Config.rowPairs (cfg : Config) : Nat := cfg.halfHourglassHeight - 1

/-- The widest row of the hourglass ends inside the grid row: the largest
value of `rightBorderEnd` is a column of the grid. -/
def Config.HourglassFits (cfg : Config) : Prop :=
  cfg.GRID_WIDTH / 2 + 1 + max cfg.HOURGLASS_CENTER_WIDTH cfg.HOURGLASS_WIDTH / 2 +
    cfg.HOURGLASS_BORDER_WIDTH < cfg.GRID_WIDTH

instance (cfg : Config) : Decidable cfg.HourglassFits := by
  unfold Config.HourglassFits; infer_instance

/-- The cell that the loops of `generateHourglass` leave at column `x` of row
`y`: row `upperCenterRow - i` and row `lowerCenterRow + i` are drawn in
iteration `i`, between `leftBorderBegin` and `rightBorderEnd`; every other
cell stays Air. -/
def hourglassCell (cfg : Config) (x y : Nat) : Nat :=
  if cfg.upperCenterRow + 1 ≤ y + cfg.rowPairs ∧ y ≤ cfg.upperCenterRow then
    if cfg.leftBorderBegin (cfg.widthAt (cfg.upperCenterRow - y)) ≤ x ∧
        x ≤ cfg.rightBorderEnd (cfg.widthAt (cfg.upperCenterRow - y)) then
      if cfg.isBorder (cfg.widthAt (cfg.upperCenterRow - y)) y
          (cfg.lowerCenterRow + (cfg.upperCenterRow - y)) x then WALL_VALUE
      else if cfg.isFilled y then SAND_VALUE else AIR_VALUE
    else AIR_VALUE
  else if cfg.lowerCenterRow ≤ y ∧ y < cfg.lowerCenterRow + cfg.rowPairs then
    if cfg.leftBorderBegin (cfg.widthAt (y - cfg.lowerCenterRow)) ≤ x ∧
        x ≤ cfg.rightBorderEnd (cfg.widthAt (y - cfg.lowerCenterRow)) then
      if cfg.isBorder (cfg.widthAt (y - cfg.lowerCenterRow))
          (cfg.upperCenterRow - (y - cfg.lowerCenterRow)) y x then WALL_VALUE
      else AIR_VALUE
    else AIR_VALUE
  else AIR_VALUE

/-- Value written to `grid[idxUp]` by the body of the inner loop. -/
def Config.upValue (cfg : Config) (currentWidth yUp yDown x : Nat) : Nat :=
  if cfg.isBorder currentWidth yUp yDown x then WALL_VALUE
  else if cfg.isFilled yUp then SAND_VALUE else AIR_VALUE

/-- Value written to `grid[idxDown]` by the body of the inner loop. -/
def Config.downValue (cfg : Config) (currentWidth yUp yDown x : Nat) : Nat :=
  if cfg.isBorder currentWidth yUp yDown x then WALL_VALUE else AIR_VALUE

/-- The hourglass generator as the specification words it: the loops of
`generateHourglass`, followed by the edge-fix pass as the final step,
unconditionally. -/
def generateHourglassFixAlways (cfg : Config) : Option Grid :=
  let grid : Grid := List.replicate cfg.GRID_SIZE AIR_VALUE
  (hourglassLoop cfg LOOP_FUEL (u32add cfg.upperCenterRow 1) cfg.lowerCenterRow
      cfg.HOURGLASS_CENTER_WIDTH grid).bind (fixGridEdgeCases cfg)

/-- A configuration that passes the `static_assert` block although the grid
has `65536 * 65536` cells: the `uint32_t` product `GRID_SIZE` wraps to `0`. -/
def wrapConfig : Config where
  GRID_WIDTH := 65536
  GRID_HEIGHT := 65536
  COMPUTE_LOCAL_GROUP_SIZE_X := 32
  HOURGLASS_WIDTH := 2
  HOURGLASS_HEIGHT := 2
  HOURGLASS_BORDER_WIDTH := 2
  HOURGLASS_CENTER_WIDTH := 2
  HOURGLASS_FILL_PERCENTAGE := ⟨13421773, -24⟩
  RADIUS := 250
  MIN_RADIUS := 10
  MAX_RADIUS := 100
  CIRCLE_COUNT := 50
  PARTICLE_COUNT := 1000000

/-- Number of Wall cells in row `y` of a grid of width `w`. -/
def wallsInRow (g : Grid) (w y : Nat) : Nat :=
  (List.range w).countP fun x => g[x + w * y]? == some WALL_VALUE


/-! ## Parameters that pass the assertions and do not fit -/

/-- A parameter set that the `static_assert` block accepts: an hourglass as
wide and as high as the grid, without border. -/
def overflowConfig : Config where
  GRID_WIDTH := 8
  GRID_HEIGHT := 8
  COMPUTE_LOCAL_GROUP_SIZE_X := 16
  HOURGLASS_WIDTH := 8
  HOURGLASS_HEIGHT := 8
  HOURGLASS_BORDER_WIDTH := 0
  HOURGLASS_CENTER_WIDTH := 6
  HOURGLASS_FILL_PERCENTAGE := ⟨13421773, -24⟩
  RADIUS := 2
  MIN_RADIUS := 1
  MAX_RADIUS := 3
  CIRCLE_COUNT := 2
  PARTICLE_COUNT := 3

/-! ## The update timer (`ComputeUpdateTimer.cpp`)

The steady clock is read by the caller and handed to the methods: a clock
reading is the tick count of a `steady_clock::time_point`. Time points and
their differences are `int64_t` values; they are integers here, exact as long
as the C++ arithmetic does not overflow. -/

/-- Conversion of a `size_t` to the `int64_t` representation of
`std::chrono::milliseconds` (two's complement). -/
def toI64 (n : Nat) : Int :=
  if n % 18446744073709551616 < 9223372036854775808 then
    ((n % 18446744073709551616 : Nat) : Int)
  else ((n % 18446744073709551616 : Nat) : Int) - 18446744073709551616

/-- Type `std::chrono::steady_clock::period`, which the standard library
chooses: one tick lasts `num / den` seconds. -/
structure ClockPeriod where
  num : Nat
  den : Nat

/-- The period of `steady_clock` in libstdc++ and libc++: one nanosecond. -/
def nanoPeriod : ClockPeriod := ⟨1, 1000000000⟩

/-- A clock that ticks once per millisecond. -/
def milliPeriod : ClockPeriod := ⟨1, 1000⟩

/-- Conversion `std::chrono::duration_cast<std::chrono::milliseconds>` of a
number of ticks: the quotient is truncated toward zero. -/
def durationCastMs (p : ClockPeriod) (ticks : Int) : Int :=
  Int.tdiv (ticks * (1000 * (p.num : Int))) (p.den : Int)

/-- Members of `ComputeUpdateTimer`: the interval in milliseconds and the
clock reading of the latest update. -/
structure ComputeUpdateTimer where
  _updateIntervalMs : Int
  _latestUpdate : Int
  deriving DecidableEq

namespace ComputeUpdateTimer

/-- Constructor `ComputeUpdateTimer(size_t updateIntervalMs)`, run at clock
reading `now`. -/
def init (updateIntervalMs : Nat) (now : Int) : ComputeUpdateTimer :=
  ⟨toI64 updateIntervalMs, now⟩

/-- Method `isUpdateNeeded` (lines 12-17), a `const` method, called at clock
reading `now`: `duration_cast<milliseconds>(now - _latestUpdate) > _updateIntervalMs`. -/
def isUpdateNeeded (p : ClockPeriod) (t : ComputeUpdateTimer) (now : Int) : Bool :=
  let diff := durationCastMs p (now - t._latestUpdate)
  decide (diff > t._updateIntervalMs)

/-- Method `notifyUpdateScheduled` (lines 19-22), called at clock reading `now`. -/
def notifyUpdateScheduled (t : ComputeUpdateTimer) (now : Int) : ComputeUpdateTimer :=
  { t with _latestUpdate := now }

end ComputeUpdateTimer

/-- A call of one of the two methods of the timer. -/
inductive TimerCall where
  | isUpdateNeeded
  | notifyUpdateScheduled
  deriving DecidableEq

/-- A sequence of method calls on one timer, each with the clock reading it
observes: the timer after the calls and the results of the queries, in order. -/
def runTimerCalls (p : ClockPeriod) :
    ComputeUpdateTimer → List (TimerCall × Int) → ComputeUpdateTimer × List Bool
  | t, [] => (t, [])
  | t, (TimerCall.isUpdateNeeded, now) :: rest =>
    let r := t.isUpdateNeeded p now
    let out := runTimerCalls p t rest
    (out.1, r :: out.2)
  | t, (TimerCall.notifyUpdateScheduled, now) :: rest =>
    runTimerCalls p (t.notifyUpdateScheduled now) rest

/-- Constant `CELL_UPDATE_INTERVAL_MS` of `ApplicationDefines.hpp`. -/
def CELL_UPDATE_INTERVAL_MS : Nat := 0

/-- The elapsed time between two clock readings is strictly greater than `ms`
milliseconds: `(now - latest) * num / den` seconds against `ms / 1000`. -/
def ElapsedMoreThanMs (p : ClockPeriod) (latest now : Int) (ms : Nat) : Prop :=
  (ms : Int) * (p.den : Int) < (now - latest) * (1000 * (p.num : Int))

/-- The elapsed time between two clock readings is at least `ms` milliseconds. -/
def ElapsedAtLeastMs (p : ClockPeriod) (latest now : Int) (ms : Nat) : Prop :=
  (ms : Int) * (p.den : Int) ≤ (now - latest) * (1000 * (p.num : Int))

instance (p : ClockPeriod) (latest now : Int) (ms : Nat) :
    Decidable (ElapsedMoreThanMs p latest now ms) := by
  unfold ElapsedMoreThanMs; infer_instance

instance (p : ClockPeriod) (latest now : Int) (ms : Nat) :
    Decidable (ElapsedAtLeastMs p latest now ms) := by
  unfold ElapsedAtLeastMs; infer_instance

/-! ## Construction of the Vulkan context (`VulkanContext.cpp`)

The Vulkan driver is outside the program: whether each fallible call succeeds
is an input of the constructor, and the calls it reaches are recorded. -/

/-- Constant `BUFFERS_PER_COMPUTE`. -/
def BUFFERS_PER_COMPUTE : Nat := 2

/-- The fallible calls of the constructor and of `createDeviceLocalBuffer`;
the argument is the index of the cell buffer. -/
inductive InitStep where
  | createInstance
  | createDebugReportCallback
  | createWindowSurface
  | createDevice
  | createSwapchain
  | createCommandPool
  | createCommandBuffer
  | createStagingBuffer (i : Nat)
  | createLocalBuffer (i : Nat)
  | copyBuffer (i : Nat)
  | createBufferViews
  | createComputePipeline
  | createGraphicsPipeline
  | createImageAvailableSemaphore
  | createRenderingFinishedSemaphore
  | createInFlightFence
  deriving DecidableEq

/-- Outcomes of the three fallible calls of `createDeviceLocalBuffer`: the two
`createBuffer` calls return a value, `copyBuffer` returns `true`. -/
structure DeviceLocalBufferOutcome where
  stagingBuffer : Bool
  localBuffer : Bool
  copyBuffer : Bool

/-- Outcomes of the fallible calls of the constructor: `true` when the call
returns a value (or `VK_SUCCESS`). `VALIDATION_LAYERS` is the preprocessor
switch of the same name. -/
structure InitOutcome where
  VALIDATION_LAYERS : Bool
  createInstance : Bool
  createDebugReportCallback : Bool
  createWindowSurface : Bool
  createDevice : Bool
  createSwapchain : Bool
  createCommandPool : Bool
  createCommandBuffer : Bool
  deviceLocalBuffer : Nat → DeviceLocalBufferOutcome
  createBufferViews : Bool
  createComputePipeline : Bool
  createGraphicsPipeline : Bool
  imageAvailableSemaphore : Bool
  renderingFinishedSemaphore : Bool
  inFlightFence : Bool

/-- Function `createDeviceLocalBuffer` (lines 543-579) for cell buffer `i`: the
calls it makes and whether it returns a value. Each `createBuffer` is followed
by `RETURN_ON_NULLOPT_V`; the `bool` that `copyBuffer` returns is dropped. -/
def createDeviceLocalBuffer (o : DeviceLocalBufferOutcome) (i : Nat) : List InitStep × Bool :=
  if !o.stagingBuffer then ([InitStep.createStagingBuffer i], false)
  else if !o.localBuffer then
    ([InitStep.createStagingBuffer i, InitStep.createLocalBuffer i], false)
  else
    ([InitStep.createStagingBuffer i, InitStep.createLocalBuffer i, InitStep.copyBuffer i], true)

/-- A sequence of statements each followed by `RETURN_ON_NULLOPT` or
`VK_RETURN_ON_ERROR`: the calls made, and whether the end was reached. -/
def runInitSteps : List (List InitStep × Bool) → List InitStep × Bool
  | [] => ([], true)
  | (calls, ok) :: rest =>
    if ok then ((calls ++ (runInitSteps rest).1), (runInitSteps rest).2) else (calls, false)

/-- The part of a `VulkanContext` that the status query reads, with the calls
its constructor made. -/
structure VulkanContext where
  _isInitialized : Bool
  calls : List InitStep

namespace VulkanContext

/-- Constructor `VulkanContext::VulkanContext` (lines 1085-1180):
`_isInitialized` starts `false` and is set in the last statement. -/
def init (o : InitOutcome) : VulkanContext :=
  let r := runInitSteps (
    [([InitStep.createInstance], o.createInstance)] ++
    (if o.VALIDATION_LAYERS then
      [([InitStep.createDebugReportCallback], o.createDebugReportCallback)] else []) ++
    [([InitStep.createWindowSurface], o.createWindowSurface),
     ([InitStep.createDevice], o.createDevice),
     ([InitStep.createSwapchain], o.createSwapchain),
     ([InitStep.createCommandPool], o.createCommandPool),
     ([InitStep.createCommandBuffer], o.createCommandBuffer)] ++
    ((List.range BUFFERS_PER_COMPUTE).map fun i =>
      createDeviceLocalBuffer (o.deviceLocalBuffer i) i) ++
    [([InitStep.createBufferViews], o.createBufferViews),
     ([InitStep.createComputePipeline], o.createComputePipeline),
     ([InitStep.createGraphicsPipeline], o.createGraphicsPipeline),
     ([InitStep.createImageAvailableSemaphore], o.imageAvailableSemaphore),
     ([InitStep.createRenderingFinishedSemaphore], o.renderingFinishedSemaphore),
     ([InitStep.createInFlightFence], o.inFlightFence)])
  ⟨r.2, r.1⟩

/-- Conversion `VulkanContext::operator bool`. -/
def operatorBool (ctx : VulkanContext) : Bool := ctx._isInitialized

end VulkanContext

/-- Every call of the driver succeeds. -/
def allSucceed : InitOutcome where
  VALIDATION_LAYERS := false
  createInstance := true
  createDebugReportCallback := true
  createWindowSurface := true
  createDevice := true
  createSwapchain := true
  createCommandPool := true
  createCommandBuffer := true
  deviceLocalBuffer := fun _ => ⟨true, true, true⟩
  createBufferViews := true
  createComputePipeline := true
  createGraphicsPipeline := true
  imageAvailableSemaphore := true
  renderingFinishedSemaphore := true
  inFlightFence := true

/-- Every call succeeds except `copyBuffer` for cell buffer 0, which returns
`false` (its `vkQueueSubmit` reports an error, say). -/
def copyFails : InitOutcome :=
  { allSucceed with
    deviceLocalBuffer := fun i => if i = 0 then ⟨true, true, false⟩ else ⟨true, true, true⟩ }

/-! ## The frame loop (`main.cpp`)

The window system, the driver, the clock and the random engine are outside the
program: what they deliver in one iteration is the input of that iteration,
and the calls the iteration makes are recorded in program order. -/

/-- Type `VkResult`, the result code of a Vulkan call. -/
abbrev VkResult := Int

/-- Result code `VK_SUCCESS`. -/
def VK_SUCCESS : VkResult := 0

/-- Result code `VK_SUBOPTIMAL_KHR`. -/
def VK_SUBOPTIMAL_KHR : VkResult := 1000001003

/-- Result code `VK_ERROR_OUT_OF_DATE_KHR`. -/
def VK_ERROR_OUT_OF_DATE_KHR : VkResult := -1000001004

/-- Result code `VK_ERROR_DEVICE_LOST`. -/
def VK_ERROR_DEVICE_LOST : VkResult := -4

/-- Exit status `EXIT_SUCCESS`. -/
def EXIT_SUCCESS : Nat := 0

/-- Exit status `EXIT_FAILURE`. -/
def EXIT_FAILURE : Nat := 1

/-- Constant `NonModifiable::X_DISPATCH_COUNT`. -/
def Config.X_DISPATCH_COUNT (cfg : Config) : Nat :=
  cfg.GRID_SIZE / Config.ELEMENTS_PER_CELL / cfg.COMPUTE_LOCAL_GROUP_SIZE_X

/-- Expression `!n` for a `size_t`, stored in a `size_t` again. -/
def logicalNot (n : Nat) : Nat := if n = 0 then 1 else 0

/-- A descriptor set of the compute pipeline: the indices in `cellBuffers` of
the buffers at binding 0 (`inBufferInfo`) and at binding 1 (`outBufferInfo`). -/
structure ComputeDescriptorSet where
  inBuffer : Nat
  outBuffer : Nat
  deriving DecidableEq

/-- The descriptor sets that `createComputePipeline` writes (lines 704-736):
set `i` reads `cellBuffers[i]` and writes `cellBuffers[(i + 1) % BUFFERS_PER_COMPUTE]`. -/
def computeDescriptorSets : List ComputeDescriptorSet :=
  (List.range BUFFERS_PER_COMPUTE).map fun i => ⟨i, (i + 1) % BUFFERS_PER_COMPUTE⟩

/-- The descriptor sets of the graphics pipeline (`createDescriptorSets`, lines
830-863): set `i` holds `cellBufferViews[i]`, which `createBufferViews` makes a
view of `buffers[i]`. An entry is the index of the cell buffer that is read. -/
def graphicsDescriptorSets : List Nat :=
  (List.range BUFFERS_PER_COMPUTE).map fun i => i

/-- The calls of one run of the frame loop. A dispatch carries the index of
the bound descriptor set, the two push constants and the group count; a
barrier the index, offset and size of the covered cell buffer; a draw the
index of the bound descriptor set and of the framebuffer. -/
inductive Call where
  | waitForFences
  | acquireNextImage
  | recreateSwapchain
  | resetFences
  | resetCommandBuffer
  | beginCommandBuffer
  | cmdDispatch (descriptorSet cellOffset : Nat) (seed : Int) (groupCountX : Nat)
  | cmdPipelineBarrier (buffer offset size : Nat)
  | cmdDraw (descriptorSet framebuffer : Nat)
  | endCommandBuffer
  | queueSubmit
  | queuePresent (imageIndex : Nat)
  | logVkError (result : VkResult)
  | logSubmitFailure
  | deviceWaitIdle
  deriving DecidableEq

/-- Variables of `main` that live across iterations, with the two flags of
`ApplicationSharedData`. -/
structure FrameState where
  currentGridBuffer : Nat
  computeUpdateTimer : ComputeUpdateTimer
  exitApplication : Bool
  framebufferResized : Bool
  deriving DecidableEq

/-- What the environment delivers in one iteration: the clock reading of
`runtimeStatistics.notifyFrameBegin()`, whether a callback run by
`glfwContext.update()` stores `true` in `exitApplication` or in
`framebufferResized`, the result codes of the Vulkan calls, the acquired image
index, the clock readings of `isUpdateNeeded` and `notifyUpdateScheduled`, and
the value of `mtRand()`. -/
structure FrameInput where
  frameBeginTime : Int
  exitRequested : Bool
  resizeRequested : Bool
  waitResult : VkResult
  acquireResult : VkResult
  imageIndex : Nat
  beginResult : VkResult
  checkTime : Int
  random : Nat
  notifyTime : Int
  endResult : VkResult
  submitResult : VkResult
  presentResult : VkResult

/-- Function `beginCommandBuffer` (lines 131-138); `main` drops its result. -/
def beginCommandBuffer (result : VkResult) : List Call :=
  Call.beginCommandBuffer :: (if result ≠ VK_SUCCESS then [Call.logVkError result] else [])

/-- Function `recordComputeCommands` (lines 140-163): binds
`computePipeline.descriptorSets[currentBuffer]`, pushes
`{static_cast<uint32_t>(currentBuffer), static_cast<int32_t>(mtRand())}` and
dispatches. -/
def recordComputeCommands (cfg : Config) (currentBuffer random : Nat) : List Call :=
  [Call.cmdDispatch currentBuffer (currentBuffer % U32) (toI32 random) cfg.X_DISPATCH_COUNT]

/-- Function `addMemoryBarrier` (lines 165-194): one buffer barrier for
`cellBuffers[!currentBuffer]`, from offset 0, of
`GRID_SIZE * sizeof(uint32_t)` bytes (a `uint32_t` product). -/
def addMemoryBarrier (cfg : Config) (currentBuffer : Nat) : List Call :=
  let writtenBuffer := logicalNot currentBuffer
  [Call.cmdPipelineBarrier writtenBuffer 0 (u32mul cfg.GRID_SIZE 4)]

/-- Function `recordDrawCommands` (lines 196-247): binds
`graphicsPipeline.descriptorSets[currentFrame]`, draws and ends the command
buffer; `main` drops its result. -/
def recordDrawCommands (currentFrame swapchainImageIndex : Nat) (endResult : VkResult) :
    List Call :=
  [Call.cmdDraw currentFrame swapchainImageIndex, Call.endCommandBuffer] ++
    (if endResult ≠ VK_SUCCESS then [Call.logVkError endResult] else [])

/-- Function `submitCommands` (lines 249-267), a `void` function: a failed
`vkQueueSubmit` prints a line. -/
def submitCommands (result : VkResult) : List Call :=
  Call.queueSubmit :: (if result ≠ VK_SUCCESS then [Call.logSubmitFailure] else [])

/-- Function `presentFramebuffer` (lines 269-282). -/
def presentFramebuffer (swapchainImageIndex : Nat) (result : VkResult) : VkResult × List Call :=
  (result, [Call.queuePresent swapchainImageIndex])

/-- The body of the `while` loop of `main` (lines 73-122): the state after the
iteration and the calls made. The result of `vkWaitForFences` is not read. The
first statement of the body, `runtimeStatistics.notifyFrameBegin()`, touches
the statistics only; it is followed by `loopStatistics`. -/
def frameIteration (cfg : Config) (p : ClockPeriod) (st : FrameState) (inp : FrameInput) :
    FrameState × List Call :=
  let exitApplication := st.exitApplication || inp.exitRequested
  let framebufferResized := st.framebufferResized || inp.resizeRequested
  let acquired := [Call.waitForFences, Call.acquireNextImage]
  let result := inp.acquireResult
  if result = VK_ERROR_OUT_OF_DATE_KHR ∨ result = VK_SUBOPTIMAL_KHR ∨ framebufferResized = true then
    ({ st with exitApplication := exitApplication, framebufferResized := false },
      acquired ++ [Call.recreateSwapchain])
  else
    let begun := acquired ++ [Call.resetFences, Call.resetCommandBuffer] ++
      beginCommandBuffer inp.beginResult
    let step : Nat × ComputeUpdateTimer × List Call :=
      if st.computeUpdateTimer.isUpdateNeeded p inp.checkTime then
        (logicalNot st.currentGridBuffer,
          st.computeUpdateTimer.notifyUpdateScheduled inp.notifyTime,
          recordComputeCommands cfg st.currentGridBuffer inp.random ++
            addMemoryBarrier cfg st.currentGridBuffer)
      else (st.currentGridBuffer, st.computeUpdateTimer, [])
    let currentGridBuffer := step.1
    let drawn := recordDrawCommands currentGridBuffer inp.imageIndex inp.endResult
    let submitted := submitCommands inp.submitResult
    let presented := presentFramebuffer inp.imageIndex inp.presentResult
    let recreated :=
      if presented.1 = VK_ERROR_OUT_OF_DATE_KHR ∨ presented.1 = VK_SUBOPTIMAL_KHR then
        [Call.recreateSwapchain]
      else []
    ({ currentGridBuffer := currentGridBuffer, computeUpdateTimer := step.2.1,
       exitApplication := exitApplication, framebufferResized := framebufferResized },
      begun ++ step.2.2 ++ drawn ++ submitted ++ presented.2 ++ recreated)

/-- The `while (!exitApplication.load())` loop of `main` over the inputs of
successive iterations: it stops when the flag is set; when the inputs end with
the flag clear, the run has been followed up to there. -/
def mainLoop (cfg : Config) (p : ClockPeriod) : FrameState → List FrameInput → FrameState × List Call
  | st, [] => (st, [])
  | st, inp :: rest =>
    if st.exitApplication then (st, [])
    else
      let r := frameIteration cfg p st inp
      let out := mainLoop cfg p r.1 rest
      (out.1, r.2 ++ out.2)

/-- The variables of `main` when the loop is entered (lines 45 and 64-69); the
timer is constructed at clock reading `startTime`. -/
def initialFrameState (startTime : Int) : FrameState where
  currentGridBuffer := 0
  computeUpdateTimer := ComputeUpdateTimer.init CELL_UPDATE_INTERVAL_MS startTime
  exitApplication := false
  framebufferResized := false

/-- A call is a compute dispatch. -/
def Call.isDispatch : Call → Bool
  | Call.cmdDispatch _ _ _ _ => true
  | _ => false

/-- A call is a buffer barrier. -/
def Call.isBarrier : Call → Bool
  | Call.cmdPipelineBarrier _ _ _ => true
  | _ => false

/-- A call is a draw. -/
def Call.isDraw : Call → Bool
  | Call.cmdDraw _ _ => true
  | _ => false

/-- A call is a presentation. -/
def Call.isPresent : Call → Bool
  | Call.queuePresent _ => true
  | _ => false

/-- Number of simulation steps recorded in a sequence of calls. -/
def stepsRecorded (calls : List Call) : Nat := calls.countP Call.isDispatch

/-- An iteration in which every call succeeds at clock reading `time`, without
any request from the window system. -/
def quietInput (time : Int) : FrameInput where
  frameBeginTime := time
  exitRequested := false
  resizeRequested := false
  waitResult := VK_SUCCESS
  acquireResult := VK_SUCCESS
  imageIndex := 0
  beginResult := VK_SUCCESS
  checkTime := time
  random := 12345
  notifyTime := time
  endResult := VK_SUCCESS
  submitResult := VK_SUCCESS
  presentResult := VK_SUCCESS

/-- The acquisition of an iteration reports a stale surface or the resize flag
is set when it is tested. -/
def FrameDropped (st : FrameState) (inp : FrameInput) : Prop :=
  inp.acquireResult = VK_ERROR_OUT_OF_DATE_KHR ∨ inp.acquireResult = VK_SUBOPTIMAL_KHR ∨
    st.framebufferResized = true ∨ inp.resizeRequested = true

instance (st : FrameState) (inp : FrameInput) : Decidable (FrameDropped st inp) := by
  unfold FrameDropped; infer_instance

/-- An iteration, one millisecond after the start, whose acquisition reports
`VK_ERROR_DEVICE_LOST`. -/
def deviceLostInput : FrameInput :=
  { quietInput 1000000 with acquireResult := VK_ERROR_DEVICE_LOST }

/-- An iteration whose acquisition reports `VK_ERROR_OUT_OF_DATE_KHR`. -/
def staleInput : FrameInput :=
  { quietInput 1000000 with acquireResult := VK_ERROR_OUT_OF_DATE_KHR }


/-! ## Device checks and device selection (`VulkanContext.cpp`)

What the driver reports about a physical device is a value of
`PhysicalDevice`; a device handle is the position of the device in the
enumeration. -/

/-- The fields of `VkPhysicalDeviceLimits` that `areDeviceLimitsSufficient`
reads, all of them `uint32_t`; the `X` fields are the entries `[0]`. -/
structure DeviceLimits where
  maxComputeWorkGroupInvocations : Nat
  maxComputeWorkGroupSizeX : Nat
  maxComputeWorkGroupCountX : Nat
  maxStorageBufferRange : Nat
  maxTexelBufferElements : Nat
  maxPushConstantsSize : Nat

/-- Size `sizeof(uint32_t)`. -/
def SIZEOF_UINT32 : Nat := 4

/-- Size `sizeof(PushConstants)`: a `uint32_t` and an `int32_t`, each aligned
to 4 bytes (`PushConstants.hpp`). -/
def SIZEOF_PUSH_CONSTANTS : Nat := 8

/-- Function `areDeviceLimitsSufficient` (lines 121-129). The product
`GRID_SIZE * sizeof(uint32_t)` is a `size_t` product and does not wrap. -/
def areDeviceLimitsSufficient (cfg : Config) (limits : DeviceLimits) : Bool :=
  decide (limits.maxComputeWorkGroupInvocations > cfg.COMPUTE_LOCAL_GROUP_SIZE_X)
    && decide (limits.maxComputeWorkGroupSizeX > cfg.COMPUTE_LOCAL_GROUP_SIZE_X)
    && decide (limits.maxComputeWorkGroupCountX > cfg.X_DISPATCH_COUNT)
    && decide (limits.maxStorageBufferRange > cfg.GRID_SIZE * SIZEOF_UINT32)
    && decide (limits.maxTexelBufferElements > cfg.GRID_SIZE)
    && decide (limits.maxPushConstantsSize > SIZEOF_PUSH_CONSTANTS)

/-- The limits are greater than or equal to the configured values. -/
def LimitsAtLeastConfigured (cfg : Config) (limits : DeviceLimits) : Prop :=
  limits.maxComputeWorkGroupInvocations ≥ cfg.COMPUTE_LOCAL_GROUP_SIZE_X ∧
  limits.maxComputeWorkGroupSizeX ≥ cfg.COMPUTE_LOCAL_GROUP_SIZE_X ∧
  limits.maxComputeWorkGroupCountX ≥ cfg.X_DISPATCH_COUNT ∧
  limits.maxStorageBufferRange ≥ cfg.GRID_SIZE * 4 ∧
  limits.maxTexelBufferElements ≥ cfg.GRID_SIZE ∧
  limits.maxPushConstantsSize ≥ SIZEOF_PUSH_CONSTANTS

instance (cfg : Config) (limits : DeviceLimits) :
    Decidable (LimitsAtLeastConfigured cfg limits) := by
  unfold LimitsAtLeastConfigured; infer_instance

/-- Limits that equal the values of `ApplicationDefines.hpp`: group size 32,
8192 work groups, 4 MiB of storage buffer, `1024 * 1024` texels and 8 bytes of
push constants. -/
def exactLimits : DeviceLimits where
  maxComputeWorkGroupInvocations := 32
  maxComputeWorkGroupSizeX := 32
  maxComputeWorkGroupCountX := 8192
  maxStorageBufferRange := 4194304
  maxTexelBufferElements := 1048576
  maxPushConstantsSize := 8

/-- The configured constants with a work group of 1024 invocations. -/
def wideGroupConfig : Config :=
  { defaultConfig with COMPUTE_LOCAL_GROUP_SIZE_X := 1024 }

/-- Limits of a common desktop device, far above the configured values. -/
def largeLimits : DeviceLimits where
  maxComputeWorkGroupInvocations := 1024
  maxComputeWorkGroupSizeX := 1024
  maxComputeWorkGroupCountX := 65535
  maxStorageBufferRange := 4294967295
  maxTexelBufferElements := 134217728
  maxPushConstantsSize := 128

/-- The values of `VkPhysicalDeviceType`. -/
inductive DeviceType where
  | other
  | integratedGpu
  | discreteGpu
  | virtualGpu
  | cpu
  deriving DecidableEq

/-- A queue family as `chooseQueue` sees it: the graphics and the compute bit
of `queueFlags`, and the answer of `vkGetPhysicalDeviceSurfaceSupportKHR`. -/
structure QueueFamily where
  graphics : Bool
  compute : Bool
  presentSupport : Bool

/-- What the driver reports about one physical device: the results and counts
of the two surface queries, the storage texel buffer bit of the format
`VK_FORMAT_R32_UINT`, the queue families, the limits and the type. -/
structure PhysicalDevice where
  surfaceFormatsResult : VkResult
  formatCount : Nat
  presentModesResult : VkResult
  presentModeCount : Nat
  storageTexelBuffer : Bool
  queueFamilies : List QueueFamily
  limits : DeviceLimits
  deviceType : DeviceType

/-- Function `isDeviceSupportingSurfacePresentation` (lines 131-141). -/
def isDeviceSupportingSurfacePresentation (d : PhysicalDevice) : Bool :=
  if d.surfaceFormatsResult ≠ VK_SUCCESS then false
  else if d.presentModesResult ≠ VK_SUCCESS then false
  else decide (d.formatCount ≠ 0) && decide (d.presentModeCount ≠ 0)

/-- Function `isDeviceSupportingTexelBufferFormat` (lines 143-149). -/
def isDeviceSupportingTexelBufferFormat (d : PhysicalDevice) : Bool :=
  d.storageTexelBuffer

/-- The loop of `chooseQueue` from family `i` on, with the value of
`queueFamilyToUse` so far: every suitable family overwrites it. -/
def chooseQueueLoop : List QueueFamily → Nat → Option Nat → Option Nat
  | [], _, queueFamilyToUse => queueFamilyToUse
  | queueFamily :: rest, i, queueFamilyToUse =>
    chooseQueueLoop rest (i + 1)
      (if queueFamily.graphics && queueFamily.compute && queueFamily.presentSupport then some i
       else queueFamilyToUse)

/-- Function `chooseQueue` (lines 151-173). -/
def chooseQueue (d : PhysicalDevice) : Option Nat :=
  chooseQueueLoop d.queueFamilies 0 none

/-- The `switch` on the device type in `createDevice` (lines 220-236). -/
def deviceScore (d : PhysicalDevice) : Nat :=
  match d.deviceType with
  | DeviceType.discreteGpu => 0 + 100
  | DeviceType.integratedGpu => 0 + 50
  | _ => 0 + 10

/-- The variables `bestDeviceOpt`, `bestDeviceScore` and `queueIndex` of
`createDevice`. -/
structure Selection where
  bestDeviceOpt : Option Nat
  bestDeviceScore : Nat
  queueIndex : Nat
  deriving DecidableEq

/-- One iteration of the selection loop of `createDevice` (lines 194-244), for
the device at position `physicalDevice` of the enumeration. -/
def selectStep (cfg : Config) (sel : Selection) (physicalDevice : Nat) (d : PhysicalDevice) :
    Selection :=
  if !isDeviceSupportingSurfacePresentation d || !isDeviceSupportingTexelBufferFormat d then sel
  else
    match chooseQueue d with
    | none => sel
    | some queueIndex =>
      if !areDeviceLimitsSufficient cfg d.limits then sel
      else if deviceScore d > sel.bestDeviceScore then
        { bestDeviceOpt := some physicalDevice, bestDeviceScore := deviceScore d,
          queueIndex := queueIndex }
      else sel

/-- The selection loop of `createDevice` over the devices from position `i`
on. -/
def selectLoop (cfg : Config) : List PhysicalDevice → Nat → Selection → Selection
  | [], _, sel => sel
  | d :: rest, i, sel => selectLoop cfg rest (i + 1) (selectStep cfg sel i d)

/-- The selection of `createDevice` (lines 190-251): the position of the
chosen device with its queue family, or nothing when the function reports
`Failed to find suitable device!`. -/
def selectDevice (cfg : Config) (devices : List PhysicalDevice) : Option (Nat × Nat) :=
  let sel := selectLoop cfg devices 0 ⟨none, 0, 0⟩
  match sel.bestDeviceOpt with
  | none => none
  | some physicalDevice => some (physicalDevice, sel.queueIndex)

/-- A device passes the presentation, texel-format, queue-family and limit
checks of the selection loop. -/
def passesChecks (cfg : Config) (d : PhysicalDevice) : Bool :=
  isDeviceSupportingSurfacePresentation d && isDeviceSupportingTexelBufferFormat d &&
    (chooseQueue d).isSome && areDeviceLimitsSufficient cfg d.limits

/-- A device of the given type that passes every check, with three queue
families of which the second and the third are suitable. -/
def sampleDevice (deviceType : DeviceType) : PhysicalDevice where
  surfaceFormatsResult := VK_SUCCESS
  formatCount := 2
  presentModesResult := VK_SUCCESS
  presentModeCount := 3
  storageTexelBuffer := true
  queueFamilies := [⟨true, false, true⟩, ⟨true, true, true⟩, ⟨true, true, true⟩]
  limits := largeLimits
  deviceType := deviceType

/-- The invariant of the selection loop after the devices `seen`: without a
choice no device seen passes the checks; a choice is a device seen that passes
them, with its queue family and its score, no device seen that passes has a
higher score and none before the choice has the same score. -/
def SelectionInv (cfg : Config) (seen : List PhysicalDevice) (sel : Selection) : Prop :=
  match sel.bestDeviceOpt with
  | none => sel.bestDeviceScore = 0 ∧ ∀ d ∈ seen, passesChecks cfg d = false
  | some k =>
    ∃ d, seen[k]? = some d ∧ passesChecks cfg d = true ∧
      chooseQueue d = some sel.queueIndex ∧ deviceScore d = sel.bestDeviceScore ∧
      (∀ d2 ∈ seen, passesChecks cfg d2 = true → deviceScore d2 ≤ deviceScore d) ∧
      (∀ d2 ∈ seen.take k, passesChecks cfg d2 = true → deviceScore d2 < deviceScore d)

/-! ## Recreation of the swapchain (`VulkanContext::recreateSwapchain`)

The driver numbers the handles it creates; the record of the driver holds how
many handles exist and which handles were passed to a `vkDestroy...` call, in
call order. -/

/-- The handles created so far are `0 .. created - 1`; `destroyed` lists the
arguments of the destroy calls in call order. -/
structure HandleLog where
  created : Nat
  destroyed : List Nat
  deriving DecidableEq

namespace HandleLog

/-- A handle that was created and not destroyed. -/
def isLive (log : HandleLog) (h : Nat) : Bool :=
  decide (h < log.created) && !log.destroyed.contains h

/-- A call `vkDestroy...(device, h, nullptr)`. -/
def destroy (log : HandleLog) (h : Nat) : HandleLog :=
  { log with destroyed := log.destroyed ++ [h] }

/-- Destroy calls for the handles of a vector, in order. -/
def destroyAll (log : HandleLog) (hs : List Nat) : HandleLog :=
  { log with destroyed := log.destroyed ++ hs }

/-- A successful `vkCreate...` call: the new handle and the record after it. -/
def create (log : HandleLog) : Nat × HandleLog :=
  (log.created, { log with created := log.created + 1 })

/-- The creation of `n` handles: the new handles and the record after them. -/
def createMany (log : HandleLog) (n : Nat) : List Nat × HandleLog :=
  ((List.range n).map fun i => log.created + i, { log with created := log.created + n })

end HandleLog

/-- The handles of a `VulkanContext` that `recreateSwapchain` touches:
`imageAvailableSemaphore`, `swapchain.swapchain`, `swapchain.imageViews` and
`graphicsPipeline.framebuffers`. -/
structure SurfaceHandles where
  imageAvailableSemaphore : Nat
  swapchain : Nat
  imageViews : List Nat
  framebuffers : List Nat
  deriving DecidableEq

/-- Outcomes of the three fallible steps of `recreateSwapchain`:
`createSwapchain` returns a swapchain with the given number of images or
nothing, `createFramebuffers` returns a value, `vkCreateSemaphore` succeeds.
Handles that a failing step created before it failed are never stored in the
context and are not recorded. -/
structure RecreateOutcome where
  createSwapchain : Option Nat
  createFramebuffers : Bool
  createSemaphore : Bool

/-- Method `VulkanContext::recreateSwapchain` (lines 1253-1289): the returned
`bool`, the handles the context holds afterwards and the record of the
driver. The four groups of handles are destroyed first; each failing step
returns `false` at once. -/
def recreateSwapchain (o : RecreateOutcome) (ctx : SurfaceHandles) (log : HandleLog) :
    Bool × SurfaceHandles × HandleLog :=
  let log1 := log.destroy ctx.imageAvailableSemaphore
  let log2 := log1.destroyAll ctx.framebuffers
  let log3 := log2.destroyAll ctx.imageViews
  let log4 := log3.destroy ctx.swapchain
  match o.createSwapchain with
  | none => (false, ctx, log4)
  | some imageCount =>
    let swapchain := log4.create
    let imageViews := swapchain.2.createMany imageCount
    let ctx1 := { ctx with swapchain := swapchain.1, imageViews := imageViews.1 }
    if !o.createFramebuffers then (false, ctx1, imageViews.2)
    else
      let framebuffers := imageViews.2.createMany imageCount
      let ctx2 := { ctx1 with framebuffers := framebuffers.1 }
      if !o.createSemaphore then (false, ctx2, framebuffers.2)
      else
        let semaphore := framebuffers.2.create
        (true, { ctx2 with imageAvailableSemaphore := semaphore.1 }, semaphore.2)

/-- Every handle that the context holds is live. -/
def SurfaceHandles.allLive (ctx : SurfaceHandles) (log : HandleLog) : Bool :=
  log.isLive ctx.imageAvailableSemaphore && log.isLive ctx.swapchain &&
    ctx.imageViews.all log.isLive && ctx.framebuffers.all log.isLive

/-- A context after construction: semaphore 0, swapchain 1, two image views
and two framebuffers, all live. -/
def freshSurface : SurfaceHandles × HandleLog :=
  (⟨0, 1, [2, 3], [4, 5]⟩, ⟨6, []⟩)

/-- The surface cannot be queried or the swapchain cannot be created, as for a
window of size zero. -/
def swapchainFails : RecreateOutcome := ⟨none, true, true⟩

/-- Every step succeeds, with two swapchain images. -/
def recreateSucceeds : RecreateOutcome := ⟨some 2, true, true⟩

/-! ## The in-flight fence

The fence lives in the driver. Its state follows the calls of the frame loop
as the Vulkan specification describes them: `vkResetFences` unsignals it, a
`vkQueueSubmit` that the queue accepts signals it once the submitted work has
completed, and `vkWaitForFences` with the timeout `UINT64_MAX` returns only
when it is signaled. -/

/-- State of `inFlightFence`: signaled, unsignaled with an accepted submission
that will signal it, or unsignaled with no such submission. -/
inductive FenceState where
  | signaled
  | pending
  | unsignaled
  deriving DecidableEq

/-- The state of the fence after a sequence of calls of the frame loop, or
nothing when a wait in the sequence can never return. A submission that is
followed by the error line of `submitCommands` was not accepted. -/
def fenceAfter : FenceState → List Call → Option FenceState
  | f, [] => some f
  | f, Call.waitForFences :: rest =>
    if f = FenceState.unsignaled then none else fenceAfter FenceState.signaled rest
  | _, Call.resetFences :: rest => fenceAfter FenceState.unsignaled rest
  | f, Call.queueSubmit :: Call.logSubmitFailure :: rest => fenceAfter f rest
  | _, Call.queueSubmit :: rest => fenceAfter FenceState.pending rest
  | f, _ :: rest => fenceAfter f rest

/-- Result code `VK_ERROR_OUT_OF_HOST_MEMORY`. -/
def VK_ERROR_OUT_OF_HOST_MEMORY : VkResult := -1

/-- An iteration, one millisecond after the start, whose queue submission is
refused with `VK_ERROR_OUT_OF_HOST_MEMORY`. -/
def submitRefusedInput : FrameInput :=
  { quietInput 1000000 with submitResult := VK_ERROR_OUT_OF_HOST_MEMORY }

/-! ## Runtime statistics (`RuntimeStatistics.cpp`) -/

/-- Value `std::numeric_limits<long>::min()`. -/
def LONG_MIN : Int := -9223372036854775808

/-- Value `std::numeric_limits<long>::max()`. -/
def LONG_MAX : Int := 9223372036854775807

/-- Members of `RuntimeStatistics`; the time points are clock readings. -/
structure RuntimeStatistics where
  _runtimeStart : Int
  _previousFrameStart : Int
  _longestFrameTime : Int
  _shortestFrameTime : Int
  _frameCount : Int
  _isFirstFrame : Bool
  deriving DecidableEq

/-- Quotient `a / b` of two `long` values: truncated toward zero, undefined
for the divisor 0 and for `LONG_MIN / -1`. -/
def longDiv (a b : Int) : Option Int :=
  if b = 0 then none
  else if a = LONG_MIN ∧ b = -1 then none
  else some (Int.tdiv a b)

namespace RuntimeStatistics

/-- Constructor `RuntimeStatistics()` (lines 9-16), run at clock reading `now`;
`_previousFrameStart` is default-constructed, the epoch of the clock. -/
def init (now : Int) : RuntimeStatistics where
  _runtimeStart := now
  _previousFrameStart := 0
  _longestFrameTime := LONG_MIN
  _shortestFrameTime := LONG_MAX
  _frameCount := 0
  _isFirstFrame := true

/-- Method `notifyFrameBegin` (lines 18-35), called at clock reading `now`. -/
def notifyFrameBegin (p : ClockPeriod) (s : RuntimeStatistics) (now : Int) : RuntimeStatistics :=
  let frameCount := s._frameCount + 1
  let previousStart := s._previousFrameStart
  if s._isFirstFrame then
    { s with _frameCount := frameCount, _previousFrameStart := now, _isFirstFrame := false }
  else
    let frameTime := durationCastMs p (now - previousStart)
    { s with _frameCount := frameCount, _previousFrameStart := now,
             _shortestFrameTime := min s._shortestFrameTime frameTime,
             _longestFrameTime := max s._longestFrameTime frameTime }

/-- Method `printResults` (lines 37-49), called at clock reading `now`: the
numbers printed, in order (runtime, frame count, average frame time, frames
per second, best and worst frame time), or nothing when one of the two
divisions is undefined. -/
def printResults (p : ClockPeriod) (s : RuntimeStatistics) (now : Int) : Option (List Int) :=
  let runtime := durationCastMs p (now - s._runtimeStart)
  (longDiv runtime s._frameCount).bind fun averageFrameTime =>
    (longDiv 1000 averageFrameTime).bind fun fps =>
      some [runtime, s._frameCount, averageFrameTime, fps, s._shortestFrameTime,
        s._longestFrameTime]

/-- The statistics after the constructor at reading `start` and one call of
`notifyFrameBegin` for each reading of `frames`, in order. -/
def run (p : ClockPeriod) (start : Int) (frames : List Int) : RuntimeStatistics :=
  frames.foldl (notifyFrameBegin p) (init start)

end RuntimeStatistics

/-- The context and the record of the driver after a call of
`recreateSwapchain` on a fresh context in which the swapchain cannot be
created. -/
def afterFailedRecreate : Bool × SurfaceHandles × HandleLog :=
  recreateSwapchain swapchainFails freshSurface.1 freshSurface.2

/-- An enumeration of four devices that pass the presentation, texel-format
and queue-family checks: a CPU device, a discrete GPU, a discrete GPU whose
limits are too low, and another discrete GPU. -/
def sampleDevices : List PhysicalDevice :=
  [sampleDevice DeviceType.cpu, sampleDevice DeviceType.discreteGpu,
   { sampleDevice DeviceType.discreteGpu with limits := exactLimits },
   sampleDevice DeviceType.discreteGpu]

/-- The handles of a context and the handles in the record of the driver are
handles that the driver has created. -/
def SurfaceHandles.Known (ctx : SurfaceHandles) (log : HandleLog) : Prop :=
  ctx.imageAvailableSemaphore < log.created ∧ ctx.swapchain < log.created ∧
  (∀ h ∈ ctx.imageViews, h < log.created) ∧ (∀ h ∈ ctx.framebuffers, h < log.created) ∧
  (∀ h ∈ log.destroyed, h < log.created)

/-! ## The run of `main` (`main.cpp`) -/

/-- The statistics along the frame loop: every iteration that the loop runs
starts with `runtimeStatistics.notifyFrameBegin()` (line 73), at the clock
reading `frameBeginTime` of the iteration. -/
def loopStatistics (cfg : Config) (p : ClockPeriod) :
    FrameState → RuntimeStatistics → List FrameInput → RuntimeStatistics
  | _, runtimeStatistics, [] => runtimeStatistics
  | st, runtimeStatistics, inp :: rest =>
    if st.exitApplication then runtimeStatistics
    else
      loopStatistics cfg p (frameIteration cfg p st inp).1
        (runtimeStatistics.notifyFrameBegin p inp.frameBeginTime) rest

/-- How a run of `main` ends. It returns a status after the calls of the frame
loop and of the shutdown, having printed the numbers `printed` of
`printResults`; or `generateHourglass` writes outside its vector; or a
`vkWaitForFences` of the loop, which has no timeout, never returns; or
`printResults` divides by zero after the calls of the loop; or the inputs end
while the loop is still running, and the run has been followed up to there. -/
inductive RunResult where
  | returned (status : Nat) (calls : List Call) (printed : List Int)
  | gridOutOfBounds
  | waitsForever
  | divisionByZero (calls : List Call)
  | running (calls : List Call)
  deriving DecidableEq

/-- Function `main` (lines 36-129). `argvOk` is the test of line 38, `glfwOk`
the status of the GLFW context; the grid is generated (line 56) and the Vulkan
context constructed with the outcomes `o`, its fence signaled; the statistics
are constructed at clock reading `statisticsStart` (line 68) and the timer at
`startTime` (line 69). The loop runs while `exitApplication` is clear, each
iteration on the next element of `inputs`. After the loop come `printResults`
(line 124) at clock reading `printTime`, `vkDeviceWaitIdle` (line 126) and the
return. The messages that the early returns write to `stderr` are left out. -/
def main (cfg : Config) (p : ClockPeriod) (argvOk glfwOk : Bool) (o : InitOutcome)
    (statisticsStart startTime : Int) (inputs : List FrameInput) (printTime : Int) :
    RunResult :=
  if !argvOk then RunResult.returned EXIT_FAILURE [] []
  else if !glfwOk then RunResult.returned EXIT_FAILURE [] []
  else
    match generateHourglass cfg with
    | none => RunResult.gridOutOfBounds
    | some _ =>
      if !(VulkanContext.init o).operatorBool then RunResult.returned EXIT_FAILURE [] []
      else
        let out := mainLoop cfg p (initialFrameState startTime) inputs
        let runtimeStatistics :=
          loopStatistics cfg p (initialFrameState startTime)
            (RuntimeStatistics.init statisticsStart) inputs
        match fenceAfter FenceState.signaled out.2 with
        | none => RunResult.waitsForever
        | some _ =>
          if !out.1.exitApplication then RunResult.running out.2
          else
            match runtimeStatistics.printResults p printTime with
            | none => RunResult.divisionByZero out.2
            | some printed =>
              RunResult.returned EXIT_SUCCESS (out.2 ++ [Call.deviceWaitIdle]) printed

/-- An iteration in which every call succeeds at clock reading `time` and the
event poll stores `true` in `exitApplication`. -/
def exitInput (time : Int) : FrameInput :=
  { quietInput time with exitRequested := true }

/-- Three iterations within a millisecond and a half, the third with a request
to exit. -/
def fastRun : List FrameInput :=
  [quietInput 100000, quietInput 800000, exitInput 1500000]

theorem Drawn.refl (V : Nat → Nat → Prop) (g : Grid) : Drawn (fun _ => False) V g g :=
  ⟨rfl, fun _ _ => ⟨fun h => h.elim, fun _ => rfl⟩⟩

theorem Drawn.congr {P Q : Nat → Prop} {V : Nat → Nat → Prop} {g g1 : Grid}
    (h : Drawn P V g g1) (hPQ : ∀ j, j < g.length → (P j ↔ Q j)) : Drawn Q V g g1 := by
  refine ⟨h.1, fun j hj => ⟨fun hq => (h.2 j hj).1 ((hPQ j hj).2 hq), fun hq => (h.2 j hj).2 ?_⟩⟩
  exact fun hp => hq ((hPQ j hj).1 hp)

theorem Drawn.trans {P Q : Nat → Prop} {V : Nat → Nat → Prop} {g g1 g2 : Grid}
    (h1 : Drawn P V g g1) (h2 : Drawn Q V g1 g2) : Drawn (fun j => P j ∨ Q j) V g g2 := by
  refine ⟨h2.1.trans h1.1, fun j hj => ?_⟩
  have hj1 : j < g1.length := h1.1 ▸ hj
  constructor
  · intro hpq
    by_cases hq : Q j
    · exact (h2.2 j hj1).1 hq
    · have hp : P j := hpq.resolve_right hq
      obtain ⟨v, hv, hV⟩ := (h1.2 j hj).1 hp
      exact ⟨v, ((h2.2 j hj1).2 hq).trans hv, hV⟩
  · intro hpq
    have hp : ¬ P j := fun h => hpq (Or.inl h)
    have hq : ¬ Q j := fun h => hpq (Or.inr h)
    exact ((h2.2 j hj1).2 hq).trans ((h1.2 j hj).2 hp)

theorem Drawn.weaken {P : Nat → Prop} {V V1 : Nat → Nat → Prop} {g g1 : Grid}
    (h : Drawn P V g g1) (hV : ∀ j v, P j → V j v → V1 j v) : Drawn P V1 g g1 := by
  refine ⟨h.1, fun j hj => ⟨fun hp => ?_, (h.2 j hj).2⟩⟩
  obtain ⟨v, hv, hVv⟩ := (h.2 j hj).1 hp
  exact ⟨v, hv, hV j v hp hVv⟩

theorem writeCell_eq_some {g g1 : Grid} {idx v : Nat} (h : writeCell g idx v = some g1) :
    idx < g.length ∧ g1 = g.set idx v := by
  unfold writeCell at h
  split at h
  · rename_i hlt
    exact ⟨hlt, (Option.some.inj h).symm⟩
  · cases h

theorem writeCell_of_lt {g : Grid} {idx : Nat} (v : Nat) (h : idx < g.length) :
    writeCell g idx v = some (g.set idx v) := by
  unfold writeCell
  rw [if_pos h]

theorem Drawn.write {V : Nat → Nat → Prop} {g g1 : Grid} {idx v : Nat}
    (h : writeCell g idx v = some g1) (hV : V idx v) : Drawn (fun j => j = idx) V g g1 := by
  obtain ⟨hlt, rfl⟩ := writeCell_eq_some h
  refine ⟨List.length_set _ _ _, fun j _ => ⟨fun hj => ?_, fun hj => ?_⟩⟩
  · subst hj
    exact ⟨v, by rw [List.getElem?_set, if_pos rfl, if_pos hlt], hV⟩
  · exact List.getElem?_set_ne (fun h => hj h.symm)

theorem Drawn.cellsValid {P : Nat → Prop} {g g1 : Grid}
    (h : Drawn P (fun _ v => v = AIR_VALUE ∨ v = SAND_VALUE ∨ v = WALL_VALUE) g g1)
    (hg : CellsValid g) : CellsValid g1 := by
  intro v hv
  obtain ⟨j, hj, rfl⟩ := List.getElem_of_mem hv
  have hj0 : j < g.length := h.1 ▸ hj
  by_cases hp : P j
  · obtain ⟨w, hw, hV⟩ := (h.2 j hj0).1 hp
    rw [List.getElem?_eq_getElem hj] at hw
    rw [Option.some.inj hw]
    exact hV
  · have := (h.2 j hj0).2 hp
    rw [List.getElem?_eq_getElem hj, List.getElem?_eq_getElem hj0] at this
    rw [Option.some.inj this]
    exact hg _ (List.getElem_mem _)


/-! ## Machine arithmetic without wrap-around -/

theorem u32add_eq {a b : Nat} (h : a + b < U32) : u32add a b = a + b :=
  Nat.mod_eq_of_lt h

theorem u32mul_eq {a b : Nat} (h : a * b < U32) : u32mul a b = a * b :=
  Nat.mod_eq_of_lt h

theorem u32sub_eq {a b : Nat} (hb : b ≤ a) (ha : a < U32) : u32sub a b = a - b := by
  unfold u32sub U32 at *
  omega

theorem toI32_eq {n : Nat} (h : n < 2147483648) : toI32 n = (n : Int) := by
  unfold toI32 U32
  have : n % 4294967296 = n := Nat.mod_eq_of_lt (by omega)
  rw [this, if_pos h]

theorem toU32_eq {v : Int} (h0 : 0 ≤ v) (h1 : v < 4294967296) : toU32 v = v.toNat := by
  unfold toU32
  rw [Int.emod_eq_of_lt h0 h1]

theorem i32_eq_some {v : Int} (h0 : INT32_MIN ≤ v) (h1 : v ≤ INT32_MAX) : i32 v = some v := by
  unfold i32
  rw [if_pos ⟨h0, h1⟩]

theorem i32_some {v w : Int} (h : i32 v = some w) : w = v ∧ INT32_MIN ≤ v ∧ v ≤ INT32_MAX := by
  unfold i32 at h
  split at h
  · rename_i hr
    exact ⟨(Option.some.inj h).symm, hr⟩
  · cases h

theorem bind_eq_some_iff {α β : Type} {o : Option α} {f : α → Option β} {b : β} :
    o.bind f = some b ↔ ∃ a, o = some a ∧ f a = some b := by
  cases o <;> simp

/-! ## `fixGridEdgeCases` -/

theorem memset_drawn (w : Nat) (g : Grid) (h : w ≤ g.length) :
    Drawn (fun j => j < w) (fun _ v => v = 0) g (List.replicate w 0 ++ g.drop w) := by
  refine ⟨by simp; omega, fun j hj => ⟨fun hp => ⟨0, ?_, rfl⟩, fun hp => ?_⟩⟩
  · rw [List.getElem?_append_left (by simpa using hp)]
    exact List.getElem?_replicate_of_lt hp
  · have hwj : w ≤ j := Nat.le_of_not_lt hp
    rw [List.getElem?_append_right (by simpa using hwj), List.getElem?_drop]
    simp only [List.length_replicate]
    congr 1
    omega

theorem fixGridEdgeCases_drawn {cfg : Config} {g g1 : Grid}
    (h : fixGridEdgeCases cfg g = some g1) :
    Drawn (fun j => j < cfg.GRID_WIDTH ∨ j = cfg.GRID_WIDTH ∨
        (cfg.GRID_HEIGHT > 2 ∧ j = u32mul cfg.GRID_WIDTH 2)) (fun _ v => v = 0) g g1 := by
  unfold fixGridEdgeCases at h
  split at h
  swap
  · cases h
  rename_i hw
  obtain ⟨g2, h2, h3⟩ := bind_eq_some_iff.1 h
  have d1 := memset_drawn cfg.GRID_WIDTH g hw
  have d2 : Drawn (fun j => j = cfg.GRID_WIDTH) (fun _ v => v = 0) _ g2 := Drawn.write h2 rfl
  have d12 := d1.trans d2
  by_cases hh : cfg.GRID_HEIGHT > 2
  · rw [if_pos hh] at h3
    have d3 : Drawn (fun j => j = u32mul cfg.GRID_WIDTH 2) (fun _ v => v = 0) g2 g1 :=
      Drawn.write h3 rfl
    refine (d12.trans d3).congr fun j _ => ?_
    constructor
    · rintro ((h | h) | h)
      · exact Or.inl h
      · exact Or.inr (Or.inl h)
      · exact Or.inr (Or.inr ⟨hh, h⟩)
    · rintro (h | h | h)
      · exact Or.inl (Or.inl h)
      · exact Or.inl (Or.inr h)
      · exact Or.inr h.2
  · rw [if_neg hh] at h3
    cases h3
    refine d12.congr fun j _ => ?_
    constructor
    · rintro (h | h)
      · exact Or.inl h
      · exact Or.inr (Or.inl h)
    · rintro (h | h | h)
      · exact Or.inl h
      · exact Or.inr h
      · exact absurd h.1 hh

theorem fixGridEdgeCases_isSome {cfg : Config} {g : Grid} (h1 : cfg.GRID_WIDTH < g.length)
    (h2 : cfg.GRID_HEIGHT > 2 → u32mul cfg.GRID_WIDTH 2 < g.length) :
    ∃ g1, fixGridEdgeCases cfg g = some g1 := by
  unfold fixGridEdgeCases
  rw [if_pos (Nat.le_of_lt h1)]
  have hl : (List.replicate cfg.GRID_WIDTH 0 ++ g.drop cfg.GRID_WIDTH).length = g.length := by
    simp; omega
  rw [writeCell_of_lt 0 (by rw [hl]; exact h1)]
  simp only [Option.some_bind]
  by_cases hh : cfg.GRID_HEIGHT > 2
  · rw [if_pos hh, writeCell_of_lt 0 (by rw [List.length_set, hl]; exact h2 hh)]
    exact ⟨_, rfl⟩
  · rw [if_neg hh]
    exact ⟨_, rfl⟩

/-! ## Loops -/

theorem forCount_drawn {P : Nat → Nat → Prop} {V : Nat → Nat → Prop}
    {body : Nat → Grid → Option Grid} (len n : Nat)
    (hbody : ∀ i g g1, i < n → g.length = len → body i g = some g1 → Drawn (P i) V g g1) :
    ∀ g g1, g.length = len → forCount body n g = some g1 →
      Drawn (fun j => ∃ i, i < n ∧ P i j) V g g1 := by
  induction n with
  | zero =>
    intro g g1 _ h
    cases h
    exact (Drawn.refl V g).congr fun j _ =>
      ⟨fun h => h.elim, fun ⟨_, h, _⟩ => absurd h (Nat.not_lt_zero _)⟩
  | succ n ih =>
    intro g g1 hg h
    obtain ⟨gm, hm, hb⟩ := bind_eq_some_iff.1 h
    have d1 := ih (fun i g g1 hi => hbody i g g1 (Nat.lt_succ_of_lt hi)) g gm hg hm
    have d2 := hbody n gm g1 (Nat.lt_succ_self n) (d1.1.trans hg) hb
    refine (d1.trans d2).congr fun j _ => ?_
    constructor
    · rintro (⟨i, hi, hp⟩ | hp)
      · exact ⟨i, Nat.lt_succ_of_lt hi, hp⟩
      · exact ⟨n, Nat.lt_succ_self n, hp⟩
    · rintro ⟨i, hi, hp⟩
      rcases Nat.lt_succ_iff_lt_or_eq.1 hi with h | h
      · exact Or.inl ⟨i, h, hp⟩
      · exact Or.inr (h ▸ hp)

/-- A measure that grows by at most one in each iteration grows by at most
the number of iterations. -/
theorem forCount_measure {σ : Type} (μ : σ → Nat) (body : Nat → σ → Option σ)
    (hbody : ∀ i s s1, body i s = some s1 → μ s1 ≤ μ s + 1) (n : Nat) :
    ∀ s s1, forCount body n s = some s1 → μ s1 ≤ μ s + n := by
  induction n with
  | zero => intro s s1 h; cases h; exact Nat.le_refl _
  | succ n ih =>
    intro s s1 h
    obtain ⟨sm, hm, hb⟩ := bind_eq_some_iff.1 h
    have h1 := ih s sm hm
    have h2 := hbody n sm s1 hb
    omega

theorem forCount_isSome {σ : Type} (Inv : Nat → σ → Prop) (body : Nat → σ → Option σ)
    (n : Nat)
    (hbody : ∀ i s, i < n → Inv i s → ∃ s1, body i s = some s1 ∧ Inv (i + 1) s1) :
    ∀ s, Inv 0 s → ∃ s1, forCount body n s = some s1 ∧ Inv n s1 := by
  induction n with
  | zero => exact fun s hs => ⟨s, rfl, hs⟩
  | succ n ih =>
    intro s hs
    obtain ⟨sm, hm, hi⟩ := ih (fun i s hi => hbody i s (Nat.lt_succ_of_lt hi)) s hs
    obtain ⟨s1, h1, hi1⟩ := hbody n sm (Nat.lt_succ_self n) hi
    exact ⟨s1, by simp [forCount, hm, h1], hi1⟩

theorem forInt_drawn {P : Int → Nat → Prop} {V : Nat → Nat → Prop}
    {body : Int → Grid → Option Grid} (hi : Int) (fuel : Nat) :
    ∀ (lo : Int) (g g1 : Grid),
      (∀ v g g1, lo ≤ v → v ≤ hi → body v g = some g1 → Drawn (P v) V g g1) →
      forInt body hi fuel lo g = some g1 →
      Drawn (fun j => ∃ v, lo ≤ v ∧ v ≤ hi ∧ P v j) V g g1 := by
  induction fuel with
  | zero => intro lo g g1 _ h; cases h
  | succ fuel ih =>
    intro lo g g1 hbody h
    unfold forInt at h
    by_cases hle : lo ≤ hi
    · rw [if_pos hle] at h
      obtain ⟨gm, hm, h⟩ := bind_eq_some_iff.1 h
      obtain ⟨v1, hv1, h⟩ := bind_eq_some_iff.1 h
      obtain ⟨rfl, -, -⟩ := i32_some hv1
      have d1 := hbody lo g gm (le_refl _) hle hm
      have d2 := ih (lo + 1) gm g1 (fun v g g1 h1 h2 => hbody v g g1 (by omega) h2) h
      refine (d1.trans d2).congr fun j _ => ?_
      constructor
      · rintro (hp | ⟨v, h1, h2, hp⟩)
        · exact ⟨lo, le_refl _, hle, hp⟩
        · exact ⟨v, by omega, h2, hp⟩
      · rintro ⟨v, h1, h2, hp⟩
        by_cases hv : v = lo
        · exact Or.inl (hv ▸ hp)
        · exact Or.inr ⟨v, by omega, h2, hp⟩
    · rw [if_neg hle] at h
      cases h
      exact (Drawn.refl V g).congr fun j _ =>
        ⟨fun h => h.elim, fun ⟨v, h1, h2, _⟩ => hle (le_trans h1 h2)⟩

theorem forInt_isSome {σ : Type} {Inv : σ → Prop} {body : Int → σ → Option σ} (hi : Int)
    (hhi : hi < INT32_MAX) (fuel : Nat) :
    ∀ (lo : Int) (s : σ), INT32_MIN ≤ lo → (hi + 1 - lo).toNat < fuel →
      (∀ v s, lo ≤ v → v ≤ hi → Inv s → ∃ s1, body v s = some s1 ∧ Inv s1) → Inv s →
      ∃ s1, forInt body hi fuel lo s = some s1 ∧ Inv s1 := by
  induction fuel with
  | zero => intro lo s _ h; exact absurd h (Nat.not_lt_zero _)
  | succ fuel ih =>
    intro lo s hlo hfuel hbody hs
    unfold forInt
    by_cases hle : lo ≤ hi
    · rw [if_pos hle]
      obtain ⟨sm, hm, him⟩ := hbody lo s (le_refl _) hle hs
      have hlo1 : INT32_MIN ≤ lo + 1 := by omega
      have e : i32 (lo + 1) = some (lo + 1) := i32_eq_some hlo1 (by unfold INT32_MAX at *; omega)
      obtain ⟨s1, h1, hi1⟩ := ih (lo + 1) sm hlo1 (by omega)
        (fun v s h1 h2 => hbody v s (by omega) h2) him
      exact ⟨s1, by simp [hm, e, h1], hi1⟩
    · rw [if_neg hle]
      exact ⟨s, rfl, hs⟩


/-! ## `generateCircle` -/

theorem Config.GridFits.width_lt {cfg : Config} (h : cfg.GridFits) :
    cfg.GRID_WIDTH < 2147483648 := by
  obtain ⟨h1, h2, h3⟩ := h
  unfold U32 at h3
  have : cfg.GRID_WIDTH * 2 ≤ cfg.GRID_WIDTH * cfg.GRID_HEIGHT := Nat.mul_le_mul_left _ h2
  omega

theorem Config.GridFits.height_lt {cfg : Config} (h : cfg.GridFits) :
    cfg.GRID_HEIGHT < 2147483648 := by
  obtain ⟨h1, h2, h3⟩ := h
  unfold U32 at h3
  have : 2 * cfg.GRID_HEIGHT ≤ cfg.GRID_WIDTH * cfg.GRID_HEIGHT := Nat.mul_le_mul_right _ h1
  omega

theorem Config.GridFits.gridSize {cfg : Config} (h : cfg.GridFits) :
    cfg.GRID_SIZE = cfg.GRID_WIDTH * cfg.GRID_HEIGHT :=
  u32mul_eq h.2.2

/-- Index of an in-bounds cell is below the number of cells. -/
theorem cell_index_lt {w h x y : Nat} (hx : x < w) (hy : y < h) : y * w + x < w * h := by
  have h1 : (y + 1) * w ≤ h * w := Nat.mul_le_mul_right _ hy
  rw [Nat.add_mul, Nat.one_mul] at h1
  rw [Nat.mul_comm w h]
  omega

theorem circle_index {cfg : Config} (hc : cfg.GridFits) {x y : Int}
    (hx0 : 0 ≤ x) (hx1 : x < cfg.GRID_WIDTH) (hy0 : 0 ≤ y) (hy1 : y < cfg.GRID_HEIGHT) :
    u32add (u32mul (toU32 y) cfg.GRID_WIDTH) (toU32 x) = y.toNat * cfg.GRID_WIDTH + x.toNat ∧
    y.toNat * cfg.GRID_WIDTH + x.toNat < cfg.GRID_WIDTH * cfg.GRID_HEIGHT := by
  have hw := hc.width_lt
  have hh := hc.height_lt
  have hxn : x.toNat < cfg.GRID_WIDTH := by omega
  have hyn : y.toNat < cfg.GRID_HEIGHT := by omega
  have hlt := cell_index_lt hxn hyn
  have hU := hc.2.2
  rw [toU32_eq hy0 (by omega), toU32_eq hx0 (by omega), u32mul_eq (by omega), u32add_eq (by omega)]
  exact ⟨rfl, hlt⟩

/-- The index written by `generateCircle` at the point `(x, y)`. -/
theorem circlePoint_drawn {cfg : Config} (hc : cfg.GridFits) {V : Nat → Nat → Prop}
    (hV : ∀ j, V j SAND_VALUE) (cx cy r x y : Int) {g g1 : Grid}
    (h : circlePoint cfg cx cy r x y g = some g1) :
    Drawn (fun j => (0 ≤ x ∧ x < cfg.GRID_WIDTH ∧ 0 ≤ y ∧ y < cfg.GRID_HEIGHT) ∧
        (y - cy) * (y - cy) + (x - cx) * (x - cx) < r * r ∧
        j = y.toNat * cfg.GRID_WIDTH + x.toNat) V g g1 := by
  unfold circlePoint at h
  rw [toI32_eq hc.width_lt, toI32_eq hc.height_lt] at h
  split at h
  · rename_i hb
    cases h
    exact (Drawn.refl V g).congr fun j _ => ⟨fun h => h.elim, fun ⟨hin, _⟩ => by omega⟩
  · rename_i hb
    obtain ⟨dx, hdx, h⟩ := bind_eq_some_iff.1 h
    obtain ⟨dy, hdy, h⟩ := bind_eq_some_iff.1 h
    obtain ⟨dy2, hdy2, h⟩ := bind_eq_some_iff.1 h
    obtain ⟨dx2, hdx2, h⟩ := bind_eq_some_iff.1 h
    obtain ⟨lhs, hlhs, h⟩ := bind_eq_some_iff.1 h
    obtain ⟨rhs, hrhs, h⟩ := bind_eq_some_iff.1 h
    obtain ⟨rfl, -, -⟩ := i32_some hdx
    obtain ⟨rfl, -, -⟩ := i32_some hdy
    obtain ⟨rfl, -, -⟩ := i32_some hdy2
    obtain ⟨rfl, -, -⟩ := i32_some hdx2
    obtain ⟨rfl, -, -⟩ := i32_some hlhs
    obtain ⟨rfl, -, -⟩ := i32_some hrhs
    have hin : 0 ≤ x ∧ x < cfg.GRID_WIDTH ∧ 0 ≤ y ∧ y < cfg.GRID_HEIGHT := by omega
    have hidx := (circle_index hc hin.1 hin.2.1 hin.2.2.1 hin.2.2.2).1
    split at h
    · rename_i hlt
      rw [hidx] at h
      exact (Drawn.write h (hV _)).congr fun j _ => ⟨fun hj => ⟨hin, hlt, hj⟩, fun hj => hj.2.2⟩
    · rename_i hlt
      cases h
      exact (Drawn.refl V g).congr fun j _ => ⟨fun h => h.elim, fun hj => hlt hj.2.1⟩

theorem abs_le_of_box {lo hi c r v : Int} (hlo : lo = c - r) (hhi : hi = c + r)
    (h1 : lo ≤ v) (h2 : v ≤ hi) : (v - c) * (v - c) ≤ r * r := by
  have ha : -r ≤ v - c := by omega
  have hb : v - c ≤ r := by omega
  nlinarith

theorem circlePoint_isSome {cfg : Config} (hc : cfg.GridFits) {cx cy r x y : Int}
    (hfit : CircleFits cx cy r) (hx0 : cx - r ≤ x) (hx1 : x ≤ cx + r)
    (hy0 : cy - r ≤ y) (hy1 : y ≤ cy + r) {g : Grid}
    (hg : g.length = cfg.GRID_WIDTH * cfg.GRID_HEIGHT) :
    ∃ g1, circlePoint cfg cx cy r x y g = some g1 ∧
      g1.length = cfg.GRID_WIDTH * cfg.GRID_HEIGHT := by
  unfold circlePoint
  rw [toI32_eq hc.width_lt, toI32_eq hc.height_lt]
  split
  · exact ⟨g, rfl, hg⟩
  · rename_i hb
    have hin : 0 ≤ x ∧ x < cfg.GRID_WIDTH ∧ 0 ≤ y ∧ y < cfg.GRID_HEIGHT := by omega
    obtain ⟨f0, f1, f2, f3, f4, f5⟩ := hfit
    have hxx := abs_le_of_box rfl rfl hx0 hx1
    have hyy := abs_le_of_box rfl rfl hy0 hy1
    have hxx0 : 0 ≤ (x - cx) * (x - cx) := mul_self_nonneg _
    have hyy0 : 0 ≤ (y - cy) * (y - cy) := mul_self_nonneg _
    have hrr0 : 0 ≤ r * r := mul_self_nonneg _
    unfold INT32_MIN INT32_MAX at *
    rw [i32_eq_some (by unfold INT32_MIN; omega) (by unfold INT32_MAX; omega),
      i32_eq_some (by unfold INT32_MIN; omega) (by unfold INT32_MAX; omega)]
    simp only [Option.some_bind]
    rw [i32_eq_some (by unfold INT32_MIN; omega) (by unfold INT32_MAX; omega),
      i32_eq_some (by unfold INT32_MIN; omega) (by unfold INT32_MAX; omega)]
    simp only [Option.some_bind]
    rw [i32_eq_some (by unfold INT32_MIN; omega) (by unfold INT32_MAX; omega),
      i32_eq_some (by unfold INT32_MIN; omega) (by unfold INT32_MAX; omega)]
    simp only [Option.some_bind]
    obtain ⟨hidx, hlt⟩ := circle_index hc hin.1 hin.2.1 hin.2.2.1 hin.2.2.2
    split
    · rw [hidx, writeCell_of_lt _ (by rw [hg]; exact hlt)]
      exact ⟨_, rfl, by rw [List.length_set, hg]⟩
    · exact ⟨g, rfl, hg⟩


/-- The indices written by `generateCircle`. -/
theorem generateCircle_drawn {cfg : Config} (hc : cfg.GridFits) {V : Nat → Nat → Prop}
    (hV : ∀ j, V j SAND_VALUE) (cx cy r : Int) {g g1 : Grid}
    (h : generateCircle cfg cx cy r g = some g1) :
    Drawn (fun j => ∃ y, cy - r ≤ y ∧ y ≤ cy + r ∧ ∃ x, cx - r ≤ x ∧ x ≤ cx + r ∧
        (0 ≤ x ∧ x < cfg.GRID_WIDTH ∧ 0 ≤ y ∧ y < cfg.GRID_HEIGHT) ∧
        (y - cy) * (y - cy) + (x - cx) * (x - cx) < r * r ∧
        j = y.toNat * cfg.GRID_WIDTH + x.toNat) V g g1 := by
  unfold generateCircle at h
  obtain ⟨y0, hy0, h⟩ := bind_eq_some_iff.1 h
  obtain ⟨y1, hy1, h⟩ := bind_eq_some_iff.1 h
  obtain ⟨rfl, -, -⟩ := i32_some hy0
  obtain ⟨rfl, -, -⟩ := i32_some hy1
  refine forInt_drawn (cy + r) LOOP_FUEL (cy - r) g g1 (fun y ga gb _ _ hrow => ?_) h
  unfold circleRow at hrow
  obtain ⟨x0, hx0, hrow⟩ := bind_eq_some_iff.1 hrow
  obtain ⟨x1, hx1, hrow⟩ := bind_eq_some_iff.1 hrow
  obtain ⟨rfl, -, -⟩ := i32_some hx0
  obtain ⟨rfl, -, -⟩ := i32_some hx1
  exact forInt_drawn (cx + r) LOOP_FUEL (cx - r) ga gb
    (fun x gc gd _ _ hpt => circlePoint_drawn hc hV cx cy r x y hpt) hrow

theorem radius_small {r : Int} (h : 2 * (r * r) ≤ INT32_MAX) : -32768 < r ∧ r < 32768 := by
  unfold INT32_MAX at h
  constructor
  · by_contra hneg
    have h1 : 0 ≤ -r - 32768 := by omega
    have h2 : 0 ≤ -r + 32768 := by omega
    have := mul_nonneg h1 h2
    nlinarith
  · by_contra hneg
    have h1 : 0 ≤ r - 32768 := by omega
    have h2 : 0 ≤ r + 32768 := by omega
    have := mul_nonneg h1 h2
    nlinarith

theorem generateCircle_isSome {cfg : Config} (hc : cfg.GridFits) {cx cy r : Int}
    (hfit : CircleFits cx cy r) {g : Grid} (hg : g.length = cfg.GRID_WIDTH * cfg.GRID_HEIGHT) :
    ∃ g1, generateCircle cfg cx cy r g = some g1 ∧
      g1.length = cfg.GRID_WIDTH * cfg.GRID_HEIGHT := by
  have hfit0 := hfit
  obtain ⟨f0, f1, f2, f3, f4, f5⟩ := hfit
  unfold generateCircle
  obtain ⟨r0, r1⟩ := radius_small f5
  have b1 : INT32_MIN ≤ cy + r := by unfold INT32_MIN INT32_MAX at *; omega
  have b2 : INT32_MIN ≤ cx + r := by unfold INT32_MIN INT32_MAX at *; omega
  have b3 : cy - r ≤ INT32_MAX := by unfold INT32_MIN INT32_MAX at *; omega
  have b4 : cx - r ≤ INT32_MAX := by unfold INT32_MIN INT32_MAX at *; omega
  rw [i32_eq_some f3 b3, i32_eq_some b1 (le_of_lt f4)]
  simp only [Option.some_bind]
  have fuelY : (cy + r + 1 - (cy - r)).toNat < LOOP_FUEL := by
    unfold LOOP_FUEL INT32_MIN INT32_MAX at *; omega
  have fuelX : (cx + r + 1 - (cx - r)).toNat < LOOP_FUEL := by
    unfold LOOP_FUEL INT32_MIN INT32_MAX at *; omega
  refine forInt_isSome (cy + r) f4 LOOP_FUEL (cy - r) g f3 fuelY (fun y ga hy0 hy1 hga => ?_) hg
  unfold circleRow
  rw [i32_eq_some f1 b4, i32_eq_some b2 (le_of_lt f2)]
  simp only [Option.some_bind]
  refine forInt_isSome (cx + r) f2 LOOP_FUEL (cx - r) ga f1 fuelX (fun x gb hx0 hx1 hgb => ?_) hga
  exact circlePoint_isSome hc hfit0 hx0 hx1 hy0 hy1 hgb

/-- A cell that passes the inclusion test lies in the bounding box that
`generateCircle` scans. -/
theorem inCircle_box {c r v w s : Int} (hr : 0 ≤ r) (hw : 0 ≤ w)
    (h : w + (v - c) * (v - c) < r * r) (hs : s = v - c) : c - r ≤ v ∧ v ≤ c + r := by
  have h1 : s * s < r * r := by rw [hs]; omega
  constructor
  · by_contra hneg
    have : r ≤ -s := by omega
    nlinarith
  · by_contra hneg
    have : r ≤ s := by omega
    nlinarith


/-! ## The generators that end with `fixGridEdgeCases` -/

theorem Config.GridFits.width_lt_size {cfg : Config} (h : cfg.GridFits) :
    cfg.GRID_WIDTH < cfg.GRID_WIDTH * cfg.GRID_HEIGHT := by
  obtain ⟨h1, h2, -⟩ := h
  have : cfg.GRID_WIDTH * 2 ≤ cfg.GRID_WIDTH * cfg.GRID_HEIGHT := Nat.mul_le_mul_left _ h2
  omega

theorem Config.GridFits.twice_width {cfg : Config} (h : cfg.GridFits) :
    u32mul cfg.GRID_WIDTH 2 = 2 * cfg.GRID_WIDTH := by
  have := h.width_lt
  rw [u32mul_eq (by unfold U32; omega)]
  omega

theorem Config.GridFits.twice_width_lt {cfg : Config} (h : cfg.GridFits)
    (hh : cfg.GRID_HEIGHT > 2) : 2 * cfg.GRID_WIDTH < cfg.GRID_WIDTH * cfg.GRID_HEIGHT := by
  obtain ⟨h1, -, -⟩ := h
  have : cfg.GRID_WIDTH * 3 ≤ cfg.GRID_WIDTH * cfg.GRID_HEIGHT := Nat.mul_le_mul_left _ hh
  omega

/-- On a grid of the right size `fixGridEdgeCases` succeeds. -/
theorem fixGridEdgeCases_total {cfg : Config} (hc : cfg.GridFits) {g : Grid}
    (hg : g.length = cfg.GRID_WIDTH * cfg.GRID_HEIGHT) :
    ∃ g1, fixGridEdgeCases cfg g = some g1 := by
  refine fixGridEdgeCases_isSome (by rw [hg]; exact hc.width_lt_size) fun hh => ?_
  rw [hc.twice_width, hg]
  exact hc.twice_width_lt hh

/-- Effect of `fixGridEdgeCases` on the cells of a grid: the cells of
`EdgeCell` are Air and the other ones keep their value. -/
theorem fixGridEdgeCases_cells {cfg : Config} (hc : cfg.GridFits) {g g1 : Grid}
    (h : fixGridEdgeCases cfg g = some g1) :
    g1.length = g.length ∧ ∀ j, j < g.length →
      (EdgeCell cfg j → g1[j]? = some AIR_VALUE) ∧ (¬ EdgeCell cfg j → g1[j]? = g[j]?) := by
  have d := fixGridEdgeCases_drawn h
  rw [hc.twice_width] at d
  refine ⟨d.1, fun j hj => ⟨fun he => ?_, fun he => (d.2 j hj).2 he⟩⟩
  obtain ⟨v, hv, rfl⟩ := (d.2 j hj).1 he
  exact hv

/-- A grid left by `fixGridEdgeCases` satisfies `EdgeFixed`. -/
theorem fixGridEdgeCases_edgeFixed {cfg : Config} (hc : cfg.GridFits) {g g1 : Grid}
    (hg : g.length = cfg.GRID_WIDTH * cfg.GRID_HEIGHT)
    (h : fixGridEdgeCases cfg g = some g1) : EdgeFixed cfg g1 := by
  have c := (fixGridEdgeCases_cells hc h).2
  refine ⟨fun j hj => (c j ?_).1 (Or.inl hj), (c _ ?_).1 (Or.inr (Or.inl rfl)),
    fun hh => (c _ ?_).1 (Or.inr (Or.inr ⟨hh, rfl⟩))⟩
  · rw [hg]; exact lt_trans hj hc.width_lt_size
  · rw [hg]; exact hc.width_lt_size
  · rw [hg]; exact hc.twice_width_lt hh

/-- Cells of a grid that was Air everywhere, then painted with Sand on the
indices in `P`, then passed through `fixGridEdgeCases`. -/
theorem painted_then_fixed {cfg : Config} (hc : cfg.GridFits) {P : Nat → Prop} {g1 g2 : Grid}
    (d : Drawn P (fun _ v => v = SAND_VALUE) (List.replicate cfg.GRID_SIZE AIR_VALUE) g1)
    (h : fixGridEdgeCases cfg g1 = some g2) :
    g2.length = cfg.GRID_WIDTH * cfg.GRID_HEIGHT ∧
    ∀ j, j < cfg.GRID_WIDTH * cfg.GRID_HEIGHT →
      (P j ∧ ¬ EdgeCell cfg j → g2[j]? = some SAND_VALUE) ∧
      (¬ (P j ∧ ¬ EdgeCell cfg j) → g2[j]? = some AIR_VALUE) := by
  have hlen0 : (List.replicate cfg.GRID_SIZE AIR_VALUE).length =
      cfg.GRID_WIDTH * cfg.GRID_HEIGHT := by rw [List.length_replicate, hc.gridSize]
  have hlen1 : g1.length = cfg.GRID_WIDTH * cfg.GRID_HEIGHT := d.1.trans hlen0
  obtain ⟨hl2, c⟩ := fixGridEdgeCases_cells hc h
  refine ⟨hl2.trans hlen1, fun j hj => ?_⟩
  have hj1 : j < g1.length := hlen1 ▸ hj
  have hj0 : j < (List.replicate cfg.GRID_SIZE AIR_VALUE).length := hlen0 ▸ hj
  constructor
  · rintro ⟨hp, he⟩
    rw [(c j hj1).2 he]
    obtain ⟨v, hv, rfl⟩ := (d.2 j hj0).1 hp
    exact hv
  · intro hn
    by_cases he : EdgeCell cfg j
    · exact (c j hj1).1 he
    · have hp : ¬ P j := fun hp => hn ⟨hp, he⟩
      rw [(c j hj1).2 he, (d.2 j hj0).2 hp]
      exact List.getElem?_replicate_of_lt (by rw [hc.gridSize]; exact hj)

/-- Two grids of the same length with the same cells are equal. -/
theorem grid_ext {g1 g2 : Grid} {n : Nat} (h1 : g1.length = n) (h2 : g2.length = n)
    (h : ∀ j, j < n → g1[j]? = g2[j]?) : g1 = g2 := by
  apply List.ext_getElem? 
  intro j
  by_cases hj : j < n
  · exact h j hj
  · rw [List.getElem?_eq_none (by omega), List.getElem?_eq_none (by omega)]

/-- Row and column of a cell index. -/
theorem index_decomp {w h j : Nat} (hj : j < w * h) :
    j % w < w ∧ j / w < h ∧ j / w * w + j % w = j := by
  have hw : 0 < w := by
    rcases Nat.eq_zero_or_pos w with h0 | h0
    · subst h0; simp at hj
    · exact h0
  refine ⟨Nat.mod_lt _ hw, ?_, ?_⟩
  · exact Nat.div_lt_of_lt_mul hj
  · rw [Nat.mul_comm]; exact Nat.div_add_mod j w


/-- Row and column of the index of the cell `(x, y)`. -/
theorem index_row_col {w x y : Nat} (hx : x < w) :
    (y * w + x) % w = x ∧ (y * w + x) / w = y := by
  have hw : 0 < w := by omega
  refine ⟨Nat.mul_add_mod_of_lt hx, ?_⟩
  rw [Nat.mul_comm, Nat.mul_add_div hw, Nat.div_eq_of_lt hx, Nat.add_zero]

/-- The cells painted by `generateCircle`, as a set of indices. -/
theorem generateCircle_painted {cfg : Config} (hc : cfg.GridFits) {cx cy r : Int} (hr : 0 ≤ r)
    {g g1 : Grid} (h : generateCircle cfg cx cy r g = some g1) :
    Drawn (fun j => j < cfg.GRID_WIDTH * cfg.GRID_HEIGHT ∧
        InCircle cx cy r (j % cfg.GRID_WIDTH) (j / cfg.GRID_WIDTH))
      (fun _ v => v = SAND_VALUE) g g1 := by
  refine (generateCircle_drawn hc (V := fun _ v => v = SAND_VALUE) (fun _ => rfl) cx cy r h).congr
    fun j _ => ?_
  constructor
  · rintro ⟨y1, -, -, x1, -, -, ⟨hx0, hx1, hy0, hy1⟩, hlt, hidx⟩
    have hxn : x1.toNat < cfg.GRID_WIDTH := by omega
    have hyn : y1.toNat < cfg.GRID_HEIGHT := by omega
    obtain ⟨em, ed⟩ := index_row_col (y := y1.toNat) hxn
    subst hidx
    refine ⟨cell_index_lt hxn hyn, ?_⟩
    rw [em, ed]
    unfold InCircle
    rw [Int.toNat_of_nonneg hx0, Int.toNat_of_nonneg hy0]
    exact hlt
  · rintro ⟨hj, hin⟩
    obtain ⟨hx, hy, hxy⟩ := index_decomp hj
    generalize j % cfg.GRID_WIDTH = x at hin hx hxy
    generalize j / cfg.GRID_WIDTH = y at hin hy hxy
    unfold InCircle at hin
    have hbx := inCircle_box (s := (x : Int) - cx) hr (mul_self_nonneg ((y : Int) - cy)) hin rfl
    have hby := inCircle_box (s := (y : Int) - cy) hr (mul_self_nonneg ((x : Int) - cx))
      (by rw [add_comm]; exact hin) rfl
    refine ⟨(y : Int), hby.1, hby.2, (x : Int), hbx.1, hbx.2,
      ⟨Int.ofNat_nonneg x, Int.ofNat_lt.2 hx, Int.ofNat_nonneg y, Int.ofNat_lt.2 hy⟩, hin, ?_⟩
    rw [Int.toNat_ofNat, Int.toNat_ofNat]
    exact hxy.symm

/-- Effect of `generateCircle` on the cells of the grid: an in-bounds cell is
Sand when it passes the inclusion test and keeps its value otherwise. -/
theorem generateCircle_cells {cfg : Config} (hc : cfg.GridFits) {cx cy r : Int} (hr : 0 ≤ r)
    {g g1 : Grid} (hg : g.length = cfg.GRID_WIDTH * cfg.GRID_HEIGHT)
    (h : generateCircle cfg cx cy r g = some g1) :
    g1.length = cfg.GRID_WIDTH * cfg.GRID_HEIGHT ∧
    ∀ x y, x < cfg.GRID_WIDTH → y < cfg.GRID_HEIGHT →
      g1[y * cfg.GRID_WIDTH + x]? =
        if InCircle cx cy r x y then some SAND_VALUE else g[y * cfg.GRID_WIDTH + x]? := by
  have d := generateCircle_painted hc hr h
  refine ⟨d.1.trans hg, fun x y hx hy => ?_⟩
  have hlt := cell_index_lt hx hy
  have hj : y * cfg.GRID_WIDTH + x < g.length := by rw [hg]; exact hlt
  obtain ⟨em, ed⟩ := index_row_col (y := y) hx
  by_cases hin : InCircle cx cy r x y
  · rw [if_pos hin]
    obtain ⟨v, hv, rfl⟩ := (d.2 _ hj).1 ⟨hlt, by rw [em, ed]; exact hin⟩
    exact hv
  · rw [if_neg hin]
    refine (d.2 _ hj).2 ?_
    rintro ⟨-, hin1⟩
    rw [em, ed] at hin1
    exact hin hin1

/-! ### `generateCenterCircle` -/

theorem generateCenterCircle_some {cfg : Config} (hc : cfg.GridFits)
    (hf : cfg.CenterCircleFits) : ∃ g, generateCenterCircle cfg = some g := by
  unfold generateCenterCircle
  have hw := hc.width_lt
  have hh := hc.height_lt
  obtain ⟨hr, hfit⟩ := hf
  rw [toI32_eq (by omega), toI32_eq (by omega), toI32_eq hr]
  obtain ⟨g1, h1, hl1⟩ := generateCircle_isSome hc hfit
    (g := List.replicate cfg.GRID_SIZE AIR_VALUE) (by rw [List.length_replicate, hc.gridSize])
  obtain ⟨g2, h2⟩ := fixGridEdgeCases_total hc hl1
  exact ⟨g2, by dsimp only; rw [h1]; exact h2⟩

/-- Cells of the grid returned by `generateCenterCircle`. -/
theorem generateCenterCircle_cells {cfg : Config} (hc : cfg.GridFits)
    (hr : cfg.RADIUS < 2147483648) {g : Grid} (h : generateCenterCircle cfg = some g) :
    g.length = cfg.GRID_WIDTH * cfg.GRID_HEIGHT ∧ EdgeFixed cfg g ∧
    ∀ x y, x < cfg.GRID_WIDTH → y < cfg.GRID_HEIGHT →
      (InCircle (cfg.GRID_WIDTH / 2 : Nat) (cfg.GRID_HEIGHT / 2 : Nat) cfg.RADIUS x y ∧
          ¬ EdgeCell cfg (y * cfg.GRID_WIDTH + x) →
        g[y * cfg.GRID_WIDTH + x]? = some SAND_VALUE) ∧
      (¬ (InCircle (cfg.GRID_WIDTH / 2 : Nat) (cfg.GRID_HEIGHT / 2 : Nat) cfg.RADIUS x y ∧
          ¬ EdgeCell cfg (y * cfg.GRID_WIDTH + x)) →
        g[y * cfg.GRID_WIDTH + x]? = some AIR_VALUE) := by
  unfold generateCenterCircle at h
  have hw := hc.width_lt
  have hh := hc.height_lt
  rw [toI32_eq (by omega), toI32_eq (by omega), toI32_eq hr] at h
  obtain ⟨g1, h1, h2⟩ := bind_eq_some_iff.1 h
  have d := generateCircle_painted hc (by omega) h1
  have hl1 : g1.length = cfg.GRID_WIDTH * cfg.GRID_HEIGHT := by
    rw [d.1, List.length_replicate, hc.gridSize]
  obtain ⟨hl, c⟩ := painted_then_fixed hc d h2
  refine ⟨hl, fixGridEdgeCases_edgeFixed hc hl1 h2, fun x y hx hy => ?_⟩
  have hlt := cell_index_lt hx hy
  obtain ⟨em, ed⟩ := index_row_col (y := y) hx
  have c1 := c _ hlt
  rw [em, ed] at c1
  exact ⟨fun hp => c1.1 ⟨⟨hlt, hp.1⟩, hp.2⟩, fun hn => c1.2 fun hp => hn ⟨hp.1.2, hp.2⟩⟩


/-! ### `generateRandomCircles` -/

theorem Config.RandomCirclesFit.circleFits {cfg : Config} (hc : cfg.GridFits)
    (hf : cfg.RandomCirclesFit) {draws : Nat → CircleDraw} (hd : CircleDrawsInRange cfg draws)
    {i : Nat} (hi : i < cfg.CIRCLE_COUNT) :
    CircleFits (draws i).centerX (draws i).centerY (draws i).radius := by
  obtain ⟨m0, m1, fw, fh, fr⟩ := hf
  obtain ⟨⟨x0, x1⟩, ⟨y0, y1⟩, r0, r1⟩ := hd i hi
  rw [toI32_eq hc.width_lt] at x1
  rw [toI32_eq hc.height_lt] at y1
  rw [toI32_eq m0] at r0
  rw [toI32_eq m1] at r1
  obtain ⟨-, s1⟩ := radius_small fr
  have hr : 0 ≤ (draws i).radius := le_trans (Int.ofNat_nonneg _) r0
  have hsq : (draws i).radius * (draws i).radius ≤ (cfg.MAX_RADIUS : Int) * cfg.MAX_RADIUS :=
    mul_le_mul r1 r1 hr (le_trans hr r1)
  unfold CircleFits
  unfold INT32_MIN INT32_MAX at *
  refine ⟨hr, ?_, ?_, ?_, ?_, ?_⟩ <;> omega

theorem CircleDrawsInRange.radius_nonneg {cfg : Config} (hm : cfg.MIN_RADIUS < 2147483648)
    {draws : Nat → CircleDraw} (hd : CircleDrawsInRange cfg draws)
    {i : Nat} (hi : i < cfg.CIRCLE_COUNT) : 0 ≤ (draws i).radius := by
  have r0 := (hd i hi).2.2.1
  rw [toI32_eq hm] at r0
  exact le_trans (Int.ofNat_nonneg _) r0

theorem generateRandomCircles_some {cfg : Config} (hc : cfg.GridFits)
    (hf : cfg.RandomCirclesFit) {draws : Nat → CircleDraw} (hd : CircleDrawsInRange cfg draws) :
    ∃ g, generateRandomCircles cfg draws = some g := by
  unfold generateRandomCircles
  obtain ⟨g1, h1, hl1⟩ := forCount_isSome
    (fun _ (g : Grid) => g.length = cfg.GRID_WIDTH * cfg.GRID_HEIGHT)
    (fun i g => generateCircle cfg (draws i).centerX (draws i).centerY (draws i).radius g)
    cfg.CIRCLE_COUNT (fun i g hi hg => generateCircle_isSome hc (hf.circleFits hc hd hi) hg)
    (List.replicate cfg.GRID_SIZE AIR_VALUE)
    (by show (List.replicate _ _).length = _; rw [List.length_replicate, hc.gridSize])
  obtain ⟨g2, h2⟩ := fixGridEdgeCases_total hc hl1
  exact ⟨g2, by dsimp only; rw [h1]; exact h2⟩

/-- Cells of the grid returned by `generateRandomCircles`. -/
theorem generateRandomCircles_cells {cfg : Config} (hc : cfg.GridFits)
    (hm : cfg.MIN_RADIUS < 2147483648) {draws : Nat → CircleDraw}
    (hd : CircleDrawsInRange cfg draws) {g : Grid} (h : generateRandomCircles cfg draws = some g) :
    g.length = cfg.GRID_WIDTH * cfg.GRID_HEIGHT ∧ EdgeFixed cfg g ∧
    ∀ x y, x < cfg.GRID_WIDTH → y < cfg.GRID_HEIGHT →
      (InSomeCircle cfg draws x y ∧ ¬ EdgeCell cfg (y * cfg.GRID_WIDTH + x) →
        g[y * cfg.GRID_WIDTH + x]? = some SAND_VALUE) ∧
      (¬ (InSomeCircle cfg draws x y ∧ ¬ EdgeCell cfg (y * cfg.GRID_WIDTH + x)) →
        g[y * cfg.GRID_WIDTH + x]? = some AIR_VALUE) := by
  unfold generateRandomCircles at h
  obtain ⟨g1, h1, h2⟩ := bind_eq_some_iff.1 h
  have d := forCount_drawn (V := fun _ v => v = SAND_VALUE)
    (P := fun i j => j < cfg.GRID_WIDTH * cfg.GRID_HEIGHT ∧
      InCircle (draws i).centerX (draws i).centerY (draws i).radius
        (j % cfg.GRID_WIDTH) (j / cfg.GRID_WIDTH))
    (List.replicate cfg.GRID_SIZE AIR_VALUE).length cfg.CIRCLE_COUNT
    (fun i ga gb hi _ hb => generateCircle_painted hc (hd.radius_nonneg hm hi) hb) _ g1 rfl h1
  have hl1 : g1.length = cfg.GRID_WIDTH * cfg.GRID_HEIGHT := by
    rw [d.1, List.length_replicate, hc.gridSize]
  obtain ⟨hl, c⟩ := painted_then_fixed hc d h2
  refine ⟨hl, fixGridEdgeCases_edgeFixed hc hl1 h2, fun x y hx hy => ?_⟩
  have hlt := cell_index_lt hx hy
  obtain ⟨em, ed⟩ := index_row_col (y := y) hx
  have c1 := c _ hlt
  simp only [em, ed] at c1
  constructor
  · rintro ⟨⟨i, hi, hin⟩, he⟩
    exact c1.1 ⟨⟨i, hi, hlt, hin⟩, he⟩
  · intro hn
    refine c1.2 ?_
    rintro ⟨⟨i, hi, -, hin⟩, he⟩
    exact hn ⟨⟨i, hi, hin⟩, he⟩

/-! ### `generateRandomNoise` -/

theorem writeCell_count_le {g g1 : Grid} {idx v : Nat} (b : Nat)
    (h : writeCell g idx v = some g1) : g1.count b ≤ g.count b + 1 := by
  obtain ⟨hlt, rfl⟩ := writeCell_eq_some h
  rw [List.count_set _ _ _ _ hlt]
  split <;> split <;> omega

theorem writeCell_count_other {g g1 : Grid} {idx v b : Nat} (hvb : v ≠ b)
    (h : writeCell g idx v = some g1) : g1.count b ≤ g.count b := by
  obtain ⟨hlt, rfl⟩ := writeCell_eq_some h
  rw [List.count_set _ _ _ _ hlt]
  have : (v == b) = false := by simpa using hvb
  rw [this]
  simp

/-- The edge fix writes Air only, so it does not add any Sand. -/
theorem fixGridEdgeCases_count {cfg : Config} {g g1 : Grid}
    (h : fixGridEdgeCases cfg g = some g1) : g1.count SAND_VALUE ≤ g.count SAND_VALUE := by
  unfold fixGridEdgeCases at h
  split at h
  swap
  · cases h
  obtain ⟨g2, h2, h3⟩ := bind_eq_some_iff.1 h
  have c0 : (List.replicate cfg.GRID_WIDTH 0 ++ g.drop cfg.GRID_WIDTH).count SAND_VALUE
      ≤ g.count SAND_VALUE := by
    rw [List.count_append, List.count_replicate]
    have : ((0 : Nat) == SAND_VALUE) = false := by decide
    rw [this]
    simpa using (List.drop_sublist cfg.GRID_WIDTH g).count_le SAND_VALUE
  have c2 := writeCell_count_other (b := SAND_VALUE) (by decide) h2
  split at h3
  · have c3 := writeCell_count_other (b := SAND_VALUE) (by decide) h3
    omega
  · cases h3
    omega

theorem generateRandomNoise_some {cfg : Config} (hc : cfg.GridFits) (rnd : Nat → F32) :
    ∃ g, generateRandomNoise cfg rnd = some g := by
  unfold generateRandomNoise
  have hpos : 0 < cfg.GRID_WIDTH * cfg.GRID_HEIGHT := lt_of_le_of_lt (Nat.zero_le _) hc.width_lt_size
  obtain ⟨g1, h1, hl1⟩ := forCount_isSome
    (fun _ (g : Grid) => g.length = cfg.GRID_WIDTH * cfg.GRID_HEIGHT)
    (fun i g => if g.length = 0 then none
      else writeCell g (noiseIndex cfg (rnd i) % g.length) SAND_VALUE)
    cfg.PARTICLE_COUNT (fun i g hi hg => by
      have hg1 : g.length = cfg.GRID_WIDTH * cfg.GRID_HEIGHT := hg
      have hne : g.length ≠ 0 := by omega
      show ∃ s1, (if g.length = 0 then none
        else writeCell g (noiseIndex cfg (rnd i) % g.length) SAND_VALUE) = some s1 ∧
          s1.length = cfg.GRID_WIDTH * cfg.GRID_HEIGHT
      rw [if_neg hne, writeCell_of_lt _ (Nat.mod_lt _ (by omega))]
      exact ⟨_, rfl, by rw [List.length_set]; exact hg1⟩)
    (List.replicate cfg.GRID_SIZE AIR_VALUE)
    (by show (List.replicate _ _).length = _; rw [List.length_replicate, hc.gridSize])
  obtain ⟨g2, h2⟩ := fixGridEdgeCases_total hc hl1
  exact ⟨g2, by dsimp only; rw [h1]; exact h2⟩

/-- Cells of the grid returned by `generateRandomNoise`, and the number of
Sand cells in it. -/
theorem generateRandomNoise_cells {cfg : Config} (hc : cfg.GridFits) {rnd : Nat → F32}
    {g : Grid} (h : generateRandomNoise cfg rnd = some g) :
    g.length = cfg.GRID_WIDTH * cfg.GRID_HEIGHT ∧ EdgeFixed cfg g ∧
    g.count SAND_VALUE ≤ cfg.PARTICLE_COUNT ∧
    ∀ j, j < cfg.GRID_WIDTH * cfg.GRID_HEIGHT →
      (NoiseSampled cfg rnd j ∧ ¬ EdgeCell cfg j → g[j]? = some SAND_VALUE) ∧
      (¬ (NoiseSampled cfg rnd j ∧ ¬ EdgeCell cfg j) → g[j]? = some AIR_VALUE) := by
  unfold generateRandomNoise at h
  obtain ⟨g1, h1, h2⟩ := bind_eq_some_iff.1 h
  have hlen0 : (List.replicate cfg.GRID_SIZE AIR_VALUE).length =
      cfg.GRID_WIDTH * cfg.GRID_HEIGHT := by rw [List.length_replicate, hc.gridSize]
  have d := forCount_drawn (V := fun _ v => v = SAND_VALUE)
    (P := fun i j => j = noiseIndex cfg (rnd i) % (cfg.GRID_WIDTH * cfg.GRID_HEIGHT))
    (cfg.GRID_WIDTH * cfg.GRID_HEIGHT) cfg.PARTICLE_COUNT
    (fun i ga gb hi hga hb => by
      have hb1 : (if ga.length = 0 then none
        else writeCell ga (noiseIndex cfg (rnd i) % ga.length) SAND_VALUE) = some gb := hb
      split at hb1
      · cases hb1
      · rw [hga] at hb1
        exact Drawn.write hb1 rfl) _ g1 hlen0 h1
  have hcount := forCount_measure (fun g : Grid => g.count SAND_VALUE)
    (fun i g => if g.length = 0 then none
      else writeCell g (noiseIndex cfg (rnd i) % g.length) SAND_VALUE)
    (fun i ga gb hb => by
      have hb1 : (if ga.length = 0 then none
        else writeCell ga (noiseIndex cfg (rnd i) % ga.length) SAND_VALUE) = some gb := hb
      split at hb1
      · cases hb1
      · exact writeCell_count_le SAND_VALUE hb1) cfg.PARTICLE_COUNT _ g1 h1
  have hcount1 : g1.count SAND_VALUE ≤
      (List.replicate cfg.GRID_SIZE AIR_VALUE).count SAND_VALUE + cfg.PARTICLE_COUNT := hcount
  have hc0 : (List.replicate cfg.GRID_SIZE AIR_VALUE).count SAND_VALUE = 0 := by
    rw [List.count_replicate]
    have : (AIR_VALUE == SAND_VALUE) = false := by decide
    rw [this]
    simp
  have hl1 : g1.length = cfg.GRID_WIDTH * cfg.GRID_HEIGHT := d.1.trans hlen0
  have hfc := fixGridEdgeCases_count h2
  obtain ⟨hl, c⟩ := painted_then_fixed hc d h2
  refine ⟨hl, fixGridEdgeCases_edgeFixed hc hl1 h2, by omega, fun j hj => ?_⟩
  have c1 := c j hj
  constructor
  · rintro ⟨⟨i, hi, hin⟩, he⟩
    exact c1.1 ⟨⟨i, hi, hin.symm⟩, he⟩
  · intro hn
    refine c1.2 ?_
    rintro ⟨⟨i, hi, hin⟩, he⟩
    exact hn ⟨⟨i, hi, hin.symm⟩, he⟩


/-! ## `generateHourglass` -/

/-- The static assertions, read without wrap-around. -/
theorem Config.sane {cfg : Config} (hs : cfg.staticAsserts) (hn : cfg.NoWrap) :
    (2 ≤ cfg.GRID_WIDTH ∧ 2 ≤ cfg.GRID_HEIGHT ∧
      cfg.GRID_WIDTH * cfg.GRID_HEIGHT < 1073741823) ∧
    (cfg.HOURGLASS_WIDTH + cfg.HOURGLASS_BORDER_WIDTH ≤ cfg.GRID_WIDTH ∧
      cfg.HOURGLASS_HEIGHT + cfg.HOURGLASS_BORDER_WIDTH ≤ cfg.GRID_HEIGHT ∧
      2 ≤ cfg.HOURGLASS_CENTER_WIDTH ∧
      cfg.HOURGLASS_CENTER_WIDTH + cfg.HOURGLASS_BORDER_WIDTH ≤ cfg.GRID_WIDTH) ∧
    (cfg.GRID_WIDTH % 2 = 0 ∧ cfg.HOURGLASS_WIDTH % 2 = 0 ∧
      cfg.GRID_HEIGHT % 2 = 0 ∧ cfg.HOURGLASS_HEIGHT % 2 = 0) := by
  obtain ⟨⟨a1, a2⟩, a3, -, -, a4, a5, a6, a7, ⟨a8, a9⟩, ⟨a10, a11⟩, -⟩ := hs
  obtain ⟨n1, n2, n3, n4⟩ := hn
  rw [u32add_eq n2] at a4
  rw [u32add_eq n3] at a5
  rw [u32add_eq n4] at a7
  unfold Config.GRID_SIZE at a3
  rw [u32mul_eq n1] at a3
  have : UINT32_MAX / 4 = 1073741823 := by decide
  rw [this] at a3
  exact ⟨⟨a1, a2, a3⟩, ⟨a4, a5, a6, a7⟩, a8, a9, a10, a11⟩

theorem Config.sane_gridFits {cfg : Config} (hs : cfg.staticAsserts) (hn : cfg.NoWrap) :
    cfg.GridFits :=
  ⟨hs.1.1, hs.1.2, hn.1⟩

/-- Width and height are below `2^29` when the grid has at most `2^30` cells. -/
theorem Config.sane_small {cfg : Config} (hs : cfg.staticAsserts) (hn : cfg.NoWrap) :
    cfg.GRID_WIDTH < 536870912 ∧ cfg.GRID_HEIGHT < 536870912 := by
  obtain ⟨⟨a1, a2, a3⟩, -⟩ := Config.sane hs hn
  have h1 : cfg.GRID_WIDTH * 2 ≤ cfg.GRID_WIDTH * cfg.GRID_HEIGHT := Nat.mul_le_mul_left _ a2
  have h2 : 2 * cfg.GRID_HEIGHT ≤ cfg.GRID_WIDTH * cfg.GRID_HEIGHT := Nat.mul_le_mul_right _ a1
  omega

/-- The local constants of `generateHourglass`, without wrap-around. -/
theorem Config.hourglass_consts {cfg : Config} (hs : cfg.staticAsserts) (hn : cfg.NoWrap) :
    cfg.startRow = (cfg.GRID_HEIGHT - cfg.HOURGLASS_HEIGHT) / 2 ∧
    cfg.endRow = cfg.startRow + cfg.HOURGLASS_HEIGHT ∧
    cfg.upperCenterRow = cfg.startRow + cfg.HOURGLASS_HEIGHT / 2 ∧
    cfg.lowerCenterRow = cfg.upperCenterRow + 1 ∧
    cfg.leftCenterColumn = cfg.GRID_WIDTH / 2 ∧
    cfg.rightCenterColumn = cfg.GRID_WIDTH / 2 + 1 := by
  obtain ⟨⟨a1, a2, a3⟩, ⟨b1, b2, b3, b4⟩, c1, c2, c3, c4⟩ := Config.sane hs hn
  obtain ⟨s1, s2⟩ := Config.sane_small hs hn
  have e1 : cfg.startRow = (cfg.GRID_HEIGHT - cfg.HOURGLASS_HEIGHT) / 2 := by
    unfold Config.startRow
    rw [u32sub_eq (by omega) (by unfold U32; omega)]
  have e2 : cfg.endRow = cfg.startRow + cfg.HOURGLASS_HEIGHT := by
    unfold Config.endRow
    rw [u32add_eq (by rw [e1]; unfold U32; omega)]
  have e3 : cfg.upperCenterRow = cfg.startRow + cfg.HOURGLASS_HEIGHT / 2 := by
    unfold Config.upperCenterRow Config.halfHourglassHeight
    rw [u32add_eq (by rw [e1]; unfold U32; omega)]
  have e4 : cfg.lowerCenterRow = cfg.upperCenterRow + 1 := by
    unfold Config.lowerCenterRow
    rw [u32add_eq (by rw [e3, e1]; unfold U32; omega)]
  have e5 : cfg.leftCenterColumn = cfg.GRID_WIDTH / 2 := by
    unfold Config.leftCenterColumn Config.startColumn Config.halfHourglassWidth
    rw [u32sub_eq (by omega) (by unfold U32; omega), u32add_eq (by unfold U32; omega)]
    omega
  have e6 : cfg.rightCenterColumn = cfg.GRID_WIDTH / 2 + 1 := by
    unfold Config.rightCenterColumn
    rw [e5, u32add_eq (by unfold U32; omega)]
  exact ⟨e1, e2, e3, e4, e5, e6⟩

theorem Config.widthAt_le (cfg : Config) (i : Nat) :
    cfg.widthAt i ≤ max cfg.HOURGLASS_CENTER_WIDTH cfg.HOURGLASS_WIDTH := by
  cases i with
  | zero => exact le_max_left _ _
  | succ i => exact le_trans (min_le_right _ _) (le_max_right _ _)

/-- The right end of a drawn row, without wrap-around. -/
theorem Config.rightBorder_eq {cfg : Config} (hs : cfg.staticAsserts) (hn : cfg.NoWrap)
    (i : Nat) :
    cfg.rightBorderBegin (cfg.widthAt i) = cfg.GRID_WIDTH / 2 + 1 + cfg.widthAt i / 2 ∧
    cfg.rightBorderEnd (cfg.widthAt i) =
      cfg.GRID_WIDTH / 2 + 1 + cfg.widthAt i / 2 + cfg.HOURGLASS_BORDER_WIDTH ∧
    cfg.widthAt i / 2 ≤ cfg.GRID_WIDTH / 2 ∧
    cfg.rightBorderEnd (cfg.widthAt i) ≤ 2 * cfg.GRID_WIDTH + 1 := by
  obtain ⟨⟨a1, a2, a3⟩, ⟨b1, b2, b3, b4⟩, c1, c2, c3, c4⟩ := Config.sane hs hn
  obtain ⟨s1, s2⟩ := Config.sane_small hs hn
  obtain ⟨-, -, -, -, -, e6⟩ := Config.hourglass_consts hs hn
  have hw := cfg.widthAt_le i
  have hm : max cfg.HOURGLASS_CENTER_WIDTH cfg.HOURGLASS_WIDTH ≤ cfg.GRID_WIDTH :=
    max_le (by omega) (by omega)
  have hw2 : cfg.widthAt i / 2 ≤ cfg.GRID_WIDTH / 2 := Nat.div_le_div_right (le_trans hw hm)
  have r1 : cfg.rightBorderBegin (cfg.widthAt i) =
      cfg.GRID_WIDTH / 2 + 1 + cfg.widthAt i / 2 := by
    unfold Config.rightBorderBegin
    rw [e6, u32add_eq (by unfold U32; omega)]
  have r2 : cfg.rightBorderEnd (cfg.widthAt i) =
      cfg.GRID_WIDTH / 2 + 1 + cfg.widthAt i / 2 + cfg.HOURGLASS_BORDER_WIDTH := by
    unfold Config.rightBorderEnd
    rw [r1, u32add_eq (by unfold U32; omega)]
  exact ⟨r1, r2, hw2, by rw [r2]; omega⟩


/-- The two cells written by the body of the inner loop. -/
theorem hourglassPoint_drawn {cfg : Config} {V : Nat → Nat → Prop} {cw yUp yDown x : Nat}
    {g g1 : Grid}
    (hU : V (u32add x (u32mul cfg.GRID_WIDTH yUp)) (cfg.upValue cw yUp yDown x))
    (hD : V (u32add x (u32mul cfg.GRID_WIDTH yDown)) (cfg.downValue cw yUp yDown x))
    (h : hourglassPoint cfg cw yUp yDown x g = some g1) :
    Drawn (fun j => j = u32add x (u32mul cfg.GRID_WIDTH yUp) ∨
      j = u32add x (u32mul cfg.GRID_WIDTH yDown)) V g g1 := by
  unfold hourglassPoint at h
  unfold Config.upValue at hU
  unfold Config.downValue at hD
  dsimp only at h
  by_cases hb : cfg.isBorder cw yUp yDown x = true
  · rw [if_pos hb] at h hU hD
    obtain ⟨gm, h1, h2⟩ := bind_eq_some_iff.1 h
    refine ((Drawn.write h1 hD).trans (Drawn.write h2 hU)).congr fun j _ => ?_
    exact ⟨fun h => h.symm, fun h => h.symm⟩
  · rw [if_neg hb] at h hU hD
    obtain ⟨gm, h1, h2⟩ := bind_eq_some_iff.1 h
    exact (Drawn.write h1 hU).trans (Drawn.write h2 hD)

/-- The cells written by the inner loop from the column `x0` on. -/
theorem hourglassRow_drawn {cfg : Config} {V : Nat → Nat → Prop} {cw yUp yDown : Nat}
    (hr : cfg.rightBorderEnd cw + 1 < U32) (fuel : Nat) :
    ∀ (x0 : Nat) (g g1 : Grid),
      (∀ x, x0 ≤ x → x ≤ cfg.rightBorderEnd cw →
        V (u32add x (u32mul cfg.GRID_WIDTH yUp)) (cfg.upValue cw yUp yDown x) ∧
        V (u32add x (u32mul cfg.GRID_WIDTH yDown)) (cfg.downValue cw yUp yDown x)) →
      hourglassRow cfg cw yUp yDown fuel x0 g = some g1 →
      Drawn (fun j => ∃ x, x0 ≤ x ∧ x ≤ cfg.rightBorderEnd cw ∧
        (j = u32add x (u32mul cfg.GRID_WIDTH yUp) ∨
          j = u32add x (u32mul cfg.GRID_WIDTH yDown))) V g g1 := by
  induction fuel with
  | zero => intro x0 g g1 _ h; cases h
  | succ fuel ih =>
    intro x0 g g1 hV h
    unfold hourglassRow at h
    by_cases hle : x0 ≤ cfg.rightBorderEnd cw
    · rw [if_pos hle] at h
      obtain ⟨gm, hm, h⟩ := bind_eq_some_iff.1 h
      rw [u32add_eq (by omega)] at h
      have d1 := hourglassPoint_drawn (hV x0 (le_refl _) hle).1 (hV x0 (le_refl _) hle).2 hm
      have d2 := ih (x0 + 1) gm g1 (fun x h1 h2 => hV x (by omega) h2) h
      refine (d1.trans d2).congr fun j _ => ?_
      constructor
      · rintro (hp | ⟨x, h1, h2, hp⟩)
        · exact ⟨x0, le_refl _, hle, hp⟩
        · exact ⟨x, by omega, h2, hp⟩
      · rintro ⟨x, h1, h2, hp⟩
        by_cases hx : x = x0
        · exact Or.inl (hx ▸ hp)
        · exact Or.inr ⟨x, by omega, h2, hp⟩
    · rw [if_neg hle] at h
      cases h
      exact (Drawn.refl V g).congr fun j _ =>
        ⟨fun h => h.elim, fun ⟨x, h1, h2, _⟩ => hle (le_trans h1 h2)⟩

/-- Rows of the grid have indices below the number of cells. -/
theorem row_index_bound {w h y : Nat} (hy : y < h) : w * y + w ≤ w * h := by
  have : w * (y + 1) ≤ w * h := Nat.mul_le_mul_left _ hy
  rw [Nat.mul_add, Nat.mul_one] at this
  exact this

/-- The cells written by the outer loop from iteration `i` on. -/
theorem hourglassLoop_drawn {cfg : Config} (hs : cfg.staticAsserts) (hn : cfg.NoWrap)
    {V : Nat → Nat → Prop}
    (hV : ∀ i x, i < cfg.rowPairs → cfg.leftBorderBegin (cfg.widthAt i) ≤ x →
      x ≤ cfg.rightBorderEnd (cfg.widthAt i) →
      V (x + cfg.GRID_WIDTH * (cfg.upperCenterRow - i))
        (cfg.upValue (cfg.widthAt i) (cfg.upperCenterRow - i) (cfg.lowerCenterRow + i) x) ∧
      V (x + cfg.GRID_WIDTH * (cfg.lowerCenterRow + i))
        (cfg.downValue (cfg.widthAt i) (cfg.upperCenterRow - i) (cfg.lowerCenterRow + i) x))
    (fuel : Nat) :
    ∀ (i : Nat) (g g1 : Grid), i ≤ cfg.halfHourglassHeight →
      hourglassLoop cfg fuel (cfg.upperCenterRow + 1 - i) (cfg.lowerCenterRow + i)
        (cfg.widthAt i) g = some g1 →
      Drawn (fun j => ∃ k x, i ≤ k ∧ k < cfg.rowPairs ∧
        cfg.leftBorderBegin (cfg.widthAt k) ≤ x ∧ x ≤ cfg.rightBorderEnd (cfg.widthAt k) ∧
        (j = x + cfg.GRID_WIDTH * (cfg.upperCenterRow - k) ∨
          j = x + cfg.GRID_WIDTH * (cfg.lowerCenterRow + k))) V g g1 := by
  obtain ⟨⟨a1, a2, a3⟩, ⟨b1, b2, b3, b4⟩, c1, c2, c3, c4⟩ := Config.sane hs hn
  obtain ⟨s1, s2⟩ := Config.sane_small hs hn
  obtain ⟨e1, e2, e3, e4, e5, e6⟩ := Config.hourglass_consts hs hn
  induction fuel with
  | zero => intro i g g1 _ h; cases h
  | succ fuel ih =>
    intro i g g1 hi h
    unfold hourglassLoop at h
    unfold Config.halfHourglassHeight at hi
    by_cases hc : cfg.upperCenterRow + 1 - i > cfg.startRow ∧
        cfg.lowerCenterRow + i < cfg.endRow
    · rw [if_pos hc] at h
      dsimp only at h
      have hik : i < cfg.rowPairs := by
        unfold Config.rowPairs Config.halfHourglassHeight
        omega
      have hup : u32sub (cfg.upperCenterRow + 1 - i) 1 = cfg.upperCenterRow - i := by
        rw [u32sub_eq (by omega) (by unfold U32; omega)]
        omega
      have hdn : u32add (cfg.lowerCenterRow + i) 1 = cfg.lowerCenterRow + (i + 1) := by
        rw [u32add_eq (by unfold U32; omega)]
        omega
      rw [hup, hdn] at h
      obtain ⟨gm, hm, h⟩ := bind_eq_some_iff.1 h
      obtain ⟨-, -, -, r4⟩ := Config.rightBorder_eq hs hn i
      have hyu : cfg.upperCenterRow - i < cfg.GRID_HEIGHT := by omega
      have hyd : cfg.lowerCenterRow + i < cfg.GRID_HEIGHT := by omega
      have bu := row_index_bound (w := cfg.GRID_WIDTH) hyu
      have bd := row_index_bound (w := cfg.GRID_WIDTH) hyd
      have iu : ∀ x, x ≤ cfg.rightBorderEnd (cfg.widthAt i) →
          u32add x (u32mul cfg.GRID_WIDTH (cfg.upperCenterRow - i)) =
            x + cfg.GRID_WIDTH * (cfg.upperCenterRow - i) := by
        intro x hx
        rw [u32mul_eq (by unfold U32; omega), u32add_eq (by unfold U32; omega)]
      have id : ∀ x, x ≤ cfg.rightBorderEnd (cfg.widthAt i) →
          u32add x (u32mul cfg.GRID_WIDTH (cfg.lowerCenterRow + i)) =
            x + cfg.GRID_WIDTH * (cfg.lowerCenterRow + i) := by
        intro x hx
        rw [u32mul_eq (by unfold U32; omega), u32add_eq (by unfold U32; omega)]
      have d1 := hourglassRow_drawn (V := V) (by unfold U32; omega) LOOP_FUEL
        (cfg.leftBorderBegin (cfg.widthAt i)) g gm
        (fun x h1 h2 => by rw [iu x h2, id x h2]; exact hV i x hik h1 h2) hm
      have hw : min (u32add (cfg.widthAt i) 1) cfg.HOURGLASS_WIDTH = cfg.widthAt (i + 1) := rfl
      rw [hw] at h
      have hup1 : cfg.upperCenterRow - i = cfg.upperCenterRow + 1 - (i + 1) := by omega
      rw [hup1] at h
      have d2 := ih (i + 1) gm g1 (by unfold Config.halfHourglassHeight; omega) h
      refine (d1.trans d2).congr fun j _ => ?_
      constructor
      · rintro (⟨x, h1, h2, hp⟩ | ⟨k, x, h0, h1, h2, h3, hp⟩)
        · rw [iu x h2, id x h2] at hp
          exact ⟨i, x, le_refl _, hik, h1, h2, hp⟩
        · exact ⟨k, x, by omega, h1, h2, h3, hp⟩
      · rintro ⟨k, x, h0, h1, h2, h3, hp⟩
        by_cases hk : k = i
        · subst hk
          refine Or.inl ⟨x, h2, h3, ?_⟩
          rw [iu x h3, id x h3]
          exact hp
        · exact Or.inr ⟨k, x, by omega, h1, h2, h3, hp⟩
    · rw [if_neg hc] at h
      cases h
      refine (Drawn.refl V g).congr fun j _ => ⟨fun h => h.elim, ?_⟩
      rintro ⟨k, x, h0, h1, -⟩
      apply hc
      unfold Config.rowPairs Config.halfHourglassHeight at h1
      omega


theorem hourglassPoint_isSome {cfg : Config} (cw : Nat) {yUp yDown x : Nat} {g : Grid}
    (hU : u32add x (u32mul cfg.GRID_WIDTH yUp) < g.length)
    (hD : u32add x (u32mul cfg.GRID_WIDTH yDown) < g.length) :
    ∃ g1, hourglassPoint cfg cw yUp yDown x g = some g1 ∧ g1.length = g.length := by
  unfold hourglassPoint
  dsimp only
  split
  · rw [writeCell_of_lt _ hD]
    simp only [Option.some_bind]
    rw [writeCell_of_lt _ (by rw [List.length_set]; exact hU)]
    exact ⟨_, rfl, by simp⟩
  · rw [writeCell_of_lt _ hU]
    simp only [Option.some_bind]
    rw [writeCell_of_lt _ (by rw [List.length_set]; exact hD)]
    exact ⟨_, rfl, by simp⟩

theorem hourglassRow_isSome (cfg : Config) (cw yUp yDown : Nat) (len : Nat)
    (hr : cfg.rightBorderEnd cw + 1 < U32) (fuel : Nat) :
    ∀ (x0 : Nat) (g : Grid),
      (∀ x, x0 ≤ x → x ≤ cfg.rightBorderEnd cw →
        u32add x (u32mul cfg.GRID_WIDTH yUp) < len ∧
        u32add x (u32mul cfg.GRID_WIDTH yDown) < len) →
      cfg.rightBorderEnd cw + 1 - x0 < fuel → g.length = len →
      ∃ g1, hourglassRow cfg cw yUp yDown fuel x0 g = some g1 ∧ g1.length = len := by
  induction fuel with
  | zero => intro x0 g _ h; exact absurd h (Nat.not_lt_zero _)
  | succ fuel ih =>
    intro x0 g hidx hfuel hg
    unfold hourglassRow
    by_cases hle : x0 ≤ cfg.rightBorderEnd cw
    · rw [if_pos hle]
      obtain ⟨hU, hD⟩ := hidx x0 (le_refl _) hle
      obtain ⟨gm, hm, hlm⟩ := hourglassPoint_isSome cw (g := g)
        (by rw [hg]; exact hU) (by rw [hg]; exact hD)
      rw [hm, u32add_eq (by omega)]
      simp only [Option.some_bind]
      exact ih (x0 + 1) gm (fun x h1 h2 => hidx x (by omega) h2) (by omega) (hlm.trans hg)
    · rw [if_neg hle]
      exact ⟨g, rfl, hg⟩

theorem hourglassLoop_isSome {cfg : Config} (hs : cfg.staticAsserts) (hn : cfg.NoWrap)
    (hf : cfg.HourglassFits) (fuel : Nat) :
    ∀ (i : Nat) (g : Grid), i ≤ cfg.halfHourglassHeight →
      cfg.halfHourglassHeight - i < fuel →
      g.length = cfg.GRID_WIDTH * cfg.GRID_HEIGHT →
      ∃ g1, hourglassLoop cfg fuel (cfg.upperCenterRow + 1 - i) (cfg.lowerCenterRow + i)
        (cfg.widthAt i) g = some g1 ∧ g1.length = cfg.GRID_WIDTH * cfg.GRID_HEIGHT := by
  obtain ⟨⟨a1, a2, a3⟩, ⟨b1, b2, b3, b4⟩, c1, c2, c3, c4⟩ := Config.sane hs hn
  obtain ⟨s1, s2⟩ := Config.sane_small hs hn
  obtain ⟨e1, e2, e3, e4, e5, e6⟩ := Config.hourglass_consts hs hn
  induction fuel with
  | zero => intro i g _ h; exact absurd h (Nat.not_lt_zero _)
  | succ fuel ih =>
    intro i g hi hfuel hg
    unfold hourglassLoop
    unfold Config.halfHourglassHeight at hi hfuel
    by_cases hc : cfg.upperCenterRow + 1 - i > cfg.startRow ∧
        cfg.lowerCenterRow + i < cfg.endRow
    · rw [if_pos hc]
      dsimp only
      have hup : u32sub (cfg.upperCenterRow + 1 - i) 1 = cfg.upperCenterRow - i := by
        rw [u32sub_eq (by omega) (by unfold U32; omega)]
        omega
      have hdn : u32add (cfg.lowerCenterRow + i) 1 = cfg.lowerCenterRow + (i + 1) := by
        rw [u32add_eq (by unfold U32; omega)]
        omega
      rw [hup, hdn]
      obtain ⟨-, r2, r3, r4⟩ := Config.rightBorder_eq hs hn i
      have hyu : cfg.upperCenterRow - i < cfg.GRID_HEIGHT := by omega
      have hyd : cfg.lowerCenterRow + i < cfg.GRID_HEIGHT := by omega
      have bu := row_index_bound (w := cfg.GRID_WIDTH) hyu
      have bd := row_index_bound (w := cfg.GRID_WIDTH) hyd
      have hw := cfg.widthAt_le i
      have hw2 : cfg.widthAt i / 2 ≤
          max cfg.HOURGLASS_CENTER_WIDTH cfg.HOURGLASS_WIDTH / 2 := Nat.div_le_div_right hw
      unfold Config.HourglassFits at hf
      have hrw : cfg.rightBorderEnd (cfg.widthAt i) < cfg.GRID_WIDTH := by omega
      obtain ⟨gm, hm, hlm⟩ := hourglassRow_isSome cfg (cfg.widthAt i)
        (cfg.upperCenterRow - i) (cfg.lowerCenterRow + i)
        (cfg.GRID_WIDTH * cfg.GRID_HEIGHT) (by unfold U32; omega) LOOP_FUEL
        (cfg.leftBorderBegin (cfg.widthAt i)) g
        (fun x h1 h2 => by
          rw [u32mul_eq (by unfold U32; omega), u32add_eq (by unfold U32; omega),
            u32mul_eq (by unfold U32; omega), u32add_eq (by unfold U32; omega)]
          omega)
        (by unfold LOOP_FUEL; omega) hg
      rw [hm]
      simp only [Option.some_bind]
      have hw1 : min (u32add (cfg.widthAt i) 1) cfg.HOURGLASS_WIDTH = cfg.widthAt (i + 1) := rfl
      have hup1 : cfg.upperCenterRow - i = cfg.upperCenterRow + 1 - (i + 1) := by omega
      rw [hw1, hup1]
      exact ih (i + 1) gm (by unfold Config.halfHourglassHeight; omega)
        (by unfold Config.halfHourglassHeight; omega) hlm
    · rw [if_neg hc]
      exact ⟨g, rfl, hg⟩

/-- With parameters that fit, every write of `generateHourglass` is inside the
grid and the function returns a grid. -/
theorem generateHourglass_some {cfg : Config} (hs : cfg.staticAsserts) (hn : cfg.NoWrap)
    (hf : cfg.HourglassFits) : ∃ g, generateHourglass cfg = some g := by
  obtain ⟨⟨a1, a2, a3⟩, ⟨b1, b2, b3, b4⟩, c1, c2, c3, c4⟩ := Config.sane hs hn
  obtain ⟨s1, s2⟩ := Config.sane_small hs hn
  obtain ⟨e1, e2, e3, e4, e5, e6⟩ := Config.hourglass_consts hs hn
  have hc := Config.sane_gridFits hs hn
  unfold generateHourglass
  dsimp only
  have h0 : u32add cfg.upperCenterRow 1 = cfg.upperCenterRow + 1 - 0 := by
    rw [u32add_eq (by unfold U32; omega)]
    rfl
  have h1 : cfg.lowerCenterRow = cfg.lowerCenterRow + 0 := rfl
  have h2 : cfg.HOURGLASS_CENTER_WIDTH = cfg.widthAt 0 := rfl
  rw [h0]
  nth_rewrite 1 [h1]
  rw [h2]
  obtain ⟨g1, hg1, hl1⟩ := hourglassLoop_isSome hs hn hf LOOP_FUEL 0
    (List.replicate cfg.GRID_SIZE AIR_VALUE) (Nat.zero_le _)
    (by unfold LOOP_FUEL Config.halfHourglassHeight; omega)
    (by rw [List.length_replicate, hc.gridSize])
  rw [hg1]
  simp only [Option.some_bind]
  split
  · exact fixGridEdgeCases_total hc hl1
  · exact ⟨g1, rfl⟩


/-- The grid returned by `generateHourglass` is the grid left by the outer
loop, passed through `fixGridEdgeCases` when the border width is zero. -/
theorem generateHourglass_loop {cfg : Config} (hs : cfg.staticAsserts) (hn : cfg.NoWrap)
    {g : Grid} (h : generateHourglass cfg = some g) :
    ∃ g1, hourglassLoop cfg LOOP_FUEL (cfg.upperCenterRow + 1 - 0) (cfg.lowerCenterRow + 0)
        (cfg.widthAt 0) (List.replicate cfg.GRID_SIZE AIR_VALUE) = some g1 ∧
      (cfg.HOURGLASS_BORDER_WIDTH = 0 → fixGridEdgeCases cfg g1 = some g) ∧
      (cfg.HOURGLASS_BORDER_WIDTH ≠ 0 → g = g1) := by
  obtain ⟨⟨a1, a2, a3⟩, ⟨b1, b2, b3, b4⟩, c1, c2, c3, c4⟩ := Config.sane hs hn
  obtain ⟨s1, s2⟩ := Config.sane_small hs hn
  obtain ⟨e1, e2, e3, e4, e5, e6⟩ := Config.hourglass_consts hs hn
  unfold generateHourglass at h
  dsimp only at h
  have h0 : u32add cfg.upperCenterRow 1 = cfg.upperCenterRow + 1 - 0 := by
    rw [u32add_eq (by unfold U32; omega)]
    rfl
  rw [h0] at h
  obtain ⟨g1, hg1, h2⟩ := bind_eq_some_iff.1 h
  refine ⟨g1, hg1, fun hb => ?_, fun hb => ?_⟩
  · rw [if_pos hb] at h2
    exact h2
  · rw [if_neg hb] at h2
    exact (Option.some.inj h2).symm

/-- A grid whose edge cells are Air is left unchanged by `fixGridEdgeCases`. -/
theorem fixGridEdgeCases_of_edgeFixed {cfg : Config} (hc : cfg.GridFits) {g : Grid}
    (hg : g.length = cfg.GRID_WIDTH * cfg.GRID_HEIGHT) (he : EdgeFixed cfg g) :
    fixGridEdgeCases cfg g = some g := by
  obtain ⟨g2, h2⟩ := fixGridEdgeCases_total hc hg
  obtain ⟨hl, c⟩ := fixGridEdgeCases_cells hc h2
  rw [h2]
  congr 1
  refine grid_ext (hl.trans hg) hg fun j hj => ?_
  have cj := c j (hg ▸ hj)
  by_cases hej : EdgeCell cfg j
  · rw [cj.1 hej]
    rcases hej with h | h | h
    · exact (he.1 j h).symm
    · rw [h]; exact he.2.1.symm
    · rw [h.2]; exact (he.2.2 h.1).symm
  · exact cj.2 hej

/-- With a border, the outer loop of `generateHourglass` writes from the fourth
row of the grid on only. -/
theorem hourglass_writes_low {cfg : Config} (hs : cfg.staticAsserts) (hn : cfg.NoWrap)
    (hb : cfg.HOURGLASS_BORDER_WIDTH ≠ 0) {k x : Nat} (hk : k < cfg.rowPairs) {j : Nat}
    (hj : j = x + cfg.GRID_WIDTH * (cfg.upperCenterRow - k) ∨
      j = x + cfg.GRID_WIDTH * (cfg.lowerCenterRow + k)) : 3 * cfg.GRID_WIDTH ≤ j := by
  obtain ⟨⟨a1, a2, a3⟩, ⟨b1, b2, b3, b4⟩, c1, c2, c3, c4⟩ := Config.sane hs hn
  obtain ⟨e1, e2, e3, e4, e5, e6⟩ := Config.hourglass_consts hs hn
  unfold Config.rowPairs Config.halfHourglassHeight at hk
  have hu : 3 ≤ cfg.upperCenterRow - k := by omega
  have hd : 3 ≤ cfg.lowerCenterRow + k := by omega
  have mu : cfg.GRID_WIDTH * 3 ≤ cfg.GRID_WIDTH * (cfg.upperCenterRow - k) :=
    Nat.mul_le_mul_left _ hu
  have md : cfg.GRID_WIDTH * 3 ≤ cfg.GRID_WIDTH * (cfg.lowerCenterRow + k) :=
    Nat.mul_le_mul_left _ hd
  rcases hj with h | h <;> omega

/-- The grid returned by `generateHourglass` has the size of the grid and Air
on the cells that `fixGridEdgeCases` clears. -/
theorem generateHourglass_edgeFixed {cfg : Config} (hs : cfg.staticAsserts) (hn : cfg.NoWrap)
    {g : Grid} (h : generateHourglass cfg = some g) :
    g.length = cfg.GRID_WIDTH * cfg.GRID_HEIGHT ∧ EdgeFixed cfg g := by
  have hc := Config.sane_gridFits hs hn
  obtain ⟨g1, hg1, hz, hnz⟩ := generateHourglass_loop hs hn h
  have d := hourglassLoop_drawn hs hn (V := fun _ _ => True) (fun _ _ _ _ _ => ⟨trivial, trivial⟩)
    LOOP_FUEL 0 _ g1 (Nat.zero_le _) hg1
  have hl0 : (List.replicate cfg.GRID_SIZE AIR_VALUE).length =
      cfg.GRID_WIDTH * cfg.GRID_HEIGHT := by rw [List.length_replicate, hc.gridSize]
  have hl1 : g1.length = cfg.GRID_WIDTH * cfg.GRID_HEIGHT := d.1.trans hl0
  by_cases hb : cfg.HOURGLASS_BORDER_WIDTH = 0
  · have hfix := hz hb
    exact ⟨(fixGridEdgeCases_cells hc hfix).1.trans hl1, fixGridEdgeCases_edgeFixed hc hl1 hfix⟩
  · have hgg := hnz hb
    subst hgg
    refine ⟨hl1, ?_⟩
    have air : ∀ j, j < 3 * cfg.GRID_WIDTH → j < cfg.GRID_WIDTH * cfg.GRID_HEIGHT →
        g[j]? = some AIR_VALUE := by
      intro j hj3 hj
      rw [(d.2 j (hl0 ▸ hj)).2 ?_]
      · exact List.getElem?_replicate_of_lt (by rw [hc.gridSize]; exact hj)
      · rintro ⟨k, x, -, hk, -, -, hp⟩
        have := hourglass_writes_low hs hn hb hk hp
        omega
    have hw := hc.width_lt_size
    have hW2 := hc.1
    refine ⟨fun j hj => air j (by omega) (by omega), air _ (by omega) hw, fun hh => ?_⟩
    exact air _ (by omega) (hc.twice_width_lt hh)


/-- Row and column of the index `x + w * y`. -/
theorem index_col_row {w x y : Nat} (hx : x < w) :
    (x + w * y) % w = x ∧ (x + w * y) / w = y := by
  have e : x + w * y = y * w + x := by rw [Nat.mul_comm, Nat.add_comm]
  rw [e]
  exact index_row_col hx

theorem Config.rightBorder_lt {cfg : Config} (hs : cfg.staticAsserts) (hn : cfg.NoWrap)
    (hf : cfg.HourglassFits) (i : Nat) :
    cfg.rightBorderEnd (cfg.widthAt i) < cfg.GRID_WIDTH := by
  obtain ⟨-, r2, -, -⟩ := Config.rightBorder_eq hs hn i
  have hw2 : cfg.widthAt i / 2 ≤ max cfg.HOURGLASS_CENTER_WIDTH cfg.HOURGLASS_WIDTH / 2 :=
    Nat.div_le_div_right (cfg.widthAt_le i)
  unfold Config.HourglassFits at hf
  omega

/-- The value written to the upper row of iteration `i` is the value of
`hourglassCell`. -/
theorem hourglassCell_up {cfg : Config} (hs : cfg.staticAsserts) (hn : cfg.NoWrap)
    {i x : Nat} (hi : i < cfg.rowPairs)
    (h1 : cfg.leftBorderBegin (cfg.widthAt i) ≤ x) (h2 : x ≤ cfg.rightBorderEnd (cfg.widthAt i)) :
    hourglassCell cfg x (cfg.upperCenterRow - i) =
      cfg.upValue (cfg.widthAt i) (cfg.upperCenterRow - i) (cfg.lowerCenterRow + i) x := by
  obtain ⟨e1, e2, e3, e4, e5, e6⟩ := Config.hourglass_consts hs hn
  have hi1 := hi
  unfold Config.rowPairs Config.halfHourglassHeight at hi1
  have hk : cfg.upperCenterRow - (cfg.upperCenterRow - i) = i := by omega
  unfold hourglassCell Config.upValue
  rw [if_pos ⟨by omega, by omega⟩, hk, if_pos ⟨h1, h2⟩]

/-- The value written to the lower row of iteration `i` is the value of
`hourglassCell`. -/
theorem hourglassCell_down {cfg : Config} (hs : cfg.staticAsserts) (hn : cfg.NoWrap)
    {i x : Nat} (hi : i < cfg.rowPairs)
    (h1 : cfg.leftBorderBegin (cfg.widthAt i) ≤ x) (h2 : x ≤ cfg.rightBorderEnd (cfg.widthAt i)) :
    hourglassCell cfg x (cfg.lowerCenterRow + i) =
      cfg.downValue (cfg.widthAt i) (cfg.upperCenterRow - i) (cfg.lowerCenterRow + i) x := by
  obtain ⟨e1, e2, e3, e4, e5, e6⟩ := Config.hourglass_consts hs hn
  have hk : cfg.lowerCenterRow + i - cfg.lowerCenterRow = i := by omega
  unfold hourglassCell Config.downValue
  rw [if_neg (by omega), if_pos ⟨by omega, by omega⟩, hk, if_pos ⟨h1, h2⟩]

/-- A cell that `hourglassCell` does not leave Air is written by the loops. -/
theorem hourglassCell_written {cfg : Config} (hs : cfg.staticAsserts) (hn : cfg.NoWrap)
    {x y : Nat} (h : hourglassCell cfg x y ≠ AIR_VALUE) :
    ∃ k x1, 0 ≤ k ∧ k < cfg.rowPairs ∧
      cfg.leftBorderBegin (cfg.widthAt k) ≤ x1 ∧ x1 ≤ cfg.rightBorderEnd (cfg.widthAt k) ∧
      (x + cfg.GRID_WIDTH * y = x1 + cfg.GRID_WIDTH * (cfg.upperCenterRow - k) ∨
        x + cfg.GRID_WIDTH * y = x1 + cfg.GRID_WIDTH * (cfg.lowerCenterRow + k)) := by
  obtain ⟨e1, e2, e3, e4, e5, e6⟩ := Config.hourglass_consts hs hn
  unfold hourglassCell at h
  split at h
  · rename_i hr
    split at h
    · rename_i hx
      refine ⟨cfg.upperCenterRow - y, x, Nat.zero_le _, by omega, hx.1, hx.2, Or.inl ?_⟩
      have : cfg.upperCenterRow - (cfg.upperCenterRow - y) = y := by omega
      rw [this]
    · exact absurd rfl h
  · split at h
    · rename_i hr
      split at h
      · rename_i hx
        refine ⟨y - cfg.lowerCenterRow, x, Nat.zero_le _, by omega, hx.1, hx.2, Or.inr ?_⟩
        have : cfg.lowerCenterRow + (y - cfg.lowerCenterRow) = y := by omega
        rw [this]
      · exact absurd rfl h
    · exact absurd rfl h

/-- Cells of the grid returned by `generateHourglass`, for parameters with a
border whose widest row fits into the grid. -/
theorem generateHourglass_cells {cfg : Config} (hs : cfg.staticAsserts) (hn : cfg.NoWrap)
    (hf : cfg.HourglassFits) (hb : cfg.HOURGLASS_BORDER_WIDTH ≠ 0) {g : Grid}
    (h : generateHourglass cfg = some g) :
    g.length = cfg.GRID_WIDTH * cfg.GRID_HEIGHT ∧
    ∀ x y, x < cfg.GRID_WIDTH → y < cfg.GRID_HEIGHT →
      g[x + cfg.GRID_WIDTH * y]? = some (hourglassCell cfg x y) := by
  have hc := Config.sane_gridFits hs hn
  obtain ⟨g1, hg1, -, hnz⟩ := generateHourglass_loop hs hn h
  have hgg := hnz hb
  subst hgg
  have d := hourglassLoop_drawn hs hn
    (V := fun j v => v = hourglassCell cfg (j % cfg.GRID_WIDTH) (j / cfg.GRID_WIDTH))
    (fun i x hi h1 h2 => by
      have hx := lt_of_le_of_lt h2 (Config.rightBorder_lt hs hn hf i)
      obtain ⟨m1, d1⟩ := index_col_row (y := cfg.upperCenterRow - i) hx
      obtain ⟨m2, d2⟩ := index_col_row (y := cfg.lowerCenterRow + i) hx
      constructor
      · show _ = hourglassCell cfg _ _
        rw [m1, d1]
        exact (hourglassCell_up hs hn hi h1 h2).symm
      · show _ = hourglassCell cfg _ _
        rw [m2, d2]
        exact (hourglassCell_down hs hn hi h1 h2).symm)
    LOOP_FUEL 0 _ g (Nat.zero_le _) hg1
  have hl0 : (List.replicate cfg.GRID_SIZE AIR_VALUE).length =
      cfg.GRID_WIDTH * cfg.GRID_HEIGHT := by rw [List.length_replicate, hc.gridSize]
  refine ⟨d.1.trans hl0, fun x y hx hy => ?_⟩
  have hlt : x + cfg.GRID_WIDTH * y < cfg.GRID_WIDTH * cfg.GRID_HEIGHT := by
    have := cell_index_lt hx hy
    rw [Nat.mul_comm y, Nat.add_comm] at this
    exact this
  obtain ⟨m, dv⟩ := index_col_row (y := y) hx
  by_cases hp : ∃ k x1, 0 ≤ k ∧ k < cfg.rowPairs ∧
      cfg.leftBorderBegin (cfg.widthAt k) ≤ x1 ∧ x1 ≤ cfg.rightBorderEnd (cfg.widthAt k) ∧
      (x + cfg.GRID_WIDTH * y = x1 + cfg.GRID_WIDTH * (cfg.upperCenterRow - k) ∨
        x + cfg.GRID_WIDTH * y = x1 + cfg.GRID_WIDTH * (cfg.lowerCenterRow + k))
  · obtain ⟨v, hv, hV⟩ := (d.2 _ (hl0 ▸ hlt)).1 hp
    have hV1 : v = hourglassCell cfg ((x + cfg.GRID_WIDTH * y) % cfg.GRID_WIDTH)
        ((x + cfg.GRID_WIDTH * y) / cfg.GRID_WIDTH) := hV
    rw [m, dv] at hV1
    rw [hv, hV1]
  · rw [(d.2 _ (hl0 ▸ hlt)).2 hp]
    have hair : hourglassCell cfg x y = AIR_VALUE := by
      by_contra hne
      exact hp (hourglassCell_written hs hn hne)
    rw [hair]
    exact List.getElem?_replicate_of_lt (by rw [hc.gridSize]; exact hlt)


/-! ### The configured hourglass -/

theorem default_fits : defaultConfig.staticAsserts ∧ defaultConfig.NoWrap ∧
    defaultConfig.HourglassFits ∧ defaultConfig.HOURGLASS_BORDER_WIDTH ≠ 0 := by
  decide

theorem default_rows : defaultConfig.startRow = 12 ∧ defaultConfig.endRow = 1012 ∧
    defaultConfig.upperCenterRow = 512 ∧ defaultConfig.lowerCenterRow = 513 ∧
    defaultConfig.rowPairs = 499 ∧ defaultConfig.fillRow = 412 ∧
    defaultConfig.leftCenterColumn = 512 ∧ defaultConfig.rightCenterColumn = 513 := by
  decide

theorem widthAt_default (k : Nat) : defaultConfig.widthAt k = min (4 + k) 300 := by
  induction k with
  | zero => rfl
  | succ k ih =>
    show min (u32add (defaultConfig.widthAt k) 1) 300 = _
    rw [ih]
    unfold u32add U32
    omega

theorem leftBorderBegin_default (a : Nat) :
    defaultConfig.leftBorderBegin (min a 300) = 508 - min a 300 / 2 := by
  unfold Config.leftBorderBegin Config.leftBorderEnd
  rw [default_rows.2.2.2.2.2.2.1]
  show u32sub (u32sub 512 (min a 300 / 2)) 4 = _
  unfold u32sub U32
  omega

theorem rightBorderEnd_default (a : Nat) :
    defaultConfig.rightBorderEnd (min a 300) = 517 + min a 300 / 2 := by
  unfold Config.rightBorderEnd Config.rightBorderBegin
  rw [default_rows.2.2.2.2.2.2.2]
  show u32add (u32add 513 (min a 300 / 2)) 4 = _
  unfold u32add U32
  omega

theorem isBorder_default (a yU yD x : Nat) :
    defaultConfig.isBorder (min a 300) yU yD x = true ↔
      (yU ≤ 16 ∨ 1008 ≤ yD ∨ x < 512 - min a 300 / 2 ∨ 513 + min a 300 / 2 < x) := by
  unfold Config.isBorder Config.isTop Config.isBottom Config.leftBorderEnd
    Config.rightBorderBegin
  rw [default_rows.1, default_rows.2.1, default_rows.2.2.2.2.2.2.1, default_rows.2.2.2.2.2.2.2]
  simp only [Bool.or_eq_true, decide_eq_true_eq]
  show ((yU ≤ u32add 12 4 ∨ yD ≥ u32sub 1012 4) ∨ x < u32sub 512 (min a 300 / 2)) ∨
    x > u32add 513 (min a 300 / 2) ↔ _
  unfold u32add u32sub U32
  omega

theorem isFilled_default (y : Nat) : defaultConfig.isFilled y = true ↔ y ≤ 412 := by
  unfold Config.isFilled
  rw [default_rows.2.2.2.2.2.1]
  simp only [decide_eq_true_eq]

/-- Closed form of `hourglassCell` for the configured parameters. -/
theorem hourglassCell_default (x y : Nat) :
    hourglassCell defaultConfig x y =
      if 14 ≤ y ∧ y ≤ 512 then
        if 508 - min (516 - y) 300 / 2 ≤ x ∧ x ≤ 517 + min (516 - y) 300 / 2 then
          if y ≤ 17 ∨ x < 512 - min (516 - y) 300 / 2 ∨ 513 + min (516 - y) 300 / 2 < x then 2
          else if y ≤ 412 then 1 else 0
        else 0
      else if 513 ≤ y ∧ y ≤ 1011 then
        if 508 - min (y - 509) 300 / 2 ≤ x ∧ x ≤ 517 + min (y - 509) 300 / 2 then
          if 1008 ≤ y ∨ x < 512 - min (y - 509) 300 / 2 ∨ 513 + min (y - 509) 300 / 2 < x then 2
          else 0
        else 0
      else 0 := by
  unfold hourglassCell
  rw [default_rows.2.2.1, default_rows.2.2.2.1, default_rows.2.2.2.2.1]
  simp only [widthAt_default, leftBorderBegin_default, rightBorderEnd_default,
    isBorder_default, isFilled_default]
  unfold WALL_VALUE SAND_VALUE AIR_VALUE
  by_cases hu : 14 ≤ y ∧ y ≤ 512
  · have e : 4 + (512 - y) = 516 - y := by omega
    rw [if_pos hu, if_pos (by omega), e]
    split_ifs <;> omega
  · rw [if_neg hu, if_neg (by omega)]
    by_cases hd : 513 ≤ y ∧ y ≤ 1011
    · have e : 4 + (y - 513) = y - 509 := by omega
      rw [if_pos hd, if_pos (by omega), e]
      split_ifs <;> omega
    · rw [if_neg hd, if_neg (by omega)]

/-- The configured hourglass: the function returns a grid of `1024 * 1024`
cells whose cell `(x, y)` is `hourglassCell defaultConfig x y`. -/
theorem generateHourglass_default :
    ∃ g, generateHourglass defaultConfig = some g ∧ g.length = 1024 * 1024 ∧
      ∀ x y, x < 1024 → y < 1024 → g[x + 1024 * y]? = some (hourglassCell defaultConfig x y) := by
  obtain ⟨hs, hn, hf, hb⟩ := default_fits
  obtain ⟨g, hg⟩ := generateHourglass_some hs hn hf
  exact ⟨g, hg, generateHourglass_cells hs hn hf hb hg⟩


/-! ## Shape of the generated grids -/

theorem cellsValid_replicate (n : Nat) : CellsValid (List.replicate n AIR_VALUE) := by
  intro v hv
  exact Or.inl (List.eq_of_mem_replicate hv)

theorem fixGridEdgeCases_valid {cfg : Config} {g g1 : Grid}
    (h : fixGridEdgeCases cfg g = some g1) (hg : CellsValid g) : CellsValid g1 :=
  ((fixGridEdgeCases_drawn h).weaken fun _ _ _ hv => Or.inl hv).cellsValid hg

/-- Every cell of the grid returned by `generateHourglass` is Air, Sand or Wall. -/
theorem generateHourglass_valid {cfg : Config} (hs : cfg.staticAsserts) (hn : cfg.NoWrap)
    {g : Grid} (h : generateHourglass cfg = some g) : CellsValid g := by
  obtain ⟨g1, hg1, hz, hnz⟩ := generateHourglass_loop hs hn h
  have d := hourglassLoop_drawn hs hn
    (V := fun _ v => v = AIR_VALUE ∨ v = SAND_VALUE ∨ v = WALL_VALUE)
    (fun i x _ _ _ => by
      unfold Config.upValue Config.downValue
      constructor
      · split
        · exact Or.inr (Or.inr rfl)
        · split
          · exact Or.inr (Or.inl rfl)
          · exact Or.inl rfl
      · split
        · exact Or.inr (Or.inr rfl)
        · exact Or.inl rfl)
    LOOP_FUEL 0 _ g1 (Nat.zero_le _) hg1
  have v1 : CellsValid g1 := d.cellsValid (cellsValid_replicate _)
  by_cases hb : cfg.HOURGLASS_BORDER_WIDTH = 0
  · exact fixGridEdgeCases_valid (hz hb) v1
  · rw [hnz hb]
    exact v1

/-- A grid whose cells are all Sand or Air has valid cells and no Wall. -/
theorem cellsValid_of_sand_or_air {n : Nat} {g : Grid} (hl : g.length = n)
    (hc : ∀ j, j < n → g[j]? = some SAND_VALUE ∨ g[j]? = some AIR_VALUE) :
    CellsValid g ∧ WALL_VALUE ∉ g := by
  have key : ∀ v, v ∈ g → v = SAND_VALUE ∨ v = AIR_VALUE := by
    intro v hv
    obtain ⟨j, hj, rfl⟩ := List.getElem_of_mem hv
    rcases hc j (hl ▸ hj) with h | h
    · rw [List.getElem?_eq_getElem hj] at h
      exact Or.inl (Option.some.inj h)
    · rw [List.getElem?_eq_getElem hj] at h
      exact Or.inr (Option.some.inj h)
  constructor
  · intro v hv
    rcases key v hv with h | h
    · exact Or.inr (Or.inl h)
    · exact Or.inl h
  · intro hw
    rcases key _ hw with h | h
    · exact absurd h (by decide)
    · exact absurd h (by decide)

/-- The same, for cells addressed by column and row. -/
theorem cellsValid_of_sand_or_air_xy {w h : Nat} {g : Grid} (hl : g.length = w * h)
    (hc : ∀ x y, x < w → y < h →
      g[y * w + x]? = some SAND_VALUE ∨ g[y * w + x]? = some AIR_VALUE) :
    CellsValid g ∧ WALL_VALUE ∉ g := by
  refine cellsValid_of_sand_or_air hl fun j hj => ?_
  obtain ⟨hx, hy, e⟩ := index_decomp hj
  have := hc _ _ hx hy
  rw [e] at this
  exact this

/-- Two cases of a cell description give one of two values. -/
theorem sand_or_air_of_cases {A : Prop} {o : Option Nat}
    (h : (A → o = some SAND_VALUE) ∧ (¬ A → o = some AIR_VALUE)) :
    o = some SAND_VALUE ∨ o = some AIR_VALUE := by
  by_cases ha : A
  · exact Or.inl (h.1 ha)
  · exact Or.inr (h.2 ha)

/-- Two descriptions by cases with equivalent conditions give the same cell. -/
theorem cell_eq_of_cases {A B : Prop} {o1 o2 : Option Nat} (hab : A ↔ B)
    (h1 : (A → o1 = some SAND_VALUE) ∧ (¬ A → o1 = some AIR_VALUE))
    (h2 : (B → o2 = some SAND_VALUE) ∧ (¬ B → o2 = some AIR_VALUE)) : o1 = o2 := by
  by_cases ha : A
  · rw [h1.1 ha, h2.1 (hab.1 ha)]
  · rw [h1.2 ha, h2.2 fun hb => ha (hab.2 hb)]


/-- Two grids of `w * h` cells with the same cell in every column and row are
equal. -/
theorem grid_ext_xy {w h : Nat} {g1 g2 : Grid} (h1 : g1.length = w * h)
    (h2 : g2.length = w * h)
    (hc : ∀ x y, x < w → y < h → g1[y * w + x]? = g2[y * w + x]?) : g1 = g2 := by
  refine grid_ext h1 h2 fun j hj => ?_
  obtain ⟨hx, hy, e⟩ := index_decomp hj
  have := hc _ _ hx hy
  rw [e] at this
  exact this

/-- Draws that are the same in every iteration lie in the ranges of the
distributions when the one draw does. -/
theorem circleDrawsInRange_const (cfg : Config) (d : CircleDraw)
    (h : (0 ≤ d.centerX ∧ d.centerX ≤ toI32 cfg.GRID_WIDTH) ∧
      (0 ≤ d.centerY ∧ d.centerY ≤ toI32 cfg.GRID_HEIGHT) ∧
      (toI32 cfg.MIN_RADIUS ≤ d.radius ∧ d.radius ≤ toI32 cfg.MAX_RADIUS)) :
    CircleDrawsInRange cfg (fun _ => d) :=
  fun _ _ => h

/-! ## The claims on the generators -/

/-- Claim C1. Each of the four generators returns a grid, whatever is drawn,
and the grid has exactly `GRID_WIDTH * GRID_HEIGHT` cells, each of them 0 (Air),
1 (Sand) or 2 (Wall). The hypotheses hold for the configured constants. -/
theorem generators_return_valid_grid (cfg : Config) (hs : cfg.staticAsserts)
    (hn : cfg.NoWrap) (hf : cfg.HourglassFits) (hcc : cfg.CenterCircleFits)
    (hrc : cfg.RandomCirclesFit) (draws : Nat → CircleDraw)
    (hd : CircleDrawsInRange cfg draws) (rnd : Nat → F32) :
    (∃ g, generateHourglass cfg = some g ∧
      g.length = cfg.GRID_WIDTH * cfg.GRID_HEIGHT ∧ CellsValid g) ∧
    (∃ g, generateCenterCircle cfg = some g ∧
      g.length = cfg.GRID_WIDTH * cfg.GRID_HEIGHT ∧ CellsValid g) ∧
    (∃ g, generateRandomCircles cfg draws = some g ∧
      g.length = cfg.GRID_WIDTH * cfg.GRID_HEIGHT ∧ CellsValid g) ∧
    (∃ g, generateRandomNoise cfg rnd = some g ∧
      g.length = cfg.GRID_WIDTH * cfg.GRID_HEIGHT ∧ CellsValid g) := by
  have hc := Config.sane_gridFits hs hn
  refine ⟨?_, ?_, ?_, ?_⟩
  · obtain ⟨g, hg⟩ := generateHourglass_some hs hn hf
    exact ⟨g, hg, (generateHourglass_edgeFixed hs hn hg).1, generateHourglass_valid hs hn hg⟩
  · obtain ⟨g, hg⟩ := generateCenterCircle_some hc hcc
    obtain ⟨hl, -, c⟩ := generateCenterCircle_cells hc hcc.1 hg
    exact ⟨g, hg, hl, (cellsValid_of_sand_or_air_xy hl fun x y hx hy =>
      sand_or_air_of_cases (c x y hx hy)).1⟩
  · obtain ⟨g, hg⟩ := generateRandomCircles_some hc hrc hd
    obtain ⟨hl, -, c⟩ := generateRandomCircles_cells hc hrc.1 hd hg
    exact ⟨g, hg, hl, (cellsValid_of_sand_or_air_xy hl fun x y hx hy =>
      sand_or_air_of_cases (c x y hx hy)).1⟩
  · obtain ⟨g, hg⟩ := generateRandomNoise_some hc rnd
    obtain ⟨hl, -, -, c⟩ := generateRandomNoise_cells hc hg
    exact ⟨g, hg, hl, (cellsValid_of_sand_or_air hl fun j hj =>
      sand_or_air_of_cases (c j hj)).1⟩

/-- Claim C1 at the configured constants, with every circle drawn at the
centre of the grid with radius 50 and every noise draw equal to `0.5`. -/
theorem generators_return_valid_grid_witness :
    (defaultConfig.staticAsserts ∧ defaultConfig.NoWrap ∧ defaultConfig.HourglassFits ∧
      defaultConfig.CenterCircleFits ∧ defaultConfig.RandomCirclesFit ∧
      CircleDrawsInRange defaultConfig (fun _ => ⟨512, 512, 50⟩)) ∧
    ((∃ g, generateHourglass defaultConfig = some g ∧
      g.length = defaultConfig.GRID_WIDTH * defaultConfig.GRID_HEIGHT ∧ CellsValid g) ∧
    (∃ g, generateCenterCircle defaultConfig = some g ∧
      g.length = defaultConfig.GRID_WIDTH * defaultConfig.GRID_HEIGHT ∧ CellsValid g) ∧
    (∃ g, generateRandomCircles defaultConfig (fun _ => ⟨512, 512, 50⟩) = some g ∧
      g.length = defaultConfig.GRID_WIDTH * defaultConfig.GRID_HEIGHT ∧ CellsValid g) ∧
    (∃ g, generateRandomNoise defaultConfig (fun _ => ⟨1, -1⟩) = some g ∧
      g.length = defaultConfig.GRID_WIDTH * defaultConfig.GRID_HEIGHT ∧ CellsValid g)) :=
  ⟨⟨by decide, by decide, by decide, by decide, by decide, circleDrawsInRange_const _ _ (by decide)⟩,
    generators_return_valid_grid defaultConfig (by decide) (by decide) (by decide) (by decide)
      (by decide) (fun _ => ⟨512, 512, 50⟩) (circleDrawsInRange_const _ _ (by decide)) (fun _ => ⟨1, -1⟩)⟩

/-- Claim C2. `generateCenterCircle`, `generateRandomCircles` and
`generateRandomNoise` return, whatever is drawn, a grid with Air on the whole
first row (indices `0 .. GRID_WIDTH - 1`), at index `GRID_WIDTH` and, when
`GRID_HEIGHT > 2`, at index `2 * GRID_WIDTH`. -/
theorem circle_and_noise_generators_edge_fixed (cfg : Config) (hc : cfg.GridFits)
    (hcc : cfg.CenterCircleFits) (hrc : cfg.RandomCirclesFit) (draws : Nat → CircleDraw)
    (hd : CircleDrawsInRange cfg draws) (rnd : Nat → F32) :
    (∃ g, generateCenterCircle cfg = some g ∧
      (∀ j, j < cfg.GRID_WIDTH → g[j]? = some AIR_VALUE) ∧
      g[cfg.GRID_WIDTH]? = some AIR_VALUE ∧
      (cfg.GRID_HEIGHT > 2 → g[2 * cfg.GRID_WIDTH]? = some AIR_VALUE)) ∧
    (∃ g, generateRandomCircles cfg draws = some g ∧
      (∀ j, j < cfg.GRID_WIDTH → g[j]? = some AIR_VALUE) ∧
      g[cfg.GRID_WIDTH]? = some AIR_VALUE ∧
      (cfg.GRID_HEIGHT > 2 → g[2 * cfg.GRID_WIDTH]? = some AIR_VALUE)) ∧
    (∃ g, generateRandomNoise cfg rnd = some g ∧
      (∀ j, j < cfg.GRID_WIDTH → g[j]? = some AIR_VALUE) ∧
      g[cfg.GRID_WIDTH]? = some AIR_VALUE ∧
      (cfg.GRID_HEIGHT > 2 → g[2 * cfg.GRID_WIDTH]? = some AIR_VALUE)) := by
  refine ⟨?_, ?_, ?_⟩
  · obtain ⟨g, hg⟩ := generateCenterCircle_some hc hcc
    exact ⟨g, hg, (generateCenterCircle_cells hc hcc.1 hg).2.1⟩
  · obtain ⟨g, hg⟩ := generateRandomCircles_some hc hrc hd
    exact ⟨g, hg, (generateRandomCircles_cells hc hrc.1 hd hg).2.1⟩
  · obtain ⟨g, hg⟩ := generateRandomNoise_some hc rnd
    exact ⟨g, hg, (generateRandomNoise_cells hc hg).2.1⟩

/-- Claim C2 at the configured constants, with every circle drawn at the
top-left corner `(0, 0)` with the largest radius, so that the circles cover
the corner, and every noise draw equal to `0`. -/
theorem circle_and_noise_generators_edge_fixed_witness :
    (defaultConfig.GridFits ∧ defaultConfig.CenterCircleFits ∧ defaultConfig.RandomCirclesFit ∧
      CircleDrawsInRange defaultConfig (fun _ => ⟨0, 0, 100⟩)) ∧
    ((∃ g, generateCenterCircle defaultConfig = some g ∧
      (∀ j, j < defaultConfig.GRID_WIDTH → g[j]? = some AIR_VALUE) ∧
      g[defaultConfig.GRID_WIDTH]? = some AIR_VALUE ∧
      (defaultConfig.GRID_HEIGHT > 2 → g[2 * defaultConfig.GRID_WIDTH]? = some AIR_VALUE)) ∧
    (∃ g, generateRandomCircles defaultConfig (fun _ => ⟨0, 0, 100⟩) = some g ∧
      (∀ j, j < defaultConfig.GRID_WIDTH → g[j]? = some AIR_VALUE) ∧
      g[defaultConfig.GRID_WIDTH]? = some AIR_VALUE ∧
      (defaultConfig.GRID_HEIGHT > 2 → g[2 * defaultConfig.GRID_WIDTH]? = some AIR_VALUE)) ∧
    (∃ g, generateRandomNoise defaultConfig (fun _ => ⟨0, 0⟩) = some g ∧
      (∀ j, j < defaultConfig.GRID_WIDTH → g[j]? = some AIR_VALUE) ∧
      g[defaultConfig.GRID_WIDTH]? = some AIR_VALUE ∧
      (defaultConfig.GRID_HEIGHT > 2 → g[2 * defaultConfig.GRID_WIDTH]? = some AIR_VALUE))) :=
  ⟨⟨by decide, by decide, by decide, circleDrawsInRange_const _ _ (by decide)⟩,
    circle_and_noise_generators_edge_fixed defaultConfig (by decide) (by decide) (by decide)
      (fun _ => ⟨0, 0, 100⟩) (circleDrawsInRange_const _ _ (by decide)) (fun _ => ⟨0, 0⟩)⟩


/-- Under the static assertions without wrap-around `generateHourglass` and
the generator that always ends with the edge-fix pass are the same function. -/
theorem generateHourglass_eq_fixAlways {cfg : Config} (hs : cfg.staticAsserts)
    (hn : cfg.NoWrap) : generateHourglass cfg = generateHourglassFixAlways cfg := by
  have hc := Config.sane_gridFits hs hn
  by_cases hb : cfg.HOURGLASS_BORDER_WIDTH = 0
  · unfold generateHourglass generateHourglassFixAlways
    simp only [hb, if_true]
  · cases hg : generateHourglass cfg with
    | none =>
      unfold generateHourglass at hg
      unfold generateHourglassFixAlways
      dsimp only at hg ⊢
      cases hl : hourglassLoop cfg LOOP_FUEL (u32add cfg.upperCenterRow 1) cfg.lowerCenterRow
          cfg.HOURGLASS_CENTER_WIDTH (List.replicate cfg.GRID_SIZE AIR_VALUE) with
      | none => rfl
      | some g1 =>
        rw [hl] at hg
        simp only [Option.some_bind, if_neg hb] at hg
        cases hg
    | some g =>
      obtain ⟨hlen, he⟩ := generateHourglass_edgeFixed hs hn hg
      have hfix := fixGridEdgeCases_of_edgeFixed hc hlen he
      unfold generateHourglass at hg
      unfold generateHourglassFixAlways
      dsimp only at hg ⊢
      obtain ⟨g1, h1, h2⟩ := bind_eq_some_iff.1 hg
      rw [if_neg hb] at h2
      cases h2
      rw [h1]
      exact hfix.symm

/-- Claim C3, as stated, fails: `wrapConfig` satisfies every static assertion
of `Grid.cpp` (its `GRID_SIZE` wraps to 0), `generateHourglass` returns the
empty grid for it, applying `fixGridEdgeCases` to that grid writes outside of
it, and the generator that always runs the pass returns nothing. -/
theorem hourglass_edge_fix_fails_on_wrapped_size :
    wrapConfig.staticAsserts ∧ generateHourglass wrapConfig = some [] ∧
    fixGridEdgeCases wrapConfig [] = none ∧ generateHourglassFixAlways wrapConfig = none ∧
    ¬ (∀ cfg : Config, cfg.staticAsserts → ∀ g, generateHourglass cfg = some g →
        fixGridEdgeCases cfg g = some g ∧ generateHourglassFixAlways cfg = some g) := by
  refine ⟨by decide, by decide, by decide, by decide, fun h => ?_⟩
  have := (h wrapConfig (by decide) [] (by decide)).1
  exact absurd this (by decide)

/-- Claim C3, amended. For every parameter set that satisfies the static
assertions of `Grid.cpp` without wrap-around of `GRID_WIDTH * GRID_HEIGHT` and
of the asserted sums, `generateHourglass`, which runs the edge-fix pass only
when `HOURGLASS_BORDER_WIDTH == 0`, is the same function as the generator that
runs the pass unconditionally as its final step, and a grid it returns has Air
on the first row, at index `GRID_WIDTH` and at index `2 * GRID_WIDTH` and is
left unchanged by `fixGridEdgeCases`. -/
theorem hourglass_edge_fix_redundant (cfg : Config) (hs : cfg.staticAsserts)
    (hn : cfg.NoWrap) :
    generateHourglass cfg = generateHourglassFixAlways cfg ∧
    ∀ g, generateHourglass cfg = some g →
      fixGridEdgeCases cfg g = some g ∧
      (∀ j, j < cfg.GRID_WIDTH → g[j]? = some AIR_VALUE) ∧
      g[cfg.GRID_WIDTH]? = some AIR_VALUE ∧
      (cfg.GRID_HEIGHT > 2 → g[2 * cfg.GRID_WIDTH]? = some AIR_VALUE) := by
  refine ⟨generateHourglass_eq_fixAlways hs hn, fun g hg => ?_⟩
  obtain ⟨hlen, he⟩ := generateHourglass_edgeFixed hs hn hg
  exact ⟨fixGridEdgeCases_of_edgeFixed (Config.sane_gridFits hs hn) hlen he, he⟩

/-- Claim C3, amended, at the configured constants, for which
`generateHourglass` returns a grid. -/
theorem hourglass_edge_fix_redundant_witness :
    (defaultConfig.staticAsserts ∧ defaultConfig.NoWrap) ∧
    (∃ g, generateHourglass defaultConfig = some g) ∧
    (generateHourglass defaultConfig = generateHourglassFixAlways defaultConfig ∧
    ∀ g, generateHourglass defaultConfig = some g →
      fixGridEdgeCases defaultConfig g = some g ∧
      (∀ j, j < defaultConfig.GRID_WIDTH → g[j]? = some AIR_VALUE) ∧
      g[defaultConfig.GRID_WIDTH]? = some AIR_VALUE ∧
      (defaultConfig.GRID_HEIGHT > 2 → g[2 * defaultConfig.GRID_WIDTH]? = some AIR_VALUE)) :=
  ⟨⟨by decide, by decide⟩, generateHourglass_some (by decide) (by decide) (by decide),
    hourglass_edge_fix_redundant defaultConfig (by decide) (by decide)⟩

/-- Claim C4. For a grid `g` of `GRID_WIDTH * GRID_HEIGHT` cells, any centre
and any radius `r ≥ 0`: if `generateCircle` returns (no `int32_t` operation
overflows), the grid it leaves has the size of `g`, and each in-bounds cell
`(x, y)` is Sand when `(y - cy)^2 + (x - cx)^2 < r^2` and keeps the value it had
in `g` otherwise, so a point outside the grid causes no write; and it does
return when the bounding box and `2 * r^2` fit into `int32_t`, wherever the
centre lies. -/
theorem generateCircle_spec (cfg : Config) (hc : cfg.GridFits) (g : Grid)
    (hg : g.length = cfg.GRID_WIDTH * cfg.GRID_HEIGHT) (cx cy r : Int) (hr : 0 ≤ r) :
    (∀ g1, generateCircle cfg cx cy r g = some g1 →
      g1.length = cfg.GRID_WIDTH * cfg.GRID_HEIGHT ∧
      ∀ x y, x < cfg.GRID_WIDTH → y < cfg.GRID_HEIGHT →
        g1[y * cfg.GRID_WIDTH + x]? =
          if ((y : Int) - cy) * ((y : Int) - cy) + ((x : Int) - cx) * ((x : Int) - cx) < r * r
          then some SAND_VALUE else g[y * cfg.GRID_WIDTH + x]?) ∧
    (CircleFits cx cy r → ∃ g1, generateCircle cfg cx cy r g = some g1) := by
  refine ⟨fun g1 h => generateCircle_cells hc hr hg h, fun hfit => ?_⟩
  obtain ⟨g1, h1, -⟩ := generateCircle_isSome hc hfit hg
  exact ⟨g1, h1⟩

/-- Claim C4 on the grid of `smallConfig` (8 by 8 cells, all Air) with the
centre `(7, 0)` on the border of the grid and radius 2: the function returns,
the cell `(6, 1)` becomes Sand and the cell `(5, 0)` stays Air. -/
theorem generateCircle_spec_witness :
    (smallConfig.GridFits ∧
      (List.replicate 64 AIR_VALUE).length = smallConfig.GRID_WIDTH * smallConfig.GRID_HEIGHT ∧
      (0 : Int) ≤ 2 ∧ CircleFits 7 0 2) ∧
    ∃ g1, generateCircle smallConfig 7 0 2 (List.replicate 64 AIR_VALUE) = some g1 ∧
      g1.length = 64 ∧ g1[1 * 8 + 6]? = some SAND_VALUE ∧ g1[0 * 8 + 5]? = some AIR_VALUE := by
  have h := generateCircle_spec smallConfig (by decide) (List.replicate 64 AIR_VALUE)
    (by decide) 7 0 2 (by decide)
  obtain ⟨g1, hg1⟩ := h.2 (by decide)
  obtain ⟨hl, hcells⟩ := h.1 g1 hg1
  refine ⟨⟨by decide, by decide, by decide, by decide⟩, g1, hg1, hl, ?_, ?_⟩
  · exact (hcells 6 1 (by decide) (by decide)).trans (by decide)
  · exact (hcells 5 0 (by decide) (by decide)).trans (by decide)


/-- Claim C5. `generateCenterCircle` returns the grid in which the cell
`(x, y)` is Sand if and only if it passes the inclusion test of the circle of
radius `RADIUS` around `(GRID_WIDTH / 2, GRID_HEIGHT / 2)` and is not in the
edge-fix set, and is Air otherwise, so the edge-fix set is Air also where the
circle covers it; and for an 8 by 8 grid with radius 2 the Sand cells are
exactly the nine cells with `x` and `y` in `{3, 4, 5}`. -/
theorem generateCenterCircle_spec :
    (∀ cfg : Config, cfg.GridFits → cfg.CenterCircleFits →
      ∃ g, generateCenterCircle cfg = some g ∧
        g.length = cfg.GRID_WIDTH * cfg.GRID_HEIGHT ∧
        ∀ x y, x < cfg.GRID_WIDTH → y < cfg.GRID_HEIGHT →
          (InCircle (cfg.GRID_WIDTH / 2 : Nat) (cfg.GRID_HEIGHT / 2 : Nat) cfg.RADIUS x y ∧
              ¬ EdgeCell cfg (y * cfg.GRID_WIDTH + x) →
            g[y * cfg.GRID_WIDTH + x]? = some SAND_VALUE) ∧
          (¬ (InCircle (cfg.GRID_WIDTH / 2 : Nat) (cfg.GRID_HEIGHT / 2 : Nat) cfg.RADIUS x y ∧
              ¬ EdgeCell cfg (y * cfg.GRID_WIDTH + x)) →
            g[y * cfg.GRID_WIDTH + x]? = some AIR_VALUE)) ∧
    (∃ g, generateCenterCircle smallConfig = some g ∧
      ∀ x y, x < 8 → y < 8 →
        g[y * 8 + x]? =
          some (if 3 ≤ x ∧ x ≤ 5 ∧ 3 ≤ y ∧ y ≤ 5 then SAND_VALUE else AIR_VALUE)) := by
  constructor
  · intro cfg hc hcc
    obtain ⟨g, hg⟩ := generateCenterCircle_some hc hcc
    obtain ⟨hl, -, c⟩ := generateCenterCircle_cells hc hcc.1 hg
    exact ⟨g, hg, hl, c⟩
  · refine ⟨[0,0,0,0,0,0,0,0, 0,0,0,0,0,0,0,0, 0,0,0,0,0,0,0,0, 0,0,0,1,1,1,0,0,
      0,0,0,1,1,1,0,0, 0,0,0,1,1,1,0,0, 0,0,0,0,0,0,0,0, 0,0,0,0,0,0,0,0], by decide, ?_⟩
    have key : ∀ x, x < 8 → ∀ y, y < 8 →
        [0,0,0,0,0,0,0,0, 0,0,0,0,0,0,0,0, 0,0,0,0,0,0,0,0, 0,0,0,1,1,1,0,0,
          0,0,0,1,1,1,0,0, 0,0,0,1,1,1,0,0, 0,0,0,0,0,0,0,0,
          0,0,0,0,0,0,0,0][y * 8 + x]? =
            some (if 3 ≤ x ∧ x ≤ 5 ∧ 3 ≤ y ∧ y ≤ 5 then SAND_VALUE else AIR_VALUE) := by
      decide
    exact fun x y hx hy => key x hx y hy

/-- Claim C5 at the configured constants (`1024` by `1024` cells, radius
`250`). -/
theorem generateCenterCircle_spec_witness :
    (defaultConfig.GridFits ∧ defaultConfig.CenterCircleFits) ∧
    ∃ g, generateCenterCircle defaultConfig = some g ∧
      g.length = defaultConfig.GRID_WIDTH * defaultConfig.GRID_HEIGHT ∧
      ∀ x y, x < defaultConfig.GRID_WIDTH → y < defaultConfig.GRID_HEIGHT →
        (InCircle (defaultConfig.GRID_WIDTH / 2 : Nat) (defaultConfig.GRID_HEIGHT / 2 : Nat)
              defaultConfig.RADIUS x y ∧
            ¬ EdgeCell defaultConfig (y * defaultConfig.GRID_WIDTH + x) →
          g[y * defaultConfig.GRID_WIDTH + x]? = some SAND_VALUE) ∧
        (¬ (InCircle (defaultConfig.GRID_WIDTH / 2 : Nat) (defaultConfig.GRID_HEIGHT / 2 : Nat)
              defaultConfig.RADIUS x y ∧
            ¬ EdgeCell defaultConfig (y * defaultConfig.GRID_WIDTH + x)) →
          g[y * defaultConfig.GRID_WIDTH + x]? = some AIR_VALUE) :=
  ⟨⟨by decide, by decide⟩, generateCenterCircle_spec.1 defaultConfig (by decide) (by decide)⟩

/-- Claim C6. For every sequence of circles drawn within the ranges of the
distributions, `generateRandomCircles` returns the grid in which a cell is
Sand if and only if it lies strictly inside at least one of the circles and
is not in the edge-fix set, and is Air otherwise; hence the same circles drawn
in another order (`σ` permutes the iterations) give the same grid. -/
theorem generateRandomCircles_spec (cfg : Config) (hc : cfg.GridFits)
    (hrc : cfg.RandomCirclesFit) (draws : Nat → CircleDraw)
    (hd : CircleDrawsInRange cfg draws) :
    ∃ g, generateRandomCircles cfg draws = some g ∧
      g.length = cfg.GRID_WIDTH * cfg.GRID_HEIGHT ∧
      (∀ x y, x < cfg.GRID_WIDTH → y < cfg.GRID_HEIGHT →
        (((∃ i, i < cfg.CIRCLE_COUNT ∧
              InCircle (draws i).centerX (draws i).centerY (draws i).radius x y) ∧
            ¬ EdgeCell cfg (y * cfg.GRID_WIDTH + x)) →
          g[y * cfg.GRID_WIDTH + x]? = some SAND_VALUE) ∧
        (¬ ((∃ i, i < cfg.CIRCLE_COUNT ∧
              InCircle (draws i).centerX (draws i).centerY (draws i).radius x y) ∧
            ¬ EdgeCell cfg (y * cfg.GRID_WIDTH + x)) →
          g[y * cfg.GRID_WIDTH + x]? = some AIR_VALUE)) ∧
      ∀ σ : Nat → Nat, (∀ i, i < cfg.CIRCLE_COUNT → σ i < cfg.CIRCLE_COUNT) →
        (∀ j, j < cfg.CIRCLE_COUNT → ∃ i, i < cfg.CIRCLE_COUNT ∧ σ i = j) →
        generateRandomCircles cfg (fun i => draws (σ i)) = some g := by
  obtain ⟨g, hg⟩ := generateRandomCircles_some hc hrc hd
  obtain ⟨hl, -, c⟩ := generateRandomCircles_cells hc hrc.1 hd hg
  refine ⟨g, hg, hl, c, fun σ hσ hsurj => ?_⟩
  have hd2 : CircleDrawsInRange cfg (fun i => draws (σ i)) := fun i hi => hd (σ i) (hσ i hi)
  obtain ⟨g2, hg2⟩ := generateRandomCircles_some hc hrc hd2
  obtain ⟨hl2, -, c2⟩ := generateRandomCircles_cells hc hrc.1 hd2 hg2
  rw [hg2]
  congr 1
  refine grid_ext_xy hl2 hl fun x y hx hy => ?_
  refine cell_eq_of_cases ?_ (c2 x y hx hy) (c x y hx hy)
  have hiff : InSomeCircle cfg (fun i => draws (σ i)) x y ↔ InSomeCircle cfg draws x y := by
    constructor
    · rintro ⟨i, hi, hin⟩
      exact ⟨σ i, hσ i hi, hin⟩
    · rintro ⟨j, hj, hin⟩
      obtain ⟨i, hi, rfl⟩ := hsurj j hj
      exact ⟨i, hi, hin⟩
  rw [hiff]

/-- Claim C6 at the configured constants, with every circle drawn at the
centre of the grid with radius 50. -/
theorem generateRandomCircles_spec_witness :
    (defaultConfig.GridFits ∧ defaultConfig.RandomCirclesFit ∧
      CircleDrawsInRange defaultConfig (fun _ => ⟨512, 512, 50⟩)) ∧
    ∃ g, generateRandomCircles defaultConfig (fun _ => ⟨512, 512, 50⟩) = some g ∧
      g.length = 1024 * 1024 ∧ g[512 * 1024 + 512]? = some SAND_VALUE ∧
      g[0 * 1024 + 0]? = some AIR_VALUE := by
  obtain ⟨g, hg, hl, c, -⟩ := generateRandomCircles_spec defaultConfig (by decide) (by decide)
    (fun _ => ⟨512, 512, 50⟩) (circleDrawsInRange_const _ _ (by decide))
  refine ⟨⟨by decide, by decide, circleDrawsInRange_const _ _ (by decide)⟩, g, hg, hl, ?_, ?_⟩
  · exact (c 512 512 (by decide) (by decide)).1 ⟨⟨0, by decide, by decide⟩, by decide⟩
  · exact (c 0 0 (by decide) (by decide)).2 (fun h => h.2 (by decide))

/-- Claim C7. For every sequence of draws, `generateRandomNoise` returns the
grid in which a cell is Sand if and only if its index is one of the
`PARTICLE_COUNT` sampled indices (taken modulo the grid size) and is not in
the edge-fix set, and is Air otherwise; the grid has no Wall and at most
`PARTICLE_COUNT` Sand cells, and draws that sample the same set of indices,
with whatever repetitions, give the same grid. -/
theorem generateRandomNoise_spec (cfg : Config) (hc : cfg.GridFits) (rnd : Nat → F32) :
    ∃ g, generateRandomNoise cfg rnd = some g ∧
      g.length = cfg.GRID_WIDTH * cfg.GRID_HEIGHT ∧
      (∀ j, j < cfg.GRID_WIDTH * cfg.GRID_HEIGHT →
        (((∃ i, i < cfg.PARTICLE_COUNT ∧
              noiseIndex cfg (rnd i) % (cfg.GRID_WIDTH * cfg.GRID_HEIGHT) = j) ∧
            ¬ EdgeCell cfg j) → g[j]? = some SAND_VALUE) ∧
        (¬ ((∃ i, i < cfg.PARTICLE_COUNT ∧
              noiseIndex cfg (rnd i) % (cfg.GRID_WIDTH * cfg.GRID_HEIGHT) = j) ∧
            ¬ EdgeCell cfg j) → g[j]? = some AIR_VALUE)) ∧
      WALL_VALUE ∉ g ∧ g.count SAND_VALUE ≤ cfg.PARTICLE_COUNT ∧
      ∀ rnd2 : Nat → F32,
        (∀ j, (∃ i, i < cfg.PARTICLE_COUNT ∧
              noiseIndex cfg (rnd2 i) % (cfg.GRID_WIDTH * cfg.GRID_HEIGHT) = j) ↔
            (∃ i, i < cfg.PARTICLE_COUNT ∧
              noiseIndex cfg (rnd i) % (cfg.GRID_WIDTH * cfg.GRID_HEIGHT) = j)) →
        generateRandomNoise cfg rnd2 = some g := by
  obtain ⟨g, hg⟩ := generateRandomNoise_some hc rnd
  obtain ⟨hl, -, hcount, c⟩ := generateRandomNoise_cells hc hg
  refine ⟨g, hg, hl, c, ?_, hcount, fun rnd2 hsame => ?_⟩
  · exact (cellsValid_of_sand_or_air hl fun j hj => sand_or_air_of_cases (c j hj)).2
  · obtain ⟨g2, hg2⟩ := generateRandomNoise_some hc rnd2
    obtain ⟨hl2, -, -, c2⟩ := generateRandomNoise_cells hc hg2
    rw [hg2]
    congr 1
    refine grid_ext hl2 hl fun j hj => ?_
    refine cell_eq_of_cases ?_ (c2 j hj) (c j hj)
    have hiff : NoiseSampled cfg rnd2 j ↔ NoiseSampled cfg rnd j := hsame j
    rw [hiff]

/-- Claim C7 at the configured constants, with every draw equal to `0.5`:
the only sampled index is `524288`. -/
theorem generateRandomNoise_spec_witness :
    defaultConfig.GridFits ∧
    ∃ g, generateRandomNoise defaultConfig (fun _ => ⟨1, -1⟩) = some g ∧
      g.length = 1024 * 1024 ∧ g[524288]? = some SAND_VALUE ∧ g[524289]? = some AIR_VALUE ∧
      WALL_VALUE ∉ g ∧ g.count SAND_VALUE ≤ 1000000 := by
  obtain ⟨g, hg, hl, c, hw, hcount, -⟩ := generateRandomNoise_spec defaultConfig (by decide)
    (fun _ => ⟨1, -1⟩)
  refine ⟨by decide, g, hg, hl, ?_, ?_, hw, hcount⟩
  · exact (c 524288 (by decide)).1 ⟨⟨0, by decide, by decide⟩, by decide⟩
  · refine (c 524289 (by decide)).2 ?_
    rintro ⟨⟨i, -, hi⟩, -⟩
    exact absurd hi (by decide)


/-! ## The claims on the configured hourglass -/

/-- The configured hourglass is symmetric about the axis between the columns
512 and 513. -/
theorem hourglassCell_default_mirror {x x1 : Nat} (y : Nat) (h : x + x1 = 1025) :
    hourglassCell defaultConfig x y = hourglassCell defaultConfig x1 y := by
  rw [hourglassCell_default, hourglassCell_default]
  split_ifs <;> omega

/-- The columns 0 and 1 of the configured hourglass are Air. -/
theorem hourglassCell_default_left {x : Nat} (y : Nat) (h : x ≤ 1) :
    hourglassCell defaultConfig x y = AIR_VALUE := by
  rw [hourglassCell_default]
  unfold AIR_VALUE
  split_ifs <;> omega

/-- Cells of the row pair drawn in iteration `i` of the configured hourglass. -/
theorem hourglassCell_default_pair {i x : Nat} (hi : i < 499) :
    hourglassCell defaultConfig x (512 - i) =
      (if 508 - min (4 + i) 300 / 2 ≤ x ∧ x ≤ 517 + min (4 + i) 300 / 2 then
        if 495 ≤ i ∨ x < 512 - min (4 + i) 300 / 2 ∨ 513 + min (4 + i) 300 / 2 < x then 2
        else if 100 ≤ i then 1 else 0
      else 0) ∧
    hourglassCell defaultConfig x (513 + i) =
      (if 508 - min (4 + i) 300 / 2 ≤ x ∧ x ≤ 517 + min (4 + i) 300 / 2 then
        if 495 ≤ i ∨ x < 512 - min (4 + i) 300 / 2 ∨ 513 + min (4 + i) 300 / 2 < x then 2
        else 0
      else 0) := by
  have e1 : 516 - (512 - i) = 4 + i := by omega
  have e2 : 513 + i - 509 = 4 + i := by omega
  constructor
  · rw [hourglassCell_default, if_pos (by omega), e1]
    split_ifs <;> omega
  · rw [hourglassCell_default, if_neg (by omega), if_pos (by omega), e2]
    split_ifs <;> omega

/-- In the configured hourglass the two rows of an iteration have their Wall
cells in the same columns. -/
theorem hourglassCell_default_wall_pair {i x : Nat} (hi : i < 499) :
    hourglassCell defaultConfig x (512 - i) = WALL_VALUE ↔
      hourglassCell defaultConfig x (513 + i) = WALL_VALUE := by
  obtain ⟨e1, e2⟩ := hourglassCell_default_pair (x := x) hi
  rw [e1, e2]
  unfold WALL_VALUE
  by_cases hr : 508 - min (4 + i) 300 / 2 ≤ x ∧ x ≤ 517 + min (4 + i) 300 / 2
  · rw [if_pos hr, if_pos hr]
    by_cases hb : 495 ≤ i ∨ x < 512 - min (4 + i) 300 / 2 ∨ 513 + min (4 + i) 300 / 2 < x
    · rw [if_pos hb, if_pos hb]
    · rw [if_neg hb, if_neg hb]
      by_cases h100 : 100 ≤ i
      · rw [if_pos h100]
        decide
      · rw [if_neg h100]
  · rw [if_neg hr, if_neg hr]

/-- Rows of the configured hourglass that are not drawn hold no Wall. -/
theorem hourglassCell_default_outside {x y : Nat} (hy : y < 14 ∨ 1011 < y) :
    hourglassCell defaultConfig x y = AIR_VALUE := by
  rw [hourglassCell_default, if_neg (by omega), if_neg (by omega)]
  rfl

/-- The number of Wall cells of a row, from the cells of the row. -/
theorem wallsInRow_congr {g : Grid} {w a b : Nat}
    (h : ∀ x, x < w → (g[x + w * a]? = some WALL_VALUE ↔ g[x + w * b]? = some WALL_VALUE)) :
    wallsInRow g w a = wallsInRow g w b := by
  unfold wallsInRow
  refine List.countP_congr fun x hx => ?_
  have := h x (List.mem_range.1 hx)
  simpa using this

theorem wallsInRow_eq_zero {g : Grid} {w y : Nat}
    (h : ∀ x, x < w → g[x + w * y]? = some AIR_VALUE) : wallsInRow g w y = 0 := by
  unfold wallsInRow
  rw [List.countP_eq_zero]
  intro x hx
  rw [h x (List.mem_range.1 hx)]
  decide

/-- Claim C9. In the grid returned by `generateHourglass` for the configured
constants, for every iteration `i` of the drawing loop (`i < 499`) and every
column `x`, the cell `(x, upperCenterRow - i)` is Wall if and only if the cell
`(x, lowerCenterRow + i)` is Wall; hence the rows of the top border (rows 14
to 17, the upper rows of the iterations drawn with `isTop || isBottom`) hold
as many Wall cells as the rows of the bottom border (rows 1008 to 1011, the
lower rows of these iterations), and the rows above the centre (0 to 512) hold
as many Wall cells as the rows below it (513 to 1023). -/
theorem hourglass_walls_lock_step :
    ∃ g, generateHourglass defaultConfig = some g ∧
      (defaultConfig.upperCenterRow = 512 ∧ defaultConfig.lowerCenterRow = 513) ∧
      (∀ i x, i < 499 → x < 1024 →
        (g[x + 1024 * (512 - i)]? = some WALL_VALUE ↔
          g[x + 1024 * (513 + i)]? = some WALL_VALUE)) ∧
      (∀ i, i < 499 →
        ((defaultConfig.isTop (512 - i) || defaultConfig.isBottom (513 + i)) = true ↔
          495 ≤ i)) ∧
      wallsInRow g 1024 14 + wallsInRow g 1024 15 + wallsInRow g 1024 16 +
          wallsInRow g 1024 17 =
        wallsInRow g 1024 1008 + wallsInRow g 1024 1009 + wallsInRow g 1024 1010 +
          wallsInRow g 1024 1011 ∧
      ∑ y ∈ Finset.range 513, wallsInRow g 1024 y =
        ∑ y ∈ Finset.Ico 513 1024, wallsInRow g 1024 y := by
  obtain ⟨g, hg, -, c⟩ := generateHourglass_default
  have pair : ∀ i x, i < 499 → x < 1024 →
      (g[x + 1024 * (512 - i)]? = some WALL_VALUE ↔
        g[x + 1024 * (513 + i)]? = some WALL_VALUE) := by
    intro i x hi hx
    rw [c x (512 - i) hx (by omega), c x (513 + i) hx (by omega)]
    constructor
    · intro h
      rw [(hourglassCell_default_wall_pair hi).1 (Option.some.inj h)]
    · intro h
      rw [(hourglassCell_default_wall_pair hi).2 (Option.some.inj h)]
  have rows : ∀ i a b, i < 499 → a = 512 - i → b = 513 + i →
      wallsInRow g 1024 a = wallsInRow g 1024 b := by
    intro i a b hi ha hb
    subst ha hb
    exact wallsInRow_congr fun x hx => pair i x hi hx
  have zero : ∀ y, y < 1024 → (y < 14 ∨ 1011 < y) → wallsInRow g 1024 y = 0 := by
    intro y hy hout
    refine wallsInRow_eq_zero fun x hx => ?_
    rw [c x y hx hy, hourglassCell_default_outside hout]
  refine ⟨g, hg, ⟨by decide, by decide⟩, pair, ?_, ?_, ?_⟩
  · intro i hi
    unfold Config.isTop Config.isBottom
    rw [default_rows.1, default_rows.2.1]
    simp only [Bool.or_eq_true, decide_eq_true_eq]
    show (512 - i ≤ u32add 12 4 ∨ 513 + i ≥ u32sub 1012 4) ↔ _
    unfold u32add u32sub U32
    omega
  · rw [rows 498 14 1011 (by decide) (by decide) (by decide),
      rows 497 15 1010 (by decide) (by decide) (by decide),
      rows 496 16 1009 (by decide) (by decide) (by decide),
      rows 495 17 1008 (by decide) (by decide) (by decide)]
    omega
  · refine Finset.sum_bij_ne_zero (fun y _ _ => 1025 - y) ?_ ?_ ?_ ?_
    · intro y hy hne
      have hy1 := Finset.mem_range.1 hy
      have h14 : 14 ≤ y := by
        by_contra hlt
        exact hne (zero y (by omega) (Or.inl (by omega)))
      show 1025 - y ∈ Finset.Ico 513 1024
      exact Finset.mem_Ico.2 ⟨by omega, by omega⟩
    · intro y1 hy1 hne1 y2 hy2 hne2 h
      have h1 := Finset.mem_range.1 hy1
      have h2 := Finset.mem_range.1 hy2
      have h3 : 1025 - y1 = 1025 - y2 := h
      omega
    · intro b hb hne
      obtain ⟨hb1, hb2⟩ := Finset.mem_Ico.1 hb
      have h1011 : b ≤ 1011 := by
        by_contra hlt
        exact hne (zero b hb2 (Or.inr (by omega)))
      have hmem : 1025 - b ∈ Finset.range 513 := Finset.mem_range.2 (by omega)
      have hne1 : wallsInRow g 1024 (1025 - b) ≠ 0 := by
        rw [rows (b - 513) (1025 - b) b (by omega) (by omega) (by omega)]
        exact hne
      have hb3 : 1025 - (1025 - b) = b := by omega
      exact ⟨1025 - b, hmem, hne1, hb3⟩
    · intro y hy hne
      have hy1 := Finset.mem_range.1 hy
      have h14 : 14 ≤ y := by
        by_contra hlt
        exact hne (zero y (by omega) (Or.inl (by omega)))
      exact rows (512 - y) y (1025 - y) (by omega) (by omega) (by omega)

/-- Claim C10. In the grid returned by `generateHourglass` for the configured
constants the right hand side of `isFilled` is
`startRow + floor((HOURGLASS_HEIGHT / 2) * HOURGLASS_FILL_PERCENTAGE) = 412`,
and in the row pair of iteration `i < 499` (rows `512 - i` and `513 + i`, drawn
between the columns `508 - w` and `517 + w` with `w = min (4 + i) 300 / 2`):
every cell within the border thickness 4 of the silhouette, that is of its two
side walls (`x < 512 - w` or `x > 513 + w`), of its four top rows and of its
four bottom rows (`i ≥ 495`), is Wall; every other cell of the upper row is Sand
if and only if the row is at most 412 and is Air past that threshold; and
every other cell of the lower row is Air. -/
theorem hourglass_fill_and_border :
    ∃ g, generateHourglass defaultConfig = some g ∧
      defaultConfig.fillRow = 412 ∧
      defaultConfig.startRow + 500 * 13421773 / 2 ^ 24 = 412 ∧
      ∀ i x, i < 499 → 508 - min (4 + i) 300 / 2 ≤ x → x ≤ 517 + min (4 + i) 300 / 2 →
        ((495 ≤ i ∨ x < 512 - min (4 + i) 300 / 2 ∨ 513 + min (4 + i) 300 / 2 < x) →
          g[x + 1024 * (512 - i)]? = some WALL_VALUE ∧
          g[x + 1024 * (513 + i)]? = some WALL_VALUE) ∧
        (¬ (495 ≤ i ∨ x < 512 - min (4 + i) 300 / 2 ∨ 513 + min (4 + i) 300 / 2 < x) →
          (g[x + 1024 * (512 - i)]? = some SAND_VALUE ↔ 512 - i ≤ 412) ∧
          (412 < 512 - i → g[x + 1024 * (512 - i)]? = some AIR_VALUE) ∧
          g[x + 1024 * (513 + i)]? = some AIR_VALUE) := by
  obtain ⟨g, hg, -, c⟩ := generateHourglass_default
  refine ⟨g, hg, by decide, by decide, fun i x hi h1 h2 => ?_⟩
  have hx : x < 1024 := by omega
  obtain ⟨e1, e2⟩ := hourglassCell_default_pair (x := x) hi
  have hr : 508 - min (4 + i) 300 / 2 ≤ x ∧ x ≤ 517 + min (4 + i) 300 / 2 := ⟨h1, h2⟩
  rw [c x (512 - i) hx (by omega), c x (513 + i) hx (by omega), e1, e2, if_pos hr, if_pos hr]
  constructor
  · intro hb
    rw [if_pos hb, if_pos hb]
    exact ⟨rfl, rfl⟩
  · intro hb
    rw [if_neg hb, if_neg hb]
    refine ⟨?_, ?_, rfl⟩
    · by_cases h100 : 100 ≤ i
      · rw [if_pos h100]
        exact ⟨fun _ => by omega, fun _ => rfl⟩
      · rw [if_neg h100]
        exact ⟨fun h => absurd h (by decide), fun h => by omega⟩
    · intro hlt
      rw [if_neg (by omega)]
      rfl


/-! ## Parameters accepted by the assertions -/

/-- Claim C11. The parameter set `overflowConfig` passes every `static_assert`
of `Grid.cpp` without any wrap of the asserted sums, yet the first row that
`generateHourglass` draws ends at column `GRID_WIDTH`, outside the grid row,
and a later write falls outside the vector: the function does not return a
grid. -/
theorem generateHourglass_fails_on_accepted_parameters :
    overflowConfig.staticAsserts ∧ overflowConfig.NoWrap ∧
    overflowConfig.GRID_WIDTH ≤
      overflowConfig.rightBorderEnd overflowConfig.HOURGLASS_CENTER_WIDTH ∧
    generateHourglass overflowConfig = none := by
  decide

/-! ## The update timer -/

theorem toI64_small {n : Nat} (h : n < 9223372036854775808) : toI64 n = (n : Int) := by
  unfold toI64
  have h1 : n % 18446744073709551616 = n := Nat.mod_eq_of_lt (by omega)
  rw [h1, if_pos h]

/-- For readings in clock order the cast to milliseconds is the floor of the
elapsed milliseconds. -/
theorem durationCastMs_lt_iff (p : ClockPeriod) (hp : 0 < p.den) (ticks : Int) (h : 0 ≤ ticks)
    (k : Int) :
    k < durationCastMs p ticks ↔ (k + 1) * (p.den : Int) ≤ ticks * (1000 * (p.num : Int)) := by
  unfold durationCastMs
  have hd : (0 : Int) < (p.den : Int) := Int.ofNat_lt.2 hp
  have hn : (0 : Int) ≤ ticks * (1000 * (p.num : Int)) :=
    mul_nonneg h (mul_nonneg (by decide) (Int.ofNat_nonneg _))
  rw [Int.tdiv_eq_ediv hn (le_of_lt hd), ← Int.le_ediv_iff_mul_le hd]
  omega

theorem isUpdateNeeded_iff (p : ClockPeriod) (hp : 0 < p.den) (t : ComputeUpdateTimer)
    (now : Int) (h : t._latestUpdate ≤ now) :
    t.isUpdateNeeded p now = true ↔
      (t._updateIntervalMs + 1) * (p.den : Int) ≤
        (now - t._latestUpdate) * (1000 * (p.num : Int)) := by
  unfold ComputeUpdateTimer.isUpdateNeeded
  dsimp only
  rw [decide_eq_true_iff]
  exact durationCastMs_lt_iff p hp _ (by omega) _

/-- A later reading of the clock never turns a due update into one that is not due. -/
theorem isUpdateNeeded_mono (p : ClockPeriod) (hp : 0 < p.den) (t : ComputeUpdateTimer)
    (n1 n2 : Int) (h1 : t._latestUpdate ≤ n1) (h2 : n1 ≤ n2)
    (h : t.isUpdateNeeded p n1 = true) : t.isUpdateNeeded p n2 = true := by
  rw [isUpdateNeeded_iff p hp t n2 (le_trans h1 h2)]
  rw [isUpdateNeeded_iff p hp t n1 h1] at h
  have hn : (0 : Int) ≤ 1000 * (p.num : Int) := mul_nonneg (by decide) (Int.ofNat_nonneg _)
  have : (n1 - t._latestUpdate) * (1000 * (p.num : Int)) ≤
      (n2 - t._latestUpdate) * (1000 * (p.num : Int)) :=
    mul_le_mul_of_nonneg_right (by omega) hn
  omega

/-- Claim C12, as stated, fails. With the nanosecond clock and interval 0, half
a millisecond after the latest update the elapsed time is greater than the
interval and `isUpdateNeeded` returns `false`; and for the interval
`2^64 - 1`, which the constructor stores as `-1`, it returns `true`
immediately after `notifyUpdateScheduled`. -/
theorem isUpdateNeeded_not_iff_elapsed_exceeds_interval :
    (ElapsedMoreThanMs nanoPeriod 0 500000 0 ∧
      (ComputeUpdateTimer.init 0 0).isUpdateNeeded nanoPeriod 500000 = false) ∧
    ((ComputeUpdateTimer.init 18446744073709551615 0).notifyUpdateScheduled 7).isUpdateNeeded
      nanoPeriod 7 = true := by
  decide

/-- Claim C12, amended. For an interval `I` below `2^63` and clock readings
`latestUpdate ≤ now`, `isUpdateNeeded` returns `true` if and only if at least
`I + 1` milliseconds have elapsed, that is if and only if the elapsed time
truncated to whole milliseconds is greater than `I`; it returns `false`
immediately after `notifyUpdateScheduled`. -/
theorem isUpdateNeeded_iff_whole_milliseconds_exceed_interval (p : ClockPeriod)
    (hp : 0 < p.den) (I : Nat) (hI : I < 9223372036854775808) (start latestUpdate now : Int)
    (h : latestUpdate ≤ now) :
    (((ComputeUpdateTimer.init I start).notifyUpdateScheduled latestUpdate).isUpdateNeeded p now
        = true ↔ ElapsedAtLeastMs p latestUpdate now (I + 1)) ∧
    (((ComputeUpdateTimer.init I start).notifyUpdateScheduled latestUpdate).notifyUpdateScheduled
        now).isUpdateNeeded p now = false := by
  constructor
  · rw [isUpdateNeeded_iff p hp _ now h]
    unfold ElapsedAtLeastMs ComputeUpdateTimer.notifyUpdateScheduled ComputeUpdateTimer.init
    dsimp only
    rw [toI64_small hI]
    push_cast
    exact Iff.rfl
  · rw [Bool.eq_false_iff]
    intro hc
    rw [isUpdateNeeded_iff p hp _ now (le_refl _)] at hc
    unfold ComputeUpdateTimer.notifyUpdateScheduled ComputeUpdateTimer.init at hc
    dsimp only at hc
    rw [toI64_small hI] at hc
    have hd : (0 : Int) < (p.den : Int) := Int.ofNat_lt.2 hp
    have h0 : (0 : Int) < ((I : Int) + 1) * (p.den : Int) :=
      mul_pos (by omega) hd
    simp at hc
    omega

theorem isUpdateNeeded_iff_whole_milliseconds_exceed_interval_witness :
    ((((ComputeUpdateTimer.init 2 0).notifyUpdateScheduled 10).isUpdateNeeded nanoPeriod
        3000010 = true ↔ ElapsedAtLeastMs nanoPeriod 10 3000010 (2 + 1)) ∧
    (((ComputeUpdateTimer.init 2 0).notifyUpdateScheduled 10).notifyUpdateScheduled
        3000010).isUpdateNeeded nanoPeriod 3000010 = false) ∧
    ((ComputeUpdateTimer.init 2 0).notifyUpdateScheduled 10).isUpdateNeeded nanoPeriod
        3000010 = true :=
  ⟨isUpdateNeeded_iff_whole_milliseconds_exceed_interval nanoPeriod (by decide) 2 (by decide)
    0 10 3000010 (by decide), by decide⟩

/-- Claim C14, as stated, fails. Two calls of `isUpdateNeeded` with no
`notifyUpdateScheduled` in between leave the timer as it was, but the first,
at the reading of the latest update, returns `false` and the second, one
millisecond later, returns `true`. -/
theorem isUpdateNeeded_twice_results_differ :
    runTimerCalls nanoPeriod (ComputeUpdateTimer.init 0 0)
        [(TimerCall.isUpdateNeeded, 0), (TimerCall.isUpdateNeeded, 1000000)] =
      (ComputeUpdateTimer.init 0 0, [false, true]) := by
  decide

/-- Claim C14, amended. Two calls of `isUpdateNeeded` with no
`notifyUpdateScheduled` in between leave `_latestUpdate` and the interval
unchanged; they return the same result when they read the same clock value,
and when the clock has advanced between them the result can only change from
`false` to `true`. -/
theorem isUpdateNeeded_twice_state_unchanged (p : ClockPeriod) (hp : 0 < p.den)
    (t : ComputeUpdateTimer) (n1 n2 : Int) (h1 : t._latestUpdate ≤ n1) (h2 : n1 ≤ n2) :
    ∃ r1 r2 : Bool,
      runTimerCalls p t [(TimerCall.isUpdateNeeded, n1), (TimerCall.isUpdateNeeded, n2)] =
        (t, [r1, r2]) ∧
      (n1 = n2 → r1 = r2) ∧ (r1 = true → r2 = true) := by
  refine ⟨t.isUpdateNeeded p n1, t.isUpdateNeeded p n2, rfl, ?_, ?_⟩
  · intro h
    rw [h]
  · exact isUpdateNeeded_mono p hp t n1 n2 h1 h2

theorem isUpdateNeeded_twice_state_unchanged_witness :
    ∃ r1 r2 : Bool,
      runTimerCalls nanoPeriod (ComputeUpdateTimer.init 0 0)
          [(TimerCall.isUpdateNeeded, 5), (TimerCall.isUpdateNeeded, 2000000)] =
        (ComputeUpdateTimer.init 0 0, [r1, r2]) ∧
      ((5 : Int) = 2000000 → r1 = r2) ∧ (r1 = true → r2 = true) :=
  isUpdateNeeded_twice_state_unchanged nanoPeriod (by decide) (ComputeUpdateTimer.init 0 0)
    5 2000000 (by decide) (by decide)


/-! ## One iteration of the frame loop -/

theorem frameDropped_iff (st : FrameState) (inp : FrameInput) :
    (inp.acquireResult = VK_ERROR_OUT_OF_DATE_KHR ∨ inp.acquireResult = VK_SUBOPTIMAL_KHR ∨
      (st.framebufferResized || inp.resizeRequested) = true) ↔ FrameDropped st inp := by
  unfold FrameDropped
  rw [Bool.or_eq_true]

/-- An iteration that is dropped. -/
theorem frameIteration_dropped (cfg : Config) (p : ClockPeriod) (st : FrameState)
    (inp : FrameInput) (h : FrameDropped st inp) :
    frameIteration cfg p st inp =
      ({ st with exitApplication := st.exitApplication || inp.exitRequested,
                 framebufferResized := false },
        [Call.waitForFences, Call.acquireNextImage, Call.recreateSwapchain]) := by
  unfold frameIteration
  dsimp only
  rw [if_pos ((frameDropped_iff st inp).2 h)]
  rfl

/-- An iteration that acquires a target and records a simulation step. -/
theorem frameIteration_step (cfg : Config) (p : ClockPeriod) (st : FrameState)
    (inp : FrameInput) (h : ¬ FrameDropped st inp)
    (hu : st.computeUpdateTimer.isUpdateNeeded p inp.checkTime = true) :
    frameIteration cfg p st inp =
      ({ currentGridBuffer := logicalNot st.currentGridBuffer,
         computeUpdateTimer := st.computeUpdateTimer.notifyUpdateScheduled inp.notifyTime,
         exitApplication := st.exitApplication || inp.exitRequested,
         framebufferResized := st.framebufferResized || inp.resizeRequested },
        [Call.waitForFences, Call.acquireNextImage, Call.resetFences, Call.resetCommandBuffer] ++
          beginCommandBuffer inp.beginResult ++
          (recordComputeCommands cfg st.currentGridBuffer inp.random ++
            addMemoryBarrier cfg st.currentGridBuffer) ++
          recordDrawCommands (logicalNot st.currentGridBuffer) inp.imageIndex inp.endResult ++
          submitCommands inp.submitResult ++ [Call.queuePresent inp.imageIndex] ++
          (if inp.presentResult = VK_ERROR_OUT_OF_DATE_KHR ∨
              inp.presentResult = VK_SUBOPTIMAL_KHR then [Call.recreateSwapchain] else [])) := by
  unfold frameIteration
  dsimp only
  rw [if_neg (fun hc => h ((frameDropped_iff st inp).1 hc)), if_pos hu]
  rfl

/-- An iteration that acquires a target and records no simulation step. -/
theorem frameIteration_idle (cfg : Config) (p : ClockPeriod) (st : FrameState)
    (inp : FrameInput) (h : ¬ FrameDropped st inp)
    (hu : st.computeUpdateTimer.isUpdateNeeded p inp.checkTime = false) :
    frameIteration cfg p st inp =
      ({ currentGridBuffer := st.currentGridBuffer,
         computeUpdateTimer := st.computeUpdateTimer,
         exitApplication := st.exitApplication || inp.exitRequested,
         framebufferResized := st.framebufferResized || inp.resizeRequested },
        [Call.waitForFences, Call.acquireNextImage, Call.resetFences, Call.resetCommandBuffer] ++
          beginCommandBuffer inp.beginResult ++ [] ++
          recordDrawCommands st.currentGridBuffer inp.imageIndex inp.endResult ++
          submitCommands inp.submitResult ++ [Call.queuePresent inp.imageIndex] ++
          (if inp.presentResult = VK_ERROR_OUT_OF_DATE_KHR ∨
              inp.presentResult = VK_SUBOPTIMAL_KHR then [Call.recreateSwapchain] else [])) := by
  unfold frameIteration
  dsimp only
  rw [if_neg (fun hc => h ((frameDropped_iff st inp).1 hc)), hu]
  rfl

theorem stepsRecorded_append (l1 l2 : List Call) :
    stepsRecorded (l1 ++ l2) = stepsRecorded l1 + stepsRecorded l2 := by
  unfold stepsRecorded
  exact List.countP_append _ l1 l2

theorem stepsRecorded_beginCommandBuffer (r : VkResult) :
    stepsRecorded (beginCommandBuffer r) = 0 := by
  unfold beginCommandBuffer stepsRecorded
  by_cases h : r = VK_SUCCESS
  · simp [h, Call.isDispatch]
  · simp [h, Call.isDispatch]

theorem stepsRecorded_recordDrawCommands (a b : Nat) (r : VkResult) :
    stepsRecorded (recordDrawCommands a b r) = 0 := by
  unfold recordDrawCommands stepsRecorded
  by_cases h : r = VK_SUCCESS
  · simp [h, Call.isDispatch]
  · simp [h, Call.isDispatch]

theorem stepsRecorded_submitCommands (r : VkResult) :
    stepsRecorded (submitCommands r) = 0 := by
  unfold submitCommands stepsRecorded
  by_cases h : r = VK_SUCCESS
  · simp [h, Call.isDispatch]
  · simp [h, Call.isDispatch]

theorem stepsRecorded_recreate (c : Prop) [Decidable c] :
    stepsRecorded (if c then [Call.recreateSwapchain] else []) = 0 := by
  unfold stepsRecorded
  by_cases h : c
  · simp [h, Call.isDispatch]
  · simp [h, Call.isDispatch]

/-- The number of steps that one iteration records: one when the frame is not
dropped and the timer reports an update, none otherwise. -/
theorem stepsRecorded_frameIteration (cfg : Config) (p : ClockPeriod) (st : FrameState)
    (inp : FrameInput) :
    stepsRecorded (frameIteration cfg p st inp).2 =
      if ¬ FrameDropped st inp ∧ st.computeUpdateTimer.isUpdateNeeded p inp.checkTime = true
      then 1 else 0 := by
  by_cases h : FrameDropped st inp
  · have hif : (if ¬ FrameDropped st inp ∧
        st.computeUpdateTimer.isUpdateNeeded p inp.checkTime = true then 1 else 0) = 0 :=
      if_neg (fun hc => hc.1 h)
    rw [hif, frameIteration_dropped cfg p st inp h]
    rfl
  · by_cases hu : st.computeUpdateTimer.isUpdateNeeded p inp.checkTime = true
    · have hif : (if ¬ FrameDropped st inp ∧
          st.computeUpdateTimer.isUpdateNeeded p inp.checkTime = true then 1 else 0) = 1 :=
        if_pos ⟨h, hu⟩
      rw [hif, frameIteration_step cfg p st inp h hu]
      dsimp only
      simp only [stepsRecorded_append, stepsRecorded_beginCommandBuffer,
        stepsRecorded_recordDrawCommands, stepsRecorded_submitCommands, stepsRecorded_recreate]
      rfl
    · have hif : (if ¬ FrameDropped st inp ∧
          st.computeUpdateTimer.isUpdateNeeded p inp.checkTime = true then 1 else 0) = 0 :=
        if_neg (fun hc => hu hc.2)
      rw [hif, frameIteration_idle cfg p st inp h (Bool.eq_false_iff.2 hu)]
      dsimp only
      simp only [stepsRecorded_append, stepsRecorded_beginCommandBuffer,
        stepsRecorded_recordDrawCommands, stepsRecorded_submitCommands, stepsRecorded_recreate]
      rfl

theorem logicalNot_of_lt_two {a : Nat} (h : a < 2) : logicalNot a = 1 - a ∧ logicalNot a < 2 := by
  unfold logicalNot
  by_cases h0 : a = 0
  · rw [if_pos h0]; omega
  · rw [if_neg h0]; omega

/-- The buffer index after one iteration. -/
theorem frameIteration_buffer (cfg : Config) (p : ClockPeriod) (st : FrameState)
    (inp : FrameInput) (hb : st.currentGridBuffer < 2) :
    (frameIteration cfg p st inp).1.currentGridBuffer =
      (st.currentGridBuffer + stepsRecorded (frameIteration cfg p st inp).2) % 2 := by
  rw [stepsRecorded_frameIteration]
  by_cases h : FrameDropped st inp
  · have hif : (if ¬ FrameDropped st inp ∧
        st.computeUpdateTimer.isUpdateNeeded p inp.checkTime = true then 1 else 0) = 0 :=
      if_neg (fun hc => hc.1 h)
    rw [hif, frameIteration_dropped cfg p st inp h]
    dsimp only
    omega
  · by_cases hu : st.computeUpdateTimer.isUpdateNeeded p inp.checkTime = true
    · have hif : (if ¬ FrameDropped st inp ∧
          st.computeUpdateTimer.isUpdateNeeded p inp.checkTime = true then 1 else 0) = 1 :=
        if_pos ⟨h, hu⟩
      rw [hif, frameIteration_step cfg p st inp h hu]
      dsimp only
      have := logicalNot_of_lt_two hb
      omega
    · have hif : (if ¬ FrameDropped st inp ∧
          st.computeUpdateTimer.isUpdateNeeded p inp.checkTime = true then 1 else 0) = 0 :=
        if_neg (fun hc => hu hc.2)
      rw [hif, frameIteration_idle cfg p st inp h (Bool.eq_false_iff.2 hu)]
      dsimp only
      omega

/-- The buffer index after a run of the loop from any state. -/
theorem mainLoop_buffer (cfg : Config) (p : ClockPeriod) (inputs : List FrameInput) :
    ∀ st : FrameState, st.currentGridBuffer < 2 →
      (mainLoop cfg p st inputs).1.currentGridBuffer =
        (st.currentGridBuffer + stepsRecorded (mainLoop cfg p st inputs).2) % 2 := by
  induction inputs with
  | nil =>
    intro st hb
    unfold mainLoop
    show st.currentGridBuffer = (st.currentGridBuffer + 0) % 2
    omega
  | cons inp rest ih =>
    intro st hb
    unfold mainLoop
    by_cases he : st.exitApplication = true
    · rw [if_pos he]
      show st.currentGridBuffer = (st.currentGridBuffer + 0) % 2
      omega
    · rw [if_neg he]
      dsimp only
      have h1 := frameIteration_buffer cfg p st inp hb
      have h2 := ih (frameIteration cfg p st inp).1 (by rw [h1]; exact Nat.mod_lt _ (by decide))
      rw [h2, stepsRecorded_append, h1]
      omega

/-- Claim C15. In the frame loop `currentGridBuffer` starts at 0, it is 0 or 1
after any number of iterations, and it equals `N mod 2` where `N` is the
number of iterations so far that recorded a simulation step, whatever
iterations without a step or dropped iterations lie between them. -/
theorem currentGridBuffer_is_step_parity (cfg : Config) (p : ClockPeriod) (startTime : Int)
    (inputs : List FrameInput) :
    (initialFrameState startTime).currentGridBuffer = 0 ∧
    ((mainLoop cfg p (initialFrameState startTime) inputs).1.currentGridBuffer = 0 ∨
      (mainLoop cfg p (initialFrameState startTime) inputs).1.currentGridBuffer = 1) ∧
    (mainLoop cfg p (initialFrameState startTime) inputs).1.currentGridBuffer =
      stepsRecorded (mainLoop cfg p (initialFrameState startTime) inputs).2 % 2 := by
  have h := mainLoop_buffer cfg p inputs (initialFrameState startTime) (Nat.zero_lt_two)
  have h0 : (initialFrameState startTime).currentGridBuffer = 0 := rfl
  rw [h0, Nat.zero_add] at h
  refine ⟨rfl, ?_, h⟩
  rw [h]
  omega


/-! ## Claims about single iterations -/

/-- Claim C13, as stated, fails. With the configured interval 0 the timer
reports no update at the clock reading of its latest update, and an iteration
at that reading acquires a target, presents it and records no simulation
step. -/
theorem zero_interval_frame_not_due :
    (ComputeUpdateTimer.init CELL_UPDATE_INTERVAL_MS 0).isUpdateNeeded nanoPeriod 0 = false ∧
    ¬ FrameDropped (initialFrameState 0) (quietInput 0) ∧
    Call.queuePresent 0 ∈
      (frameIteration smallConfig nanoPeriod (initialFrameState 0) (quietInput 0)).2 ∧
    stepsRecorded
      (frameIteration smallConfig nanoPeriod (initialFrameState 0) (quietInput 0)).2 = 0 := by
  decide

/-- Claim C13, amended. With the configured interval 0, `isUpdateNeeded`
returns `true` for the clock readings at least one whole millisecond after
`_latestUpdate` and for no other reading from `_latestUpdate` on; an iteration
of the frame loop that acquires a target records a simulation step exactly when
its reading is such a one. -/
theorem zero_interval_due_iff_millisecond_elapsed (cfg : Config) (p : ClockPeriod)
    (hp : 0 < p.den) (st : FrameState) (inp : FrameInput)
    (hI : st.computeUpdateTimer._updateIntervalMs = toI64 CELL_UPDATE_INTERVAL_MS)
    (hl : st.computeUpdateTimer._latestUpdate ≤ inp.checkTime)
    (ha : ¬ FrameDropped st inp) :
    (st.computeUpdateTimer.isUpdateNeeded p inp.checkTime = true ↔
      ElapsedAtLeastMs p st.computeUpdateTimer._latestUpdate inp.checkTime 1) ∧
    (stepsRecorded (frameIteration cfg p st inp).2 = 1 ↔
      ElapsedAtLeastMs p st.computeUpdateTimer._latestUpdate inp.checkTime 1) ∧
    (stepsRecorded (frameIteration cfg p st inp).2 = 0 ↔
      ¬ ElapsedAtLeastMs p st.computeUpdateTimer._latestUpdate inp.checkTime 1) := by
  have h1 : st.computeUpdateTimer.isUpdateNeeded p inp.checkTime = true ↔
      ElapsedAtLeastMs p st.computeUpdateTimer._latestUpdate inp.checkTime 1 := by
    rw [isUpdateNeeded_iff p hp _ _ hl, hI]
    unfold ElapsedAtLeastMs
    exact Iff.rfl
  refine ⟨h1, ?_, ?_⟩
  · rw [stepsRecorded_frameIteration, ← h1]
    by_cases hu : st.computeUpdateTimer.isUpdateNeeded p inp.checkTime = true
    · rw [if_pos ⟨ha, hu⟩]
      exact ⟨fun _ => hu, fun _ => rfl⟩
    · rw [if_neg (fun hc => hu hc.2)]
      exact ⟨fun hc => absurd hc (by decide), fun hc => absurd hc hu⟩
  · rw [stepsRecorded_frameIteration, ← h1]
    by_cases hu : st.computeUpdateTimer.isUpdateNeeded p inp.checkTime = true
    · rw [if_pos ⟨ha, hu⟩]
      exact ⟨fun hc => absurd hc (by decide), fun hc => absurd hu hc⟩
    · rw [if_neg (fun hc => hu hc.2)]
      exact ⟨fun _ => hu, fun _ => rfl⟩

theorem zero_interval_due_iff_millisecond_elapsed_witness :
    ((initialFrameState 0).computeUpdateTimer.isUpdateNeeded nanoPeriod
        (quietInput 1000000).checkTime = true ↔
      ElapsedAtLeastMs nanoPeriod (initialFrameState 0).computeUpdateTimer._latestUpdate
        (quietInput 1000000).checkTime 1) ∧
    (stepsRecorded (frameIteration smallConfig nanoPeriod (initialFrameState 0)
        (quietInput 1000000)).2 = 1 ↔
      ElapsedAtLeastMs nanoPeriod (initialFrameState 0).computeUpdateTimer._latestUpdate
        (quietInput 1000000).checkTime 1) ∧
    (stepsRecorded (frameIteration smallConfig nanoPeriod (initialFrameState 0)
        (quietInput 1000000)).2 = 0 ↔
      ¬ ElapsedAtLeastMs nanoPeriod (initialFrameState 0).computeUpdateTimer._latestUpdate
        (quietInput 1000000).checkTime 1) :=
  zero_interval_due_iff_millisecond_elapsed smallConfig nanoPeriod (by decide)
    (initialFrameState 0) (quietInput 1000000) (by decide) (by decide) (by decide)

/-- Claim C17. In an iteration whose acquisition reports
`VK_ERROR_OUT_OF_DATE_KHR` or `VK_SUBOPTIMAL_KHR`, or in which the resize flag
is set, the flag is cleared, `recreateSwapchain` is called exactly once, and
the calls of the iteration are the fence wait, the acquisition and that
recreation: no fence reset, dispatch, draw, submit or present; the buffer
index and the timer are unchanged. -/
theorem stale_acquisition_drops_frame (cfg : Config) (p : ClockPeriod) (st : FrameState)
    (inp : FrameInput) (h : FrameDropped st inp) :
    (frameIteration cfg p st inp).1.framebufferResized = false ∧
    (frameIteration cfg p st inp).2.count Call.recreateSwapchain = 1 ∧
    (frameIteration cfg p st inp).2 =
      [Call.waitForFences, Call.acquireNextImage, Call.recreateSwapchain] ∧
    (∀ c ∈ (frameIteration cfg p st inp).2,
      c ≠ Call.resetFences ∧ c.isDispatch = false ∧ c.isDraw = false ∧
        c ≠ Call.queueSubmit ∧ c.isPresent = false) ∧
    (frameIteration cfg p st inp).1.currentGridBuffer = st.currentGridBuffer ∧
    (frameIteration cfg p st inp).1.computeUpdateTimer = st.computeUpdateTimer := by
  rw [frameIteration_dropped cfg p st inp h]
  dsimp only
  exact ⟨rfl, by decide, rfl, by decide, rfl, rfl⟩

theorem stale_acquisition_drops_frame_witness :
    FrameDropped (initialFrameState 0) staleInput ∧
    (frameIteration smallConfig nanoPeriod (initialFrameState 0) staleInput).2 =
      [Call.waitForFences, Call.acquireNextImage, Call.recreateSwapchain] :=
  ⟨by decide,
    (stale_acquisition_drops_frame smallConfig nanoPeriod (initialFrameState 0) staleInput
      (by decide)).2.2.1⟩


/-! ## The commands of an iteration that records a step -/

/-- A call that is neither a dispatch, nor a barrier, nor a draw. -/
theorem not_command_iff (c : Call) :
    (!c.isDispatch && !c.isBarrier && !c.isDraw) = true ↔
      c.isDispatch = false ∧ c.isBarrier = false ∧ c.isDraw = false := by
  cases c <;> simp [Call.isDispatch, Call.isBarrier, Call.isDraw]

theorem no_command_beginCommandBuffer (r : VkResult) :
    (beginCommandBuffer r).all (fun c => !c.isDispatch && !c.isBarrier && !c.isDraw) = true := by
  unfold beginCommandBuffer
  by_cases h : r = VK_SUCCESS
  · simp [h, Call.isDispatch, Call.isBarrier, Call.isDraw]
  · simp [h, Call.isDispatch, Call.isBarrier, Call.isDraw]

theorem no_command_submitCommands (r : VkResult) :
    (submitCommands r).all (fun c => !c.isDispatch && !c.isBarrier && !c.isDraw) = true := by
  unfold submitCommands
  by_cases h : r = VK_SUCCESS
  · simp [h, Call.isDispatch, Call.isBarrier, Call.isDraw]
  · simp [h, Call.isDispatch, Call.isBarrier, Call.isDraw]

theorem no_command_recreate (c : Prop) [Decidable c] :
    (if c then [Call.recreateSwapchain] else []).all
      (fun c => !c.isDispatch && !c.isBarrier && !c.isDraw) = true := by
  by_cases h : c
  · simp [h, Call.isDispatch, Call.isBarrier, Call.isDraw]
  · simp [h]

theorem no_command_logVkError (r : VkResult) :
    (if r ≠ VK_SUCCESS then [Call.logVkError r] else []).all
      (fun c => !c.isDispatch && !c.isBarrier && !c.isDraw) = true := by
  by_cases h : r = VK_SUCCESS
  · simp [h]
  · simp [h, Call.isDispatch, Call.isBarrier, Call.isDraw]

theorem barrier_size (cfg : Config) (hs : cfg.staticAsserts) :
    u32mul cfg.GRID_SIZE 4 = 4 * cfg.GRID_SIZE := by
  have h := hs.2.1
  unfold UINT32_MAX at h
  unfold u32mul U32
  omega

theorem descriptorSets_of_lt_two {a : Nat} (h : a < 2) :
    computeDescriptorSets[a]? = some ⟨a, 1 - a⟩ ∧ a ≠ 1 - a ∧
      graphicsDescriptorSets[1 - a]? = some (1 - a) := by
  have h2 : a = 0 ∨ a = 1 := by omega
  rcases h2 with h2 | h2
  · subst h2; decide
  · subst h2; decide

/-- Claim C16. In an iteration of the frame loop that records a simulation
step with active index `a`, the calls contain, in this order and next to each
other, the dispatch with descriptor set `a`, one buffer barrier for the whole
of cell buffer `1 - a`, and the draw with descriptor set `1 - a`; there is no
other dispatch, barrier or draw in the iteration. Compute descriptor set `a`
reads cell buffer `a` and writes cell buffer `1 - a`, a different buffer, and
graphics descriptor set `1 - a` reads cell buffer `1 - a`. -/
theorem step_records_dispatch_barrier_draw (cfg : Config) (hs : cfg.staticAsserts)
    (p : ClockPeriod) (startTime : Int) (inputs : List FrameInput) (st : FrameState)
    (hst : st = (mainLoop cfg p (initialFrameState startTime) inputs).1) (inp : FrameInput)
    (hstep : 0 < stepsRecorded (frameIteration cfg p st inp).2) :
    ∃ (a : Nat) (pre post : List Call),
      a = st.currentGridBuffer ∧ a < 2 ∧
      (frameIteration cfg p st inp).2 =
        pre ++ [Call.cmdDispatch a a (toI32 inp.random) cfg.X_DISPATCH_COUNT,
                Call.cmdPipelineBarrier (1 - a) 0 (4 * cfg.GRID_SIZE),
                Call.cmdDraw (1 - a) inp.imageIndex] ++ post ∧
      (∀ c ∈ pre ++ post, c.isDispatch = false ∧ c.isBarrier = false ∧ c.isDraw = false) ∧
      computeDescriptorSets[a]? = some ⟨a, 1 - a⟩ ∧ a ≠ 1 - a ∧
      graphicsDescriptorSets[1 - a]? = some (1 - a) := by
  have hb : st.currentGridBuffer < 2 := by
    rw [hst, mainLoop_buffer cfg p inputs (initialFrameState startTime) Nat.zero_lt_two]
    exact Nat.mod_lt _ (by decide)
  rw [stepsRecorded_frameIteration] at hstep
  have hc : ¬ FrameDropped st inp ∧
      st.computeUpdateTimer.isUpdateNeeded p inp.checkTime = true := by
    by_contra hn
    rw [if_neg hn] at hstep
    exact absurd hstep (by decide)
  refine ⟨st.currentGridBuffer,
    [Call.waitForFences, Call.acquireNextImage, Call.resetFences, Call.resetCommandBuffer] ++
      beginCommandBuffer inp.beginResult,
    [Call.endCommandBuffer] ++
      (if inp.endResult ≠ VK_SUCCESS then [Call.logVkError inp.endResult] else []) ++
      submitCommands inp.submitResult ++ [Call.queuePresent inp.imageIndex] ++
      (if inp.presentResult = VK_ERROR_OUT_OF_DATE_KHR ∨
          inp.presentResult = VK_SUBOPTIMAL_KHR then [Call.recreateSwapchain] else []),
    rfl, hb, ?_, ?_, descriptorSets_of_lt_two hb⟩
  · rw [frameIteration_step cfg p st inp hc.1 hc.2]
    dsimp only
    unfold recordComputeCommands addMemoryBarrier recordDrawCommands
    dsimp only
    rw [(logicalNot_of_lt_two hb).1, barrier_size cfg hs,
      Nat.mod_eq_of_lt (show st.currentGridBuffer < U32 by unfold U32; omega)]
    simp only [List.append_assoc, List.cons_append, List.nil_append]
  · intro c hmem
    rw [← not_command_iff]
    have hall : ( ([Call.waitForFences, Call.acquireNextImage, Call.resetFences,
          Call.resetCommandBuffer] ++ beginCommandBuffer inp.beginResult) ++
        ([Call.endCommandBuffer] ++
          (if inp.endResult ≠ VK_SUCCESS then [Call.logVkError inp.endResult] else []) ++
          submitCommands inp.submitResult ++ [Call.queuePresent inp.imageIndex] ++
          (if inp.presentResult = VK_ERROR_OUT_OF_DATE_KHR ∨
              inp.presentResult = VK_SUBOPTIMAL_KHR then [Call.recreateSwapchain] else []))).all
        (fun c => !c.isDispatch && !c.isBarrier && !c.isDraw) = true := by
      simp only [List.all_append, no_command_beginCommandBuffer, no_command_submitCommands,
        no_command_recreate, no_command_logVkError, Bool.and_true]
      rfl
    exact List.all_eq_true.1 hall c hmem

theorem step_records_dispatch_barrier_draw_witness :
    0 < stepsRecorded
      (frameIteration smallConfig nanoPeriod (initialFrameState 0) (quietInput 1000000)).2 ∧
    ∃ (a : Nat) (pre post : List Call),
      a = (initialFrameState 0).currentGridBuffer ∧ a < 2 ∧
      (frameIteration smallConfig nanoPeriod (initialFrameState 0) (quietInput 1000000)).2 =
        pre ++ [Call.cmdDispatch a a (toI32 (quietInput 1000000).random)
                  smallConfig.X_DISPATCH_COUNT,
                Call.cmdPipelineBarrier (1 - a) 0 (4 * smallConfig.GRID_SIZE),
                Call.cmdDraw (1 - a) (quietInput 1000000).imageIndex] ++ post ∧
      (∀ c ∈ pre ++ post, c.isDispatch = false ∧ c.isBarrier = false ∧ c.isDraw = false) ∧
      computeDescriptorSets[a]? = some ⟨a, 1 - a⟩ ∧ a ≠ 1 - a ∧
      graphicsDescriptorSets[1 - a]? = some (1 - a) :=
  ⟨by decide,
    step_records_dispatch_barrier_draw smallConfig (by decide) nanoPeriod 0 []
      (initialFrameState 0) rfl (quietInput 1000000) (by decide)⟩


/-! ## Results that the frame loop does not act on -/

/-- The calls of an iteration that is not dropped: the fence reset, one
submission and the presentation are among them. -/
theorem frameIteration_presents (cfg : Config) (p : ClockPeriod) (st : FrameState)
    (inp : FrameInput) (h : ¬ FrameDropped st inp) :
    Call.resetFences ∈ (frameIteration cfg p st inp).2 ∧
    Call.queueSubmit ∈ (frameIteration cfg p st inp).2 ∧
    Call.queuePresent inp.imageIndex ∈ (frameIteration cfg p st inp).2 := by
  have hs : Call.queueSubmit ∈ submitCommands inp.submitResult := by
    unfold submitCommands
    exact List.mem_cons_self _ _
  by_cases hu : st.computeUpdateTimer.isUpdateNeeded p inp.checkTime = true
  · rw [frameIteration_step cfg p st inp h hu]
    dsimp only
    simp only [List.mem_append, List.mem_cons, List.mem_singleton, hs, true_or, or_true,
      and_self]
  · rw [frameIteration_idle cfg p st inp h (Bool.eq_false_iff.2 hu)]
    dsimp only
    simp only [List.mem_append, List.mem_cons, List.mem_singleton, hs, true_or, or_true,
      and_self]

/-- The acquisition result is read only in the test for a stale surface. -/
theorem frameIteration_acquireResult (cfg : Config) (p : ClockPeriod) (st : FrameState)
    (inp : FrameInput) (h : ¬ FrameDropped st inp) :
    frameIteration cfg p st inp =
      frameIteration cfg p st { inp with acquireResult := VK_SUCCESS } := by
  have h2 : ¬ FrameDropped st { inp with acquireResult := VK_SUCCESS } := by
    intro hc
    apply h
    unfold FrameDropped at hc ⊢
    rcases hc with hc | hc | hc
    · exact absurd (show VK_SUCCESS = VK_ERROR_OUT_OF_DATE_KHR from hc) (by decide)
    · exact absurd (show VK_SUCCESS = VK_SUBOPTIMAL_KHR from hc) (by decide)
    · exact Or.inr (Or.inr hc)
  by_cases hu : st.computeUpdateTimer.isUpdateNeeded p inp.checkTime = true
  · rw [frameIteration_step cfg p st inp h hu,
      frameIteration_step cfg p st { inp with acquireResult := VK_SUCCESS } h2 hu]
  · rw [frameIteration_idle cfg p st inp h (Bool.eq_false_iff.2 hu),
      frameIteration_idle cfg p st { inp with acquireResult := VK_SUCCESS } h2
        (Bool.eq_false_iff.2 hu)]

/-- Claim C18, as stated, fails. The first of two iterations acquires with the
result `VK_ERROR_DEVICE_LOST`: the fences are reset, the commands recorded,
submitted and presented as after a successful acquisition, and the loop goes
on with the second iteration. -/
theorem fatal_acquisition_does_not_abort :
    deviceLostInput.acquireResult = VK_ERROR_DEVICE_LOST ∧
    (mainLoop smallConfig nanoPeriod (initialFrameState 0)
        [deviceLostInput, quietInput 2000000]).2 =
      [Call.waitForFences, Call.acquireNextImage, Call.resetFences, Call.resetCommandBuffer,
       Call.beginCommandBuffer, Call.cmdDispatch 0 0 12345 1, Call.cmdPipelineBarrier 1 0 256,
       Call.cmdDraw 1 0, Call.endCommandBuffer, Call.queueSubmit, Call.queuePresent 0,
       Call.waitForFences, Call.acquireNextImage, Call.resetFences, Call.resetCommandBuffer,
       Call.beginCommandBuffer, Call.cmdDispatch 1 1 12345 1, Call.cmdPipelineBarrier 0 0 256,
       Call.cmdDraw 0 0, Call.endCommandBuffer, Call.queueSubmit, Call.queuePresent 0] := by
  decide

/-- Claim C18, amended. When the acquisition returns a result other than
`VK_ERROR_OUT_OF_DATE_KHR` and `VK_SUBOPTIMAL_KHR`, a fatal one such as
`VK_ERROR_DEVICE_LOST` included, and the resize flag is not set, the iteration
is the one of a successful acquisition: the fences are reset, the commands are
submitted and presented, and the loop goes on with the next iteration unless
the exit flag has been set. -/
theorem fatal_acquisition_handled_as_success (cfg : Config) (p : ClockPeriod)
    (st : FrameState) (inp : FrameInput) (rest : List FrameInput)
    (h1 : inp.acquireResult ≠ VK_ERROR_OUT_OF_DATE_KHR)
    (h2 : inp.acquireResult ≠ VK_SUBOPTIMAL_KHR)
    (h3 : st.framebufferResized = false) (h4 : inp.resizeRequested = false)
    (h5 : st.exitApplication = false) :
    frameIteration cfg p st inp =
      frameIteration cfg p st { inp with acquireResult := VK_SUCCESS } ∧
    Call.resetFences ∈ (frameIteration cfg p st inp).2 ∧
    Call.queueSubmit ∈ (frameIteration cfg p st inp).2 ∧
    Call.queuePresent inp.imageIndex ∈ (frameIteration cfg p st inp).2 ∧
    (frameIteration cfg p st inp).1.exitApplication = inp.exitRequested ∧
    mainLoop cfg p st (inp :: rest) =
      ((mainLoop cfg p (frameIteration cfg p st inp).1 rest).1,
        (frameIteration cfg p st inp).2 ++
          (mainLoop cfg p (frameIteration cfg p st inp).1 rest).2) := by
  have hd : ¬ FrameDropped st inp := by
    unfold FrameDropped
    rw [h3, h4]
    intro hc
    rcases hc with hc | hc | hc | hc
    · exact h1 hc
    · exact h2 hc
    · exact Bool.noConfusion hc
    · exact Bool.noConfusion hc
  have hp := frameIteration_presents cfg p st inp hd
  refine ⟨frameIteration_acquireResult cfg p st inp hd, hp.1, hp.2.1, hp.2.2, ?_, ?_⟩
  · by_cases hu : st.computeUpdateTimer.isUpdateNeeded p inp.checkTime = true
    · rw [frameIteration_step cfg p st inp hd hu]
      dsimp only
      rw [h5, Bool.false_or]
    · rw [frameIteration_idle cfg p st inp hd (Bool.eq_false_iff.2 hu)]
      dsimp only
      rw [h5, Bool.false_or]
  · have hm : mainLoop cfg p st (inp :: rest) =
        if st.exitApplication then (st, [])
        else ((mainLoop cfg p (frameIteration cfg p st inp).1 rest).1,
          (frameIteration cfg p st inp).2 ++
            (mainLoop cfg p (frameIteration cfg p st inp).1 rest).2) := rfl
    rw [hm, h5]
    rfl

theorem fatal_acquisition_handled_as_success_witness :
    deviceLostInput.acquireResult ≠ VK_ERROR_OUT_OF_DATE_KHR ∧
    deviceLostInput.acquireResult ≠ VK_SUBOPTIMAL_KHR ∧
    Call.queuePresent deviceLostInput.imageIndex ∈
      (frameIteration smallConfig nanoPeriod (initialFrameState 0) deviceLostInput).2 :=
  ⟨by decide, by decide,
    (fatal_acquisition_handled_as_success smallConfig nanoPeriod (initialFrameState 0)
      deviceLostInput [] (by decide) (by decide) rfl rfl rfl).2.2.2.1⟩


/-! ## Construction of the Vulkan context -/

/-- A checked sequence reaches its end exactly when every check passes. -/
theorem runInitSteps_ok (l : List (List InitStep × Bool)) :
    (runInitSteps l).2 = true ↔ ∀ s ∈ l, s.2 = true := by
  induction l with
  | nil =>
    unfold runInitSteps
    simp
  | cons s rest ih =>
    obtain ⟨calls, ok⟩ := s
    unfold runInitSteps
    cases ok
    · simp
    · simp [ih]

/-- A checked sequence makes no call after the first check that fails. -/
theorem runInitSteps_stops (l1 l2 : List (List InitStep × Bool)) (calls : List InitStep)
    (h : ∀ s ∈ l1, s.2 = true) :
    runInitSteps (l1 ++ (calls, false) :: l2) =
      ((l1.map fun s => s.1).flatten ++ calls, false) := by
  induction l1 with
  | nil =>
    unfold runInitSteps
    simp
  | cons s rest ih =>
    obtain ⟨c, ok⟩ := s
    have hok : ok = true := h (c, ok) (List.mem_cons_self _ _)
    subst hok
    have ih2 := ih (fun s hs => h s (List.mem_cons_of_mem _ hs))
    rw [List.cons_append]
    unfold runInitSteps
    rw [ih2]
    simp

/-- The status of the context is `true` exactly when every call whose result
the constructor and `createDeviceLocalBuffer` check has succeeded; the result
of `copyBuffer` is not among them. -/
theorem operatorBool_init_iff (o : InitOutcome) :
    (VulkanContext.init o).operatorBool = true ↔
      o.createInstance = true ∧
      (o.VALIDATION_LAYERS = true → o.createDebugReportCallback = true) ∧
      o.createWindowSurface = true ∧ o.createDevice = true ∧ o.createSwapchain = true ∧
      o.createCommandPool = true ∧ o.createCommandBuffer = true ∧
      ((o.deviceLocalBuffer 0).stagingBuffer = true ∧
        (o.deviceLocalBuffer 0).localBuffer = true) ∧
      ((o.deviceLocalBuffer 1).stagingBuffer = true ∧
        (o.deviceLocalBuffer 1).localBuffer = true) ∧
      o.createBufferViews = true ∧ o.createComputePipeline = true ∧
      o.createGraphicsPipeline = true ∧ o.imageAvailableSemaphore = true ∧
      o.renderingFinishedSemaphore = true ∧ o.inFlightFence = true := by
  unfold VulkanContext.operatorBool VulkanContext.init
  dsimp only
  rw [runInitSteps_ok]
  have hbuf : ∀ d : DeviceLocalBufferOutcome, ∀ i : Nat,
      (createDeviceLocalBuffer d i).2 = true ↔ d.stagingBuffer = true ∧ d.localBuffer = true := by
    intro d i
    unfold createDeviceLocalBuffer
    cases d.stagingBuffer <;> cases d.localBuffer <;> simp
  cases o.VALIDATION_LAYERS <;>
    simp [hbuf, BUFFERS_PER_COMPUTE, List.range_succ]

/-- Claim C20. When `copyBuffer` fails for cell buffer 0 and every other call
succeeds, `createDeviceLocalBuffer` returns the buffer all the same, the
constructor runs every later creation step, the same calls as in a
construction without any failure, and `operator bool` returns `true`. -/
theorem copyBuffer_failure_is_not_reported :
    (copyFails.deviceLocalBuffer 0).copyBuffer = false ∧
    (VulkanContext.init copyFails).operatorBool = true ∧
    (VulkanContext.init copyFails).calls =
      [InitStep.createInstance, InitStep.createWindowSurface, InitStep.createDevice,
       InitStep.createSwapchain, InitStep.createCommandPool, InitStep.createCommandBuffer,
       InitStep.createStagingBuffer 0, InitStep.createLocalBuffer 0, InitStep.copyBuffer 0,
       InitStep.createStagingBuffer 1, InitStep.createLocalBuffer 1, InitStep.copyBuffer 1,
       InitStep.createBufferViews, InitStep.createComputePipeline,
       InitStep.createGraphicsPipeline, InitStep.createImageAvailableSemaphore,
       InitStep.createRenderingFinishedSemaphore, InitStep.createInFlightFence] ∧
    (VulkanContext.init copyFails).calls = (VulkanContext.init allSucceed).calls := by
  decide


/-! ## Height, neck and symmetry of the configured hourglass -/

/-- Claim C25. In the grid returned by `generateHourglass` for the configured
constants (`HOURGLASS_CENTER_WIDTH = 4`, `HOURGLASS_WIDTH = 300`) the two centre
rows 512 and 513 have their side walls in the columns 506 to 509 and 516 to 519
and six columns, 510 to 515, between them; and the row pair of iteration 296
(rows 216 and 809) has 302 columns, 362 to 663, between its side walls, which
end at the columns 361 and begin at 664. -/
theorem hourglass_interior_wider_than_configured :
    defaultConfig.HOURGLASS_CENTER_WIDTH = 4 ∧ defaultConfig.HOURGLASS_WIDTH = 300 ∧
    defaultConfig.widthAt 0 = 4 ∧ defaultConfig.widthAt 296 = 300 ∧
    ∃ g, generateHourglass defaultConfig = some g ∧
      (∀ x, 506 ≤ x → x ≤ 519 →
        (g[x + 1024 * 512]? = some WALL_VALUE ↔ x < 510 ∨ 515 < x) ∧
        (g[x + 1024 * 513]? = some WALL_VALUE ↔ x < 510 ∨ 515 < x)) ∧
      (∀ x, 358 ≤ x → x ≤ 667 →
        (g[x + 1024 * 216]? = some WALL_VALUE ↔ x < 362 ∨ 663 < x) ∧
        (g[x + 1024 * 809]? = some WALL_VALUE ↔ x < 362 ∨ 663 < x)) := by
  obtain ⟨g, hg, -, c⟩ := generateHourglass_default
  refine ⟨rfl, rfl, widthAt_default 0, ?_, g, hg, fun x h1 h2 => ?_, fun x h1 h2 => ?_⟩
  · rw [widthAt_default]
    decide
  · obtain ⟨e1, e2⟩ := hourglassCell_default_pair (i := 0) (x := x) (by decide)
    have e1a : hourglassCell defaultConfig x 512 = _ := e1
    have e2a : hourglassCell defaultConfig x 513 = _ := e2
    rw [c x 512 (by omega) (by decide), c x 513 (by omega) (by decide), e1a, e2a]
    unfold WALL_VALUE
    constructor
    · split_ifs <;> simp <;> omega
    · split_ifs <;> simp <;> omega
  · obtain ⟨e1, e2⟩ := hourglassCell_default_pair (i := 296) (x := x) (by decide)
    have e1a : hourglassCell defaultConfig x 216 = _ := e1
    have e2a : hourglassCell defaultConfig x 809 = _ := e2
    rw [c x 216 (by omega) (by decide), c x 809 (by omega) (by decide), e1a, e2a]
    unfold WALL_VALUE
    constructor
    · split_ifs <;> simp <;> omega
    · split_ifs <;> simp <;> omega

/-- Claim C29. With the configured parameters every row of the grid returned by
`generateHourglass` is symmetric about the axis between the columns `W / 2` and
`W / 2 + 1`: for every row `y` and every column `x` with `2 ≤ x ≤ W - 1` the
cell `(x, y)` equals the cell `(W + 1 - x, y)`, and the columns 0 and 1 are
Air. -/
theorem hourglass_rows_symmetric :
    ∃ g, generateHourglass defaultConfig = some g ∧
      defaultConfig.leftCenterColumn = defaultConfig.GRID_WIDTH / 2 ∧
      defaultConfig.rightCenterColumn = defaultConfig.GRID_WIDTH / 2 + 1 ∧
      ∀ y, y < defaultConfig.GRID_HEIGHT →
        (∀ x, 2 ≤ x → x ≤ defaultConfig.GRID_WIDTH - 1 →
          g[x + defaultConfig.GRID_WIDTH * y]? =
            g[(defaultConfig.GRID_WIDTH + 1 - x) + defaultConfig.GRID_WIDTH * y]?) ∧
        g[0 + defaultConfig.GRID_WIDTH * y]? = some AIR_VALUE ∧
        g[1 + defaultConfig.GRID_WIDTH * y]? = some AIR_VALUE := by
  obtain ⟨g, hg, -, c⟩ := generateHourglass_default
  refine ⟨g, hg, by decide, by decide, fun y hy => ?_⟩
  have hy1 : y < 1024 := hy
  show (∀ x, 2 ≤ x → x ≤ 1024 - 1 → g[x + 1024 * y]? = g[(1024 + 1 - x) + 1024 * y]?) ∧
    g[0 + 1024 * y]? = some AIR_VALUE ∧ g[1 + 1024 * y]? = some AIR_VALUE
  refine ⟨fun x h1 h2 => ?_, ?_, ?_⟩
  · rw [c x y (by omega) hy1, c (1024 + 1 - x) y (by omega) hy1]
    rw [hourglassCell_default_mirror y (show x + (1024 + 1 - x) = 1025 by omega)]
  · rw [c 0 y (by decide) hy1, hourglassCell_default_left y (by decide)]
  · rw [c 1 y (by decide) hy1, hourglassCell_default_left y (by decide)]


/-! ## Exit of the frame loop and iterations without a step -/

/-- The idle-wait of `main` is no call of an iteration. -/
theorem deviceWaitIdle_not_mem_frameIteration (cfg : Config) (p : ClockPeriod)
    (st : FrameState) (inp : FrameInput) :
    Call.deviceWaitIdle ∉ (frameIteration cfg p st inp).2 := by
  have hsub : Call.deviceWaitIdle ∉ submitCommands inp.submitResult := by
    unfold submitCommands
    by_cases h : inp.submitResult = VK_SUCCESS
    · simp [h]
    · simp [h]
  have hbegin : Call.deviceWaitIdle ∉ beginCommandBuffer inp.beginResult := by
    unfold beginCommandBuffer
    by_cases h : inp.beginResult = VK_SUCCESS
    · simp [h]
    · simp [h]
  have hdraw : ∀ a : Nat,
      Call.deviceWaitIdle ∉ recordDrawCommands a inp.imageIndex inp.endResult := by
    intro a
    unfold recordDrawCommands
    by_cases h : inp.endResult = VK_SUCCESS
    · simp [h]
    · simp [h]
  have hpost : Call.deviceWaitIdle ∉
      (if inp.presentResult = VK_ERROR_OUT_OF_DATE_KHR ∨
        inp.presentResult = VK_SUBOPTIMAL_KHR then [Call.recreateSwapchain] else []) := by
    by_cases h : inp.presentResult = VK_ERROR_OUT_OF_DATE_KHR ∨
        inp.presentResult = VK_SUBOPTIMAL_KHR
    · rw [if_pos h]; decide
    · rw [if_neg h]; exact List.not_mem_nil _
  by_cases hd : FrameDropped st inp
  · rw [frameIteration_dropped cfg p st inp hd]
    dsimp only
    decide
  · by_cases hu : st.computeUpdateTimer.isUpdateNeeded p inp.checkTime = true
    · rw [frameIteration_step cfg p st inp hd hu]
      have := hdraw (logicalNot st.currentGridBuffer)
      simp [hsub, hbegin, this, hpost, recordComputeCommands, addMemoryBarrier]
    · rw [frameIteration_idle cfg p st inp hd (Bool.eq_false_iff.2 hu)]
      have := hdraw st.currentGridBuffer
      simp [hsub, hbegin, this, hpost]

theorem deviceWaitIdle_not_mem_mainLoop (cfg : Config) (p : ClockPeriod)
    (inputs : List FrameInput) :
    ∀ st : FrameState, Call.deviceWaitIdle ∉ (mainLoop cfg p st inputs).2 := by
  induction inputs with
  | nil =>
    intro st
    unfold mainLoop
    exact List.not_mem_nil _
  | cons inp rest ih =>
    intro st
    unfold mainLoop
    by_cases he : st.exitApplication = true
    · rw [if_pos he]
      exact List.not_mem_nil _
    · rw [if_neg he]
      dsimp only
      intro hc
      rcases List.mem_append.1 hc with h | h
      · exact deviceWaitIdle_not_mem_frameIteration cfg p st inp h
      · exact ih _ h

/-- The calls of an iteration do not depend on a request to exit made during
its event poll. -/
theorem frameIteration_calls_ignore_exit (cfg : Config) (p : ClockPeriod) (st : FrameState)
    (inp : FrameInput) (e : Bool) :
    (frameIteration cfg p st { inp with exitRequested := e }).2 =
      (frameIteration cfg p st inp).2 := by
  have hiff : FrameDropped st { inp with exitRequested := e } ↔ FrameDropped st inp := Iff.rfl
  by_cases h : FrameDropped st inp
  · rw [frameIteration_dropped cfg p st inp h, frameIteration_dropped cfg p st _ (hiff.2 h)]
  · have h2 : ¬ FrameDropped st { inp with exitRequested := e } := fun hc => h (hiff.1 hc)
    by_cases hu : st.computeUpdateTimer.isUpdateNeeded p inp.checkTime = true
    · rw [frameIteration_step cfg p st inp h hu, frameIteration_step cfg p st _ h2 hu]
    · rw [frameIteration_idle cfg p st inp h (Bool.eq_false_iff.2 hu),
        frameIteration_idle cfg p st _ h2 (Bool.eq_false_iff.2 hu)]

/-- The exit flag after an iteration. -/
theorem frameIteration_exitApplication (cfg : Config) (p : ClockPeriod) (st : FrameState)
    (inp : FrameInput) :
    (frameIteration cfg p st inp).1.exitApplication =
      (st.exitApplication || inp.exitRequested) := by
  by_cases h : FrameDropped st inp
  · rw [frameIteration_dropped cfg p st inp h]
  · by_cases hu : st.computeUpdateTimer.isUpdateNeeded p inp.checkTime = true
    · rw [frameIteration_step cfg p st inp h hu]
    · rw [frameIteration_idle cfg p st inp h (Bool.eq_false_iff.2 hu)]

theorem mainLoop_cons (cfg : Config) (p : ClockPeriod) (st : FrameState) (inp : FrameInput)
    (rest : List FrameInput) :
    mainLoop cfg p st (inp :: rest) =
      if st.exitApplication then (st, [])
      else ((mainLoop cfg p (frameIteration cfg p st inp).1 rest).1,
        (frameIteration cfg p st inp).2 ++
          (mainLoop cfg p (frameIteration cfg p st inp).1 rest).2) := rfl

theorem mainLoop_exit (cfg : Config) (p : ClockPeriod) (st : FrameState)
    (h : st.exitApplication = true) (inputs : List FrameInput) :
    mainLoop cfg p st inputs = (st, []) := by
  cases inputs with
  | nil => rfl
  | cons inp rest => rw [mainLoop_cons, if_pos h]

/-- The timer after an iteration: `notifyUpdateScheduled` has run exactly when
a dispatch was recorded. -/
theorem frameIteration_timer (cfg : Config) (p : ClockPeriod) (st : FrameState)
    (inp : FrameInput) :
    (stepsRecorded (frameIteration cfg p st inp).2 = 1 ∧
      (frameIteration cfg p st inp).1.computeUpdateTimer =
        st.computeUpdateTimer.notifyUpdateScheduled inp.notifyTime) ∨
    (stepsRecorded (frameIteration cfg p st inp).2 = 0 ∧
      (frameIteration cfg p st inp).1.computeUpdateTimer = st.computeUpdateTimer) := by
  rw [stepsRecorded_frameIteration]
  by_cases h : FrameDropped st inp
  · have hif : (if ¬ FrameDropped st inp ∧
        st.computeUpdateTimer.isUpdateNeeded p inp.checkTime = true then 1 else 0) = 0 :=
      if_neg (fun hc => hc.1 h)
    rw [hif, frameIteration_dropped cfg p st inp h]
    exact Or.inr ⟨rfl, rfl⟩
  · by_cases hu : st.computeUpdateTimer.isUpdateNeeded p inp.checkTime = true
    · have hif : (if ¬ FrameDropped st inp ∧
          st.computeUpdateTimer.isUpdateNeeded p inp.checkTime = true then 1 else 0) = 1 :=
        if_pos ⟨h, hu⟩
      rw [hif, frameIteration_step cfg p st inp h hu]
      exact Or.inl ⟨rfl, rfl⟩
    · have hif : (if ¬ FrameDropped st inp ∧
          st.computeUpdateTimer.isUpdateNeeded p inp.checkTime = true then 1 else 0) = 0 :=
        if_neg (fun hc => hu hc.2)
      rw [hif, frameIteration_idle cfg p st inp h (Bool.eq_false_iff.2 hu)]
      exact Or.inr ⟨rfl, rfl⟩

/-- Claim C26. In an iteration of the frame loop that acquires a target while
`isUpdateNeeded` is `false`, the calls hold no dispatch and no barrier and
exactly one draw, the one with descriptor set `currentGridBuffer`, which reads
cell buffer `currentGridBuffer`; `currentGridBuffer` and the timer, so its
`_latestUpdate`, are unchanged. In every iteration the timer is the one after
`notifyUpdateScheduled` if a dispatch is recorded, and is unchanged if none
is. -/
theorem idle_iteration_keeps_buffer_and_timer (cfg : Config) (p : ClockPeriod)
    (st : FrameState) (inp : FrameInput) (hb : st.currentGridBuffer < 2)
    (hd : ¬ FrameDropped st inp)
    (hu : st.computeUpdateTimer.isUpdateNeeded p inp.checkTime = false) :
    (∀ c ∈ (frameIteration cfg p st inp).2, c.isDispatch = false ∧ c.isBarrier = false) ∧
    (∃ pre post : List Call,
      (frameIteration cfg p st inp).2 =
        pre ++ [Call.cmdDraw st.currentGridBuffer inp.imageIndex] ++ post ∧
      ∀ c ∈ pre ++ post, c.isDraw = false) ∧
    graphicsDescriptorSets[st.currentGridBuffer]? = some st.currentGridBuffer ∧
    (frameIteration cfg p st inp).1.currentGridBuffer = st.currentGridBuffer ∧
    (frameIteration cfg p st inp).1.computeUpdateTimer = st.computeUpdateTimer ∧
    (frameIteration cfg p st inp).1.computeUpdateTimer._latestUpdate =
      st.computeUpdateTimer._latestUpdate ∧
    (∀ (st2 : FrameState) (inp2 : FrameInput),
      (stepsRecorded (frameIteration cfg p st2 inp2).2 = 1 ∧
        (frameIteration cfg p st2 inp2).1.computeUpdateTimer =
          st2.computeUpdateTimer.notifyUpdateScheduled inp2.notifyTime) ∨
      (stepsRecorded (frameIteration cfg p st2 inp2).2 = 0 ∧
        (frameIteration cfg p st2 inp2).1.computeUpdateTimer = st2.computeUpdateTimer)) := by
  have hall : (([Call.waitForFences, Call.acquireNextImage, Call.resetFences,
        Call.resetCommandBuffer] ++ beginCommandBuffer inp.beginResult) ++
      ([Call.endCommandBuffer] ++
        (if inp.endResult ≠ VK_SUCCESS then [Call.logVkError inp.endResult] else []) ++
        submitCommands inp.submitResult ++ [Call.queuePresent inp.imageIndex] ++
        (if inp.presentResult = VK_ERROR_OUT_OF_DATE_KHR ∨
            inp.presentResult = VK_SUBOPTIMAL_KHR then [Call.recreateSwapchain] else []))).all
      (fun c => !c.isDispatch && !c.isBarrier && !c.isDraw) = true := by
    simp only [List.all_append, no_command_beginCommandBuffer, no_command_submitCommands,
      no_command_recreate, no_command_logVkError, Bool.and_true]
    rfl
  have hcalls : (frameIteration cfg p st inp).2 =
      ([Call.waitForFences, Call.acquireNextImage, Call.resetFences,
        Call.resetCommandBuffer] ++ beginCommandBuffer inp.beginResult) ++
      [Call.cmdDraw st.currentGridBuffer inp.imageIndex] ++
      ([Call.endCommandBuffer] ++
        (if inp.endResult ≠ VK_SUCCESS then [Call.logVkError inp.endResult] else []) ++
        submitCommands inp.submitResult ++ [Call.queuePresent inp.imageIndex] ++
        (if inp.presentResult = VK_ERROR_OUT_OF_DATE_KHR ∨
            inp.presentResult = VK_SUBOPTIMAL_KHR then [Call.recreateSwapchain] else [])) := by
    rw [frameIteration_idle cfg p st inp hd hu]
    dsimp only
    unfold recordDrawCommands
    simp only [List.append_assoc, List.cons_append, List.nil_append]
  have hrest : ∀ c ∈ ([Call.waitForFences, Call.acquireNextImage, Call.resetFences,
        Call.resetCommandBuffer] ++ beginCommandBuffer inp.beginResult) ++
      ([Call.endCommandBuffer] ++
        (if inp.endResult ≠ VK_SUCCESS then [Call.logVkError inp.endResult] else []) ++
        submitCommands inp.submitResult ++ [Call.queuePresent inp.imageIndex] ++
        (if inp.presentResult = VK_ERROR_OUT_OF_DATE_KHR ∨
            inp.presentResult = VK_SUBOPTIMAL_KHR then [Call.recreateSwapchain] else [])),
      c.isDispatch = false ∧ c.isBarrier = false ∧ c.isDraw = false :=
    fun c hc => (not_command_iff c).1 (List.all_eq_true.1 hall c hc)
  have hstate : (frameIteration cfg p st inp).1.currentGridBuffer = st.currentGridBuffer ∧
      (frameIteration cfg p st inp).1.computeUpdateTimer = st.computeUpdateTimer := by
    rw [frameIteration_idle cfg p st inp hd hu]
    exact ⟨rfl, rfl⟩
  refine ⟨fun c hc => ?_, ⟨_, _, hcalls, fun c hc => (hrest c hc).2.2⟩, ?_, hstate.1, hstate.2,
    by rw [hstate.2], fun st2 inp2 => frameIteration_timer cfg p st2 inp2⟩
  · rw [hcalls] at hc
    rcases List.mem_append.1 hc with h | h
    · rcases List.mem_append.1 h with h1 | h1
      · have := hrest c (List.mem_append_left _ h1)
        exact ⟨this.1, this.2.1⟩
      · rw [List.mem_singleton] at h1
        subst h1
        exact ⟨rfl, rfl⟩
    · have := hrest c (List.mem_append_right _ h)
      exact ⟨this.1, this.2.1⟩
  · have h2 : st.currentGridBuffer = 0 ∨ st.currentGridBuffer = 1 := by omega
    rcases h2 with h2 | h2
    · rw [h2]; decide
    · rw [h2]; decide

theorem idle_iteration_keeps_buffer_and_timer_witness :
    ((initialFrameState 0).currentGridBuffer < 2 ∧
      ¬ FrameDropped (initialFrameState 0) (quietInput 0) ∧
      (initialFrameState 0).computeUpdateTimer.isUpdateNeeded nanoPeriod
        (quietInput 0).checkTime = false) ∧
    (frameIteration smallConfig nanoPeriod (initialFrameState 0) (quietInput 0)).1.currentGridBuffer
      = (initialFrameState 0).currentGridBuffer :=
  ⟨⟨by decide, by decide, by decide⟩,
    (idle_iteration_keeps_buffer_and_timer smallConfig nanoPeriod (initialFrameState 0)
      (quietInput 0) (by decide) (by decide) (by decide)).2.2.2.1⟩

/-! ## The in-flight fence -/

/-- Claim C27. An iteration whose queue submission is refused resets the fence
and leaves it unsignaled with no accepted submission; the wait of the next
iteration, with its unbounded timeout, can then never return. -/
theorem refused_submission_leaves_fence_reset :
    submitRefusedInput.submitResult ≠ VK_SUCCESS ∧
    ¬ FrameDropped (initialFrameState 0) submitRefusedInput ∧
    fenceAfter FenceState.signaled
        (frameIteration smallConfig nanoPeriod (initialFrameState 0) submitRefusedInput).2 =
      some FenceState.unsignaled ∧
    fenceAfter FenceState.signaled
        (mainLoop smallConfig nanoPeriod (initialFrameState 0)
          [submitRefusedInput, quietInput 2000000]).2 = none := by
  decide


/-- The fence after the calls of one iteration, from a fence on which the wait
returns: signaled after a dropped iteration, pending after an accepted
submission, unsignaled after a refused one. -/
theorem fenceAfter_frameIteration (cfg : Config) (p : ClockPeriod) (st : FrameState)
    (inp : FrameInput) (f : FenceState) (hf : f ≠ FenceState.unsignaled) (tail : List Call) :
    fenceAfter f ((frameIteration cfg p st inp).2 ++ tail) =
      fenceAfter
        (if FrameDropped st inp then FenceState.signaled
         else if inp.submitResult = VK_SUCCESS then FenceState.pending
         else FenceState.unsignaled) tail := by
  by_cases hd : FrameDropped st inp
  · rw [frameIteration_dropped cfg p st inp hd, if_pos hd]
    simp [fenceAfter, hf]
  · rw [if_neg hd]
    by_cases hu : st.computeUpdateTimer.isUpdateNeeded p inp.checkTime = true
    · rw [frameIteration_step cfg p st inp hd hu]
      unfold beginCommandBuffer recordComputeCommands addMemoryBarrier recordDrawCommands
        submitCommands
      by_cases h1 : inp.beginResult = VK_SUCCESS <;> by_cases h2 : inp.endResult = VK_SUCCESS <;>
        by_cases h3 : inp.submitResult = VK_SUCCESS <;>
        by_cases h4 : inp.presentResult = VK_ERROR_OUT_OF_DATE_KHR ∨
          inp.presentResult = VK_SUBOPTIMAL_KHR <;>
        simp [fenceAfter, hf, h1, h2, h3, h4]
    · rw [frameIteration_idle cfg p st inp hd (Bool.eq_false_iff.2 hu)]
      unfold beginCommandBuffer recordDrawCommands submitCommands
      by_cases h1 : inp.beginResult = VK_SUCCESS <;> by_cases h2 : inp.endResult = VK_SUCCESS <;>
        by_cases h3 : inp.submitResult = VK_SUCCESS <;>
        by_cases h4 : inp.presentResult = VK_ERROR_OUT_OF_DATE_KHR ∨
          inp.presentResult = VK_SUBOPTIMAL_KHR <;>
        simp [fenceAfter, hf, h1, h2, h3, h4]

/-- As long as every submission is accepted, no wait of the frame loop is one
that can never return. -/
theorem fenceAfter_mainLoop_accepted (cfg : Config) (p : ClockPeriod)
    (inputs : List FrameInput) (ha : ∀ inp ∈ inputs, inp.submitResult = VK_SUCCESS) :
    ∀ (st : FrameState) (f : FenceState), f ≠ FenceState.unsignaled →
      ∃ f1, f1 ≠ FenceState.unsignaled ∧
        fenceAfter f (mainLoop cfg p st inputs).2 = some f1 := by
  induction inputs with
  | nil =>
    intro st f hf
    exact ⟨f, hf, rfl⟩
  | cons inp rest ih =>
    intro st f hf
    rw [mainLoop_cons]
    by_cases he : st.exitApplication = true
    · rw [if_pos he]
      exact ⟨f, hf, rfl⟩
    · rw [if_neg he]
      dsimp only
      rw [fenceAfter_frameIteration cfg p st inp f hf]
      have hs := ha inp (List.mem_cons_self _ _)
      refine ih (fun i hi => ha i (List.mem_cons_of_mem _ hi)) _ _ ?_
      by_cases hd : FrameDropped st inp
      · rw [if_pos hd]; decide
      · rw [if_neg hd, if_pos hs]; decide


/-! ## Device limits -/

/-- The function accepts the limits that are strictly greater than the
configured values, and only these. -/
theorem areDeviceLimitsSufficient_iff (cfg : Config) (limits : DeviceLimits) :
    areDeviceLimitsSufficient cfg limits = true ↔
      limits.maxComputeWorkGroupInvocations > cfg.COMPUTE_LOCAL_GROUP_SIZE_X ∧
      limits.maxComputeWorkGroupSizeX > cfg.COMPUTE_LOCAL_GROUP_SIZE_X ∧
      limits.maxComputeWorkGroupCountX > cfg.X_DISPATCH_COUNT ∧
      limits.maxStorageBufferRange > cfg.GRID_SIZE * 4 ∧
      limits.maxTexelBufferElements > cfg.GRID_SIZE ∧
      limits.maxPushConstantsSize > SIZEOF_PUSH_CONSTANTS := by
  unfold areDeviceLimitsSufficient SIZEOF_UINT32
  simp only [Bool.and_eq_true, decide_eq_true_eq]
  tauto

/-- Limits that the function accepts are at least the configured values. -/
theorem limitsAtLeastConfigured_of_sufficient (cfg : Config) (limits : DeviceLimits)
    (h : areDeviceLimitsSufficient cfg limits = true) : LimitsAtLeastConfigured cfg limits := by
  rw [areDeviceLimitsSufficient_iff] at h
  unfold LimitsAtLeastConfigured
  omega

/-- Claim C23. The limits `exactLimits` are equal to the configured values
(group size 32, dispatch count 8192, `GRID_SIZE * 4 = 4194304` bytes,
`GRID_SIZE = 1048576` texels, 8 bytes of push constants), hence greater than or
equal to each of them, and `areDeviceLimitsSufficient` returns `false` for
them. It also returns `false` for the limits of a common desktop device, which
allow 1024 invocations in a work group, once the configured work group size
is 1024, a value that the assertions of `Grid.cpp` accept; the same limits are
accepted for the configured size 32. -/
theorem areDeviceLimitsSufficient_rejects_equal_limits :
    LimitsAtLeastConfigured defaultConfig exactLimits ∧
    areDeviceLimitsSufficient defaultConfig exactLimits = false ∧
    wideGroupConfig.staticAsserts ∧
    LimitsAtLeastConfigured wideGroupConfig largeLimits ∧
    areDeviceLimitsSufficient wideGroupConfig largeLimits = false ∧
    areDeviceLimitsSufficient defaultConfig largeLimits = true := by
  decide

/-! ## Runtime statistics -/

/-- The frame count is the number of calls of `notifyFrameBegin`. -/
theorem frameCount_run (p : ClockPeriod) (start : Int) (frames : List Int) :
    (RuntimeStatistics.run p start frames)._frameCount = (frames.length : Int) := by
  unfold RuntimeStatistics.run
  have h : ∀ (l : List Int) (s : RuntimeStatistics),
      (l.foldl (RuntimeStatistics.notifyFrameBegin p) s)._frameCount =
        s._frameCount + (l.length : Int) := by
    intro l
    induction l with
    | nil =>
      intro s
      simp
    | cons a rest ih =>
      intro s
      rw [List.foldl_cons, ih]
      have h1 : (RuntimeStatistics.notifyFrameBegin p s a)._frameCount = s._frameCount + 1 := by
        unfold RuntimeStatistics.notifyFrameBegin
        dsimp only
        cases s._isFirstFrame <;> rfl
      rw [h1, List.length_cons]
      push_cast
      omega
  rw [h]
  show (0 : Int) + _ = _
  omega

/-- Claim C28. After the constructor at clock reading 0 and one call of
`notifyFrameBegin`, the frame count is 1; when `printResults` runs half a
millisecond after the constructor, the runtime is 0 ms, the average frame time
`0 / 1` is 0, and the division `1000 / averageFrameTime` is a division by
zero. The same happens after 3 frames within 2 ms. -/
theorem printResults_divides_by_zero :
    (RuntimeStatistics.run nanoPeriod 0 [100])._frameCount = 1 ∧
    durationCastMs nanoPeriod (500000 - (RuntimeStatistics.run nanoPeriod 0 [100])._runtimeStart)
      = 0 ∧
    longDiv 0 (RuntimeStatistics.run nanoPeriod 0 [100])._frameCount = some 0 ∧
    longDiv 1000 0 = none ∧
    (RuntimeStatistics.run nanoPeriod 0 [100]).printResults nanoPeriod 500000 = none ∧
    (RuntimeStatistics.run nanoPeriod 0 [100, 700000, 1400000]).printResults nanoPeriod 2100000
      = none := by
  decide


/-! ## Device selection -/

theorem deviceScore_pos (d : PhysicalDevice) : 0 < deviceScore d := by
  unfold deviceScore
  cases d.deviceType <;> decide

theorem deviceScore_eq (d : PhysicalDevice) :
    deviceScore d =
      if d.deviceType = DeviceType.discreteGpu then 100
      else if d.deviceType = DeviceType.integratedGpu then 50 else 10 := by
  unfold deviceScore
  cases d.deviceType <;> rfl

/-- One iteration of the selection loop: a device that passes the checks with
a score above the best one so far replaces the choice, any other device leaves
it as it is. -/
theorem selectStep_eq (cfg : Config) (sel : Selection) (i : Nat) (d : PhysicalDevice) :
    selectStep cfg sel i d =
      if passesChecks cfg d = true ∧ deviceScore d > sel.bestDeviceScore then
        { bestDeviceOpt := some i, bestDeviceScore := deviceScore d,
          queueIndex := (chooseQueue d).getD 0 }
      else sel := by
  unfold selectStep passesChecks
  cases h1 : isDeviceSupportingSurfacePresentation d <;>
    cases h2 : isDeviceSupportingTexelBufferFormat d <;>
    cases h3 : chooseQueue d <;>
    cases h4 : areDeviceLimitsSufficient cfg d.limits <;>
    simp

theorem passesChecks_chooseQueue {cfg : Config} {d : PhysicalDevice}
    (h : passesChecks cfg d = true) : chooseQueue d = some ((chooseQueue d).getD 0) := by
  unfold passesChecks at h
  simp only [Bool.and_eq_true] at h
  obtain ⟨⟨⟨-, -⟩, h3⟩, -⟩ := h
  cases hq : chooseQueue d with
  | none => rw [hq] at h3; exact absurd h3 (by decide)
  | some q => rfl

/-- One iteration keeps the invariant of the selection loop. -/
theorem selectStep_inv (cfg : Config) (seen : List PhysicalDevice) (sel : Selection)
    (d : PhysicalDevice) (h : SelectionInv cfg seen sel) :
    SelectionInv cfg (seen ++ [d]) (selectStep cfg sel seen.length d) := by
  rw [selectStep_eq]
  by_cases hc : passesChecks cfg d = true ∧ deviceScore d > sel.bestDeviceScore
  · rw [if_pos hc]
    unfold SelectionInv
    dsimp only
    refine ⟨d, ?_, hc.1, passesChecks_chooseQueue hc.1, rfl, ?_, ?_⟩
    · rw [List.getElem?_append_right (le_refl _)]
      simp
    · intro d2 hd2 hp2
      rcases List.mem_append.1 hd2 with hm | hm
      · unfold SelectionInv at h
        cases hb : sel.bestDeviceOpt with
        | none =>
          rw [hb] at h
          dsimp only at h
          rw [h.2 d2 hm] at hp2
          exact absurd hp2 (by decide)
        | some k =>
          rw [hb] at h
          dsimp only at h
          obtain ⟨d0, -, -, -, hs, hmax, -⟩ := h
          have := hmax d2 hm hp2
          omega
      · rw [List.mem_singleton] at hm
        rw [hm]
    · intro d2 hd2 hp2
      rw [List.take_append_of_le_length (le_refl _), List.take_length] at hd2
      unfold SelectionInv at h
      cases hb : sel.bestDeviceOpt with
      | none =>
        rw [hb] at h
        dsimp only at h
        rw [h.2 d2 hd2] at hp2
        exact absurd hp2 (by decide)
      | some k =>
        rw [hb] at h
        dsimp only at h
        obtain ⟨d0, -, -, -, hs, hmax, -⟩ := h
        have := hmax d2 hd2 hp2
        omega
  · rw [if_neg hc]
    unfold SelectionInv at h ⊢
    cases hb : sel.bestDeviceOpt with
    | none =>
      rw [hb] at h
      dsimp only at h ⊢
      refine ⟨h.1, fun d2 hd2 => ?_⟩
      rcases List.mem_append.1 hd2 with hm | hm
      · exact h.2 d2 hm
      · rw [List.mem_singleton] at hm
        rw [hm]
        by_contra hp
        have hp1 : passesChecks cfg d = true := by
          cases hv : passesChecks cfg d
          · exact absurd hv hp
          · rfl
        have := deviceScore_pos d
        exact hc ⟨hp1, by omega⟩
    | some k =>
      rw [hb] at h
      dsimp only at h ⊢
      obtain ⟨d0, hk, hp0, hq0, hs, hmax, hfirst⟩ := h
      have hklt : k < seen.length := by
        by_contra hn
        rw [List.getElem?_eq_none (by omega)] at hk
        exact absurd hk (by simp)
      refine ⟨d0, ?_, hp0, hq0, hs, ?_, ?_⟩
      · rw [List.getElem?_append_left hklt]
        exact hk
      · intro d2 hd2 hp2
        rcases List.mem_append.1 hd2 with hm | hm
        · exact hmax d2 hm hp2
        · rw [List.mem_singleton] at hm
          rw [hm] at hp2 ⊢
          by_contra hgt
          exact hc ⟨hp2, by omega⟩
      · intro d2 hd2 hp2
        rw [List.take_append_of_le_length (le_of_lt hklt)] at hd2
        exact hfirst d2 hd2 hp2

/-- The selection loop keeps its invariant. -/
theorem selectLoop_inv (cfg : Config) (rest : List PhysicalDevice) :
    ∀ (seen : List PhysicalDevice) (sel : Selection), SelectionInv cfg seen sel →
      SelectionInv cfg (seen ++ rest) (selectLoop cfg rest seen.length sel) := by
  induction rest with
  | nil =>
    intro seen sel h
    rw [List.append_nil]
    exact h
  | cons d rest ih =>
    intro seen sel h
    have h1 := ih (seen ++ [d]) _ (selectStep_inv cfg seen sel d h)
    rw [List.length_append, List.length_singleton, List.append_assoc] at h1
    exact h1

/-- Claim C30. The selection loop of `createDevice` reports failure exactly
when no enumerated device passes the presentation, texel-format, queue-family
and limit checks. Otherwise it picks a device of the enumeration that passes
them, together with the queue family that `chooseQueue` returns for it; the
score of that device (100 for a discrete GPU, 50 for an integrated GPU, 10 for
any other type) is the highest among the devices that pass, and every passing
device before it in enumeration order has a lower score. -/
theorem selectDevice_picks_first_best (cfg : Config) (devices : List PhysicalDevice) :
    (selectDevice cfg devices = none ↔ ∀ d ∈ devices, passesChecks cfg d = false) ∧
    ∀ k q, selectDevice cfg devices = some (k, q) →
      ∃ d, devices[k]? = some d ∧ passesChecks cfg d = true ∧ chooseQueue d = some q ∧
        (deviceScore d =
          if d.deviceType = DeviceType.discreteGpu then 100
          else if d.deviceType = DeviceType.integratedGpu then 50 else 10) ∧
        (∀ d2 ∈ devices, passesChecks cfg d2 = true → deviceScore d2 ≤ deviceScore d) ∧
        (∀ d2 ∈ devices.take k, passesChecks cfg d2 = true → deviceScore d2 < deviceScore d) := by
  have h0 : SelectionInv cfg [] ⟨none, 0, 0⟩ := by
    unfold SelectionInv
    exact ⟨rfl, fun d hd => absurd hd (List.not_mem_nil d)⟩
  have h := selectLoop_inv cfg devices [] _ h0
  rw [List.nil_append] at h
  have hl : selectLoop cfg devices ([] : List PhysicalDevice).length ⟨none, 0, 0⟩ =
      selectLoop cfg devices 0 ⟨none, 0, 0⟩ := rfl
  rw [hl] at h
  unfold selectDevice
  dsimp only
  unfold SelectionInv at h
  cases hb : (selectLoop cfg devices 0 ⟨none, 0, 0⟩).bestDeviceOpt with
  | none =>
    rw [hb] at h
    dsimp only at h ⊢
    refine ⟨⟨fun _ => h.2, fun _ => rfl⟩, fun k q hc => ?_⟩
    exact absurd hc (by simp)
  | some k0 =>
    rw [hb] at h
    dsimp only at h ⊢
    obtain ⟨d0, hk, hp0, hq0, hs, hmax, hfirst⟩ := h
    refine ⟨⟨fun hc => absurd hc (by simp), fun hall => ?_⟩, fun k q hc => ?_⟩
    · have hm : d0 ∈ devices := List.getElem?_mem hk
      rw [hall d0 hm] at hp0
      exact absurd hp0 (by decide)
    · have hkq := Option.some.inj hc
      have e1 : k0 = k := congrArg Prod.fst hkq
      have e2 : (selectLoop cfg devices 0 ⟨none, 0, 0⟩).queueIndex = q := congrArg Prod.snd hkq
      subst e1
      rw [e2] at hq0
      exact ⟨d0, hk, hp0, hq0, deviceScore_eq d0, hmax, hfirst⟩

/-- Claim C30 on an enumeration of four devices: the second device is chosen,
the first discrete GPU that passes the checks, with queue family 2, the last
suitable family of the device. -/
theorem selectDevice_picks_first_best_witness :
    selectDevice defaultConfig sampleDevices = some (1, 2) ∧
    ∃ d, sampleDevices[1]? = some d ∧ passesChecks defaultConfig d = true ∧
      chooseQueue d = some 2 ∧
      (deviceScore d =
        if d.deviceType = DeviceType.discreteGpu then 100
        else if d.deviceType = DeviceType.integratedGpu then 50 else 10) ∧
      (∀ d2 ∈ sampleDevices, passesChecks defaultConfig d2 = true →
        deviceScore d2 ≤ deviceScore d) ∧
      (∀ d2 ∈ sampleDevices.take 1, passesChecks defaultConfig d2 = true →
        deviceScore d2 < deviceScore d) :=
  ⟨by decide, (selectDevice_picks_first_best defaultConfig sampleDevices).2 1 2 (by decide)⟩


/-! ## Recreation of the swapchain -/

theorem isLive_of_fresh {log : HandleLog} {h c : Nat} (hd : ∀ x ∈ log.destroyed, x < c)
    (h1 : c ≤ h) (h2 : h < log.created) : log.isLive h = true := by
  unfold HandleLog.isLive
  have hn : h ∉ log.destroyed := fun hm => by
    have := hd h hm
    omega
  simp [h2, hn]

/-- A call of `recreateSwapchain` in which every step succeeds returns `true`
and leaves a context whose handles are all new and live. -/
theorem recreateSwapchain_success (ctx : SurfaceHandles) (log : HandleLog) (n : Nat)
    (hk : ctx.Known log) :
    (recreateSwapchain ⟨some n, true, true⟩ ctx log).1 = true ∧
    (recreateSwapchain ⟨some n, true, true⟩ ctx log).2.1.allLive
      (recreateSwapchain ⟨some n, true, true⟩ ctx log).2.2 = true ∧
    (recreateSwapchain ⟨some n, true, true⟩ ctx log).2.1.Known
      (recreateSwapchain ⟨some n, true, true⟩ ctx log).2.2 := by
  obtain ⟨k1, k2, k3, k4, k5⟩ := hk
  have hd : ∀ x ∈ (recreateSwapchain ⟨some n, true, true⟩ ctx log).2.2.destroyed,
      x < log.created := by
    intro x hx
    unfold recreateSwapchain at hx
    simp [HandleLog.destroy, HandleLog.destroyAll, HandleLog.create, HandleLog.createMany] at hx
    rcases hx with hx | hx | hx | hx | hx
    · exact k5 x hx
    · rw [hx]; exact k1
    · exact k4 x hx
    · exact k3 x hx
    · rw [hx]; exact k2
  have hc : (recreateSwapchain ⟨some n, true, true⟩ ctx log).2.2.created =
      log.created + 1 + n + n + 1 := by
    unfold recreateSwapchain
    simp [HandleLog.destroy, HandleLog.destroyAll, HandleLog.create, HandleLog.createMany]
  have c1 : (recreateSwapchain ⟨some n, true, true⟩ ctx log).2.1.imageAvailableSemaphore =
      log.created + 1 + n + n := by
    unfold recreateSwapchain
    simp [HandleLog.destroy, HandleLog.destroyAll, HandleLog.create, HandleLog.createMany]
  have c2 : (recreateSwapchain ⟨some n, true, true⟩ ctx log).2.1.swapchain = log.created := by
    unfold recreateSwapchain
    simp [HandleLog.destroy, HandleLog.destroyAll, HandleLog.create, HandleLog.createMany]
  have c3 : ∀ h ∈ (recreateSwapchain ⟨some n, true, true⟩ ctx log).2.1.imageViews,
      log.created ≤ h ∧ h < log.created + 1 + n := by
    intro h hm
    unfold recreateSwapchain at hm
    simp [HandleLog.destroy, HandleLog.destroyAll, HandleLog.create, HandleLog.createMany] at hm
    obtain ⟨a, ha, rfl⟩ := hm
    omega
  have c4 : ∀ h ∈ (recreateSwapchain ⟨some n, true, true⟩ ctx log).2.1.framebuffers,
      log.created ≤ h ∧ h < log.created + 1 + n + n := by
    intro h hm
    unfold recreateSwapchain at hm
    simp [HandleLog.destroy, HandleLog.destroyAll, HandleLog.create, HandleLog.createMany] at hm
    obtain ⟨a, ha, rfl⟩ := hm
    omega
  refine ⟨?_, ?_, ?_⟩
  · unfold recreateSwapchain
    simp
  · unfold SurfaceHandles.allLive
    simp only [Bool.and_eq_true, List.all_eq_true]
    refine ⟨⟨⟨?_, ?_⟩, fun h hm => ?_⟩, fun h hm => ?_⟩
    · exact isLive_of_fresh hd (by rw [c1]; omega) (by rw [c1, hc]; omega)
    · exact isLive_of_fresh hd (by rw [c2]) (by rw [c2, hc]; omega)
    · exact isLive_of_fresh hd (c3 h hm).1 (by rw [hc]; have := (c3 h hm).2; omega)
    · exact isLive_of_fresh hd (c4 h hm).1 (by rw [hc]; have := (c4 h hm).2; omega)
  · unfold SurfaceHandles.Known
    rw [hc, c1, c2]
    refine ⟨by omega, by omega, fun h hm => ?_, fun h hm => ?_, fun h hm => ?_⟩
    · have := (c3 h hm).2; omega
    · have := (c4 h hm).2; omega
    · have := hd h hm; omega

/-- Claim C21. On a context whose handles are all live, a call of
`recreateSwapchain` in which the swapchain cannot be created returns `false`
and leaves the context with the handles it had, all of them destroyed: the
semaphore has been destroyed and not replaced, and the swapchain of the next
acquisition is a destroyed handle. The next call of `recreateSwapchain`, in
which every step succeeds, destroys each of these handles a second time. -/
theorem recreateSwapchain_failure_keeps_destroyed_handles :
    freshSurface.1.allLive freshSurface.2 = true ∧
    afterFailedRecreate.1 = false ∧
    afterFailedRecreate.2.1 = freshSurface.1 ∧
    afterFailedRecreate.2.2.isLive afterFailedRecreate.2.1.imageAvailableSemaphore = false ∧
    afterFailedRecreate.2.2.isLive afterFailedRecreate.2.1.swapchain = false ∧
    afterFailedRecreate.2.1.allLive afterFailedRecreate.2.2 = false ∧
    (recreateSwapchain recreateSucceeds afterFailedRecreate.2.1
        afterFailedRecreate.2.2).2.2.destroyed =
      [0, 4, 5, 2, 3, 1, 0, 4, 5, 2, 3, 1] ∧
    (recreateSwapchain recreateSucceeds afterFailedRecreate.2.1
        afterFailedRecreate.2.2).2.2.destroyed.count
      afterFailedRecreate.2.1.imageAvailableSemaphore = 2 := by
  decide



/-! ## The run of `main` -/

/-- The run of `main` once the window and the Vulkan context are there. -/
theorem main_entered (cfg : Config) (p : ClockPeriod) (o : InitOutcome)
    (statisticsStart startTime : Int) (inputs : List FrameInput) (printTime : Int)
    (ho : (VulkanContext.init o).operatorBool = true) :
    main cfg p true true o statisticsStart startTime inputs printTime =
      match generateHourglass cfg with
      | none => RunResult.gridOutOfBounds
      | some _ =>
        match fenceAfter FenceState.signaled
            (mainLoop cfg p (initialFrameState startTime) inputs).2 with
        | none => RunResult.waitsForever
        | some _ =>
          if !(mainLoop cfg p (initialFrameState startTime) inputs).1.exitApplication then
            RunResult.running (mainLoop cfg p (initialFrameState startTime) inputs).2
          else
            match (loopStatistics cfg p (initialFrameState startTime)
                (RuntimeStatistics.init statisticsStart) inputs).printResults p printTime with
            | none =>
              RunResult.divisionByZero (mainLoop cfg p (initialFrameState startTime) inputs).2
            | some printed =>
              RunResult.returned EXIT_SUCCESS
                ((mainLoop cfg p (initialFrameState startTime) inputs).2 ++
                  [Call.deviceWaitIdle]) printed := by
  unfold main
  rw [ho]
  rfl

/-- The run of `main` once the grid is generated and the loop is entered. -/
theorem main_generated (cfg : Config) (p : ClockPeriod) (o : InitOutcome)
    (statisticsStart startTime : Int) (inputs : List FrameInput) (printTime : Int)
    (ho : (VulkanContext.init o).operatorBool = true) (g : Grid)
    (hg : generateHourglass cfg = some g) :
    main cfg p true true o statisticsStart startTime inputs printTime =
      match fenceAfter FenceState.signaled
          (mainLoop cfg p (initialFrameState startTime) inputs).2 with
      | none => RunResult.waitsForever
      | some _ =>
        if !(mainLoop cfg p (initialFrameState startTime) inputs).1.exitApplication then
          RunResult.running (mainLoop cfg p (initialFrameState startTime) inputs).2
        else
          match (loopStatistics cfg p (initialFrameState startTime)
              (RuntimeStatistics.init statisticsStart) inputs).printResults p printTime with
          | none =>
            RunResult.divisionByZero (mainLoop cfg p (initialFrameState startTime) inputs).2
          | some printed =>
            RunResult.returned EXIT_SUCCESS
              ((mainLoop cfg p (initialFrameState startTime) inputs).2 ++
                [Call.deviceWaitIdle]) printed := by
  rw [main_entered cfg p o statisticsStart startTime inputs printTime ho, hg]

/-- When `main` returns after the frame loop was entered: the status is
`EXIT_SUCCESS`, the calls are those of the loop followed by `vkDeviceWaitIdle`,
and this happens exactly when the grid was generated, no fence wait of the
loop blocks, the loop was left through the exit flag and `printResults` printed
its numbers. -/
theorem main_returned_iff (cfg : Config) (p : ClockPeriod) (o : InitOutcome)
    (statisticsStart startTime : Int) (inputs : List FrameInput) (printTime : Int)
    (ho : (VulkanContext.init o).operatorBool = true)
    (status : Nat) (calls : List Call) (printed : List Int) :
    main cfg p true true o statisticsStart startTime inputs printTime =
        RunResult.returned status calls printed ↔
      status = EXIT_SUCCESS ∧
      calls = (mainLoop cfg p (initialFrameState startTime) inputs).2 ++ [Call.deviceWaitIdle] ∧
      (generateHourglass cfg).isSome = true ∧
      (fenceAfter FenceState.signaled
        (mainLoop cfg p (initialFrameState startTime) inputs).2).isSome = true ∧
      (mainLoop cfg p (initialFrameState startTime) inputs).1.exitApplication = true ∧
      (loopStatistics cfg p (initialFrameState startTime)
        (RuntimeStatistics.init statisticsStart) inputs).printResults p printTime =
          some printed := by
  rw [main_entered cfg p o statisticsStart startTime inputs printTime ho]
  cases generateHourglass cfg with
  | none => simp
  | some g =>
    cases fenceAfter FenceState.signaled
        (mainLoop cfg p (initialFrameState startTime) inputs).2 with
    | none => simp
    | some f =>
      cases (mainLoop cfg p (initialFrameState startTime) inputs).1.exitApplication with
      | false => simp
      | true =>
        cases RuntimeStatistics.printResults p (loopStatistics cfg p (initialFrameState startTime)
            (RuntimeStatistics.init statisticsStart) inputs) printTime with
        | none => simp
        | some pr =>
          simp only [Bool.not_true, Bool.false_eq_true, if_false, RunResult.returned.injEq,
            Option.isSome_some, true_and, Option.some.injEq]
          constructor
          · rintro ⟨h1, h2, h3⟩
            exact ⟨h1.symm, h2.symm, h3⟩
          · rintro ⟨h1, h2, h3⟩
            exact ⟨h1.symm, h2.symm, h3⟩

/-- Claim C22. The exit flag is read only in the loop test: with the flag set
the body does not run, with the flag clear it runs; the calls of an iteration
are the same whether or not its event poll sets the flag, so such an
iteration makes its submission and presentation or its recovery; the loop then
stops at the next test, whatever would follow. When `main` returns after the
loop, it has called `vkDeviceWaitIdle` exactly once, after the calls of the
loop, and it returns whenever the grid was generated, the loop is left through
the flag, no fence wait of the loop blocks and `printResults` prints its
numbers. But `printResults` stands between the loop and `vkDeviceWaitIdle`: in
the run `fastRun`, three iterations within a millisecond and a half with the
request to exit in the third, the loop is left through the flag, the average
frame time is 0 ms, `printResults` divides by zero, and `vkDeviceWaitIdle` is
not called. And in the run of a refused submission followed by an iteration
whose event poll requests the exit, the fence wait of that iteration never
returns. -/
theorem exit_flag_read_at_loop_test (cfg : Config) (p : ClockPeriod) (st : FrameState)
    (inp : FrameInput) (rest : List FrameInput) :
    (st.exitApplication = true → mainLoop cfg p st (inp :: rest) = (st, [])) ∧
    (st.exitApplication = false →
      mainLoop cfg p st (inp :: rest) =
        ((mainLoop cfg p (frameIteration cfg p st inp).1 rest).1,
          (frameIteration cfg p st inp).2 ++
            (mainLoop cfg p (frameIteration cfg p st inp).1 rest).2)) ∧
    (frameIteration cfg p st { inp with exitRequested := true }).2 =
      (frameIteration cfg p st { inp with exitRequested := false }).2 ∧
    (st.exitApplication = false → inp.exitRequested = true →
      mainLoop cfg p st (inp :: rest) = frameIteration cfg p st inp) ∧
    (∀ (o : InitOutcome) (statisticsStart startTime : Int) (inputs : List FrameInput)
        (printTime : Int) (status : Nat) (calls : List Call) (printed : List Int),
      (VulkanContext.init o).operatorBool = true →
      main cfg p true true o statisticsStart startTime inputs printTime =
          RunResult.returned status calls printed →
        (mainLoop cfg p (initialFrameState startTime) inputs).1.exitApplication = true ∧
        calls = (mainLoop cfg p (initialFrameState startTime) inputs).2 ++
          [Call.deviceWaitIdle] ∧
        calls.count Call.deviceWaitIdle = 1) ∧
    (∀ (o : InitOutcome) (statisticsStart startTime : Int) (inputs : List FrameInput)
        (printTime : Int) (printed : List Int),
      (VulkanContext.init o).operatorBool = true →
      (generateHourglass cfg).isSome = true →
      (fenceAfter FenceState.signaled
        (mainLoop cfg p (initialFrameState startTime) inputs).2).isSome = true →
      (mainLoop cfg p (initialFrameState startTime) inputs).1.exitApplication = true →
      (loopStatistics cfg p (initialFrameState startTime)
        (RuntimeStatistics.init statisticsStart) inputs).printResults p printTime =
          some printed →
        main cfg p true true o statisticsStart startTime inputs printTime =
          RunResult.returned EXIT_SUCCESS
            ((mainLoop cfg p (initialFrameState startTime) inputs).2 ++ [Call.deviceWaitIdle])
            printed) ∧
    ((mainLoop defaultConfig nanoPeriod (initialFrameState 0) fastRun).1.exitApplication =
        true ∧
      (loopStatistics defaultConfig nanoPeriod (initialFrameState 0)
        (RuntimeStatistics.init 0) fastRun)._frameCount = 3 ∧
      durationCastMs nanoPeriod (2100000 - 0) = 2 ∧
      longDiv 2 3 = some 0 ∧
      longDiv 1000 0 = none ∧
      main defaultConfig nanoPeriod true true allSucceed 0 0 fastRun 2100000 =
        RunResult.divisionByZero
          [Call.waitForFences, Call.acquireNextImage, Call.resetFences,
           Call.resetCommandBuffer, Call.beginCommandBuffer, Call.cmdDraw 0 0,
           Call.endCommandBuffer, Call.queueSubmit, Call.queuePresent 0,
           Call.waitForFences, Call.acquireNextImage, Call.resetFences,
           Call.resetCommandBuffer, Call.beginCommandBuffer, Call.cmdDraw 0 0,
           Call.endCommandBuffer, Call.queueSubmit, Call.queuePresent 0,
           Call.waitForFences, Call.acquireNextImage, Call.resetFences,
           Call.resetCommandBuffer, Call.beginCommandBuffer, Call.cmdDispatch 0 0 12345 8192,
           Call.cmdPipelineBarrier 1 0 4194304, Call.cmdDraw 1 0, Call.endCommandBuffer,
           Call.queueSubmit, Call.queuePresent 0]) ∧
    (fenceAfter FenceState.signaled
        (frameIteration defaultConfig nanoPeriod (initialFrameState 0) submitRefusedInput).2 =
        some FenceState.unsignaled ∧
      main defaultConfig nanoPeriod true true allSucceed 0 0
        [submitRefusedInput, exitInput 2000000] 3000000 = RunResult.waitsForever) := by
  refine ⟨fun h => mainLoop_exit cfg p st h _, fun h => ?_, ?_, fun h1 h2 => ?_,
    fun o statisticsStart startTime inputs printTime status calls printed ho hm => ?_,
    fun o statisticsStart startTime inputs printTime printed ho hg hw he hp => ?_,
    ⟨by decide, by decide, by decide, by decide, by decide, ?_⟩, by decide, ?_⟩
  · rw [mainLoop_cons, h]
    rfl
  · exact (frameIteration_calls_ignore_exit cfg p st inp true).trans
      (frameIteration_calls_ignore_exit cfg p st inp false).symm
  · have he : (frameIteration cfg p st inp).1.exitApplication = true := by
      rw [frameIteration_exitApplication, h2, Bool.or_true]
    rw [mainLoop_cons, h1, mainLoop_exit cfg p _ he rest]
    simp
  · obtain ⟨-, hc, -, -, he, -⟩ :=
      (main_returned_iff cfg p o statisticsStart startTime inputs printTime ho status calls
        printed).1 hm
    refine ⟨he, hc, ?_⟩
    rw [hc, List.count_append,
      List.count_eq_zero_of_not_mem (deviceWaitIdle_not_mem_mainLoop cfg p inputs _)]
    rfl
  · exact (main_returned_iff cfg p o statisticsStart startTime inputs printTime ho _ _ _).2
      ⟨rfl, rfl, hg, hw, he, hp⟩
  · obtain ⟨g, hg, -⟩ := generateHourglass_default
    rw [main_generated defaultConfig nanoPeriod allSucceed 0 0 fastRun 2100000 (by decide) g hg]
    decide
  · obtain ⟨g, hg, -⟩ := generateHourglass_default
    rw [main_generated defaultConfig nanoPeriod allSucceed 0 0
      [submitRefusedInput, exitInput 2000000] 3000000 (by decide) g hg]
    decide

end VkHourglass
